import Mathlib

/-!
# Sonicators/PowerSupply : frequency estimator, closed-loop tuner, calibration

Shallow embedding of `Software/Src/Freq.c`, `SG3525.c`, `SG3525Cal.c`,
`SG3525Cmd.c` and `AD8400.h`.

Conventions
* `uint16_t` values are `Nat` reduced `% 65536`, `uint8_t` values `% 256`.
* Module-level C variables become fields of an explicit state record.
* Hardware reads are inputs of the embedded function; hardware writes and
  serial output are appended to an event log carried in the state.
-/

namespace PowerSupply

/-! ## Freq.c -/

/-- The `Freq` module state (Freq.c lines 62-67).  `Counts` has `TICKS_PER_SEC`
entries; `Ptr` is kept as the offset of the C pointer from `Freq.Counts`. -/
structure FreqData where
  Counts    : List Nat
  Ptr       : Nat
  PrevTimer : Nat
  TimerExt  : Nat
deriving DecidableEq, Repr

/-- Function `FreqInit` (Freq.c lines 106-110): `memset` to zero, cursor at the first slot.
`TICKS_PER_SEC` comes from `Timer.h`, which is not part of the sources, so it is a
parameter. -/
def FreqInit (TICKS_PER_SEC : Nat) : FreqData :=
  { Counts := List.replicate TICKS_PER_SEC 0, Ptr := 0, PrevTimer := 0, TimerExt := 0 }

/-- The overflow interrupt handler (Freq.c line 193): `Freq.TimerExt++` on a `uint8_t`. -/
def FreqISR (s : FreqData) : FreqData :=
  { s with TimerExt := (s.TimerExt + 1) % 256 }

/-- The snapshot loop of `FreqUpdate` (Freq.c lines 144-147).  `TCNT n` is the value
returned by the `n`-th read of the hardware register `TCNTx`; each pass of the
`do ... while` performs two reads.  The timer interrupt is masked during the loop, so
the extension byte is the same at every pass.  Returns `(TimerCopy, ExtCopy)`, or
`none` if the loop has not ended within `fuel` passes. -/
def ReadTimer (TCNT : Nat → Nat) (TimerExt : Nat) : Nat → Nat → Option (Nat × Nat)
  | 0, _ => none
  | fuel + 1, n =>
    let TimerCopy := TCNT n
    let ExtCopy := TimerExt
    if TimerCopy ≠ TCNT (n + 1) then ReadTimer TCNT TimerExt fuel (n + 2)
    else some (TimerCopy, ExtCopy)

/-- The body of `FreqUpdate` after the snapshot (Freq.c lines 151-160). -/
def FreqStore (s : FreqData) (TimerCopy ExtCopy : Nat) : FreqData :=
  let CurrTimer := ((ExtCopy <<< 8) + TimerCopy) % 65536
  let Counts := s.Counts.set s.Ptr ((CurrTimer + 65536 - s.PrevTimer) % 65536)
  let Ptr := s.Ptr + 1
  { s with
    Counts := Counts
    PrevTimer := CurrTimer
    Ptr := if Ptr ≥ s.Counts.length then 0 else Ptr }

/-- Function `FreqUpdate` (Freq.c lines 133-161) against the read stream `TCNT` of the
hardware counter register. -/
def FreqUpdate (fuel : Nat) (TCNT : Nat → Nat) (s : FreqData) : Option FreqData :=
  (ReadTimer TCNT s.TimerExt fuel 0).map (fun r => FreqStore s r.1 r.2)

/-- The summation loop of `GetFreq` (Freq.c lines 175-176): `i` is a `uint8_t`,
`Result` a `uint16_t`.  `none` when the loop has not ended within `fuel` tests. -/
def GetFreqLoop (Counts : List Nat) : Nat → Nat → Nat → Option Nat
  | 0, _, _ => none
  | fuel + 1, i, Result =>
    if i < Counts.length then
      GetFreqLoop Counts fuel ((i + 1) % 256) ((Result + Counts.getD i 0) % 65536)
    else some Result

/-- Function `GetFreq` (Freq.c lines 172-179). -/
def GetFreq (fuel : Nat) (s : FreqData) : Option Nat :=
  GetFreqLoop s.Counts fuel 0 0

/-- One scheduler tick at which the extended hardware counter holds the 16-bit value
`c` and does not move during the read: the interrupt handler has brought the extension
byte to `c / 256`, and every read of `TCNTx` returns `c % 256`. -/
def FreqTick (s : FreqData) (c : Nat) : Option FreqData :=
  FreqUpdate 1 (fun _ => c % 256) { s with TimerExt := c / 256 % 256 }

/-- A run: `FreqInit` followed by one `FreqUpdate` per counter reading in `cs`. -/
def FreqRun (TICKS_PER_SEC : Nat) (cs : List Nat) : Option FreqData :=
  cs.foldlM FreqTick (FreqInit TICKS_PER_SEC)

/-- The per-tick deltas `d_1..d_N` of the counter readings `cs`, the reading before
the first one being `prev`: wrapping 16-bit differences of consecutive readings. -/
def deltas : Nat → List Nat → List Nat
  | _, [] => []
  | prev, c :: cs => ((c % 65536 + 65536 - prev) % 65536) :: deltas (c % 65536) cs

/-- The last `n` entries of a list. -/
def lastN (n : Nat) (l : List Nat) : List Nat := l.drop (l.length - n)

/-! ## SG3525.h : data -/

inductive SG3525_RUN_MODE where
  | RUN_CONTINUOUS
  | RUN_TIMED
deriving DecidableEq, Repr

inductive SG3525_PWR_MODE where
  | PWR_CONST_FREQ
  | PWR_CAL
  | PWR_CONST_WIPER
deriving DecidableEq, Repr

inductive INPUT_ACTION where
  | INPUT_UNUSED
  | INPUT_XCTRL
  | INPUT_XPOPO
  | INPUT_ESTOP
deriving DecidableEq, Repr

structure INPUT where
  Action : INPUT_ACTION
  Print  : Bool
deriving DecidableEq, Repr

/-- Type `SG3525_SET` (SG3525.h lines 216-227). -/
structure SG3525_SET where
  Freq     : Nat
  Power    : Nat
  RunMode  : SG3525_RUN_MODE
  RunTimer : Nat
  PwrMode  : SG3525_PWR_MODE
  Input1   : INPUT
  Input2   : INPUT
deriving DecidableEq, Repr

/-- Type `SG3525_CURR` (SG3525.h lines 237-251). -/
structure SG3525_CURR where
  RunTimer   : Nat
  Freq       : Nat
  Current    : Nat
  Power      : Nat
  Vcc        : Nat
  Vc         : Nat
  PWM        : Nat
  PWMWiper   : Nat
  FreqCWiper : Nat
  FreqFWiper : Nat
deriving DecidableEq, Repr

/-- Type `SG3525_CAL_STEP` (SG3525Cal.c lines 59-65).  The C variable `CalStep` only
ever receives enumerators; its zero initial value, which is none of them, is replaced
by `WAIT_START` at the first call made with the output off. -/
inductive SG3525_CAL_STEP where
  | WAIT_START
  | WAIT_28K
  | UPPER_FREQ
  | LOWER_FREQ
  | END_CAL
deriving DecidableEq, Repr

/-- The three digital potentiometers (SG3525.h lines 73-106). -/
inductive Pot where
  | PWMPot
  | FreqCPot
  | FreqFPot
deriving DecidableEq, Repr

/-- The fixed texts sent to the serial port. -/
inductive Text where
  | TransducerOFF
  | TransducerON
  | BadFrequency
  | BadPower
  | BadWiper
  | MustBe
  | MustBe0To
  | To
  | TypeHelp
  | Upper
  | Lower
  | Diff
  | Input1
  | Input2
  | ON
  | OFF
deriving DecidableEq, Repr

/-- What the program does to the outside world, in program order. -/
inductive Event where
  /-- A potentiometer chip-select driven low (`_CLR_BIT`). -/
  | Select (p : Pot)
  /-- A potentiometer chip-select driven high (`_SET_BIT`). -/
  | Deselect (p : Pot)
  /-- One byte sent by `PutSPIByte`. -/
  | SPIByte (b : Nat)
  /-- The output-enable line written by `SG3525_ON` (`true`) or `SG3525_OFF`. -/
  | Output (enable : Bool)
  | StartMsg
  | PrintStringP (t : Text)
  | PrintString (t : String)
  | PrintD (n : Int)
  | PrintCRLF
  | ShowMAScreen
deriving DecidableEq, Repr

/-- All module-level state of `SG3525.c` and `SG3525Cal.c`, the level of the
output-enable line (`SG3525_IS_ON`), and the log of external effects. -/
structure State where
  SG3525Set  : SG3525_SET
  SG3525Curr : SG3525_CURR
  IsOn       : Bool
  CalStep    : SG3525_CAL_STEP
  CalCount   : Nat
  UpperFreq  : Nat
  LowerFreq  : Nat
  Log        : List Event
deriving DecidableEq, Repr

/-- Constants of headers that are not part of the sources. -/
structure Consts where
  /-- From `MCP4161.h`. -/
  MCP4161_STEPS : Nat
  /-- From `MCP4131.h`. -/
  MCP4131_STEPS : Nat
  /-- From `Command.h`. -/
  ESC_CMD : String

def AD8400_STEPS : Nat := 256

def PWMPot_MAX_WIPER (K : Consts) : Int := (K.MCP4161_STEPS : Int) - 1

def FreqCPot_MAX_WIPER (K : Consts) : Int := (K.MCP4131_STEPS : Int) - 1

def FreqFPot_MAX_WIPER : Nat := AD8400_STEPS - 1

def SG3525_MIN_FREQ : Nat := 20000

def SG3525_DEF_FREQ : Nat := 28000

def SG3525_MAX_FREQ : Nat := 35000

def SG3525_MIN_POWER : Nat := 0

def SG3525_MAX_POWER : Nat := 100 * 10

def CAL_FREQ : Nat := 28000

/-- The pre-decrement `--x` of a `uint16_t`. -/
def dec16 (x : Nat) : Nat := (x + 65535) % 65536

/-- The pre-increment `++x` of a `uint16_t`. -/
def inc16 (x : Nat) : Nat := (x + 1) % 65536

/-- Append events to the log. -/
def emit (es : List Event) (s : State) : State :=
  { s with Log := s.Log ++ es }

/-! ## AD8400.h and the two MCP41x1 drivers -/

/-- Macro `AD8400SetWiper` (AD8400.h lines 120-125).  `PutSPIByte` (`SPIInline.h`, not
part of the sources) sends one byte: the argument is evaluated once and reduced to
eight bits. -/
def AD8400SetWiper (p : Pot) (W : Nat) : List Event :=
  [Event.Select p, Event.SPIByte 0, Event.SPIByte (W % 256), Event.Deselect p]

/-- Modelled from the spec: `MCP4131SetWiper` of `MCP4131.h`, which is not part of the
sources.  Section 4.3: assert chip-select, transmit a fixed command byte (0) then the
wiper value, deassert chip-select. -/
def MCP4131SetWiper (p : Pot) (W : Nat) : List Event :=
  [Event.Select p, Event.SPIByte 0, Event.SPIByte (W % 256), Event.Deselect p]

/-- Modelled from the spec: `MCP4161SetWiper` of `MCP4161.h`, which is not part of the
sources.  Section 4.3: assert chip-select, transmit a fixed command byte (0) then the
wiper value, deassert chip-select. -/
def MCP4161SetWiper (p : Pot) (W : Nat) : List Event :=
  [Event.Select p, Event.SPIByte 0, Event.SPIByte (W % 256), Event.Deselect p]

/-- Macro `PWMPotSetWiper` (SG3525.h line 272). -/
def PWMPotSetWiper (w : Nat) (s : State) : State := emit (MCP4161SetWiper Pot.PWMPot w) s

/-- Macro `FreqCPotSetWiper` (SG3525.h line 296). -/
def FreqCPotSetWiper (w : Nat) (s : State) : State := emit (MCP4131SetWiper Pot.FreqCPot w) s

/-- Macro `FreqFPotSetWiper` (SG3525.h line 320). -/
def FreqFPotSetWiper (w : Nat) (s : State) : State := emit (AD8400SetWiper Pot.FreqFPot w) s

/-! ## SG3525.c -/

/-- Function `SG3525Run` (SG3525.c lines 130-141). -/
def SG3525Run (Run : Bool) (s : State) : State :=
  if Run then
    let s := if s.SG3525Set.RunMode = SG3525_RUN_MODE.RUN_TIMED then
        { s with SG3525Curr := { s.SG3525Curr with RunTimer := s.SG3525Set.RunTimer } }
      else s
    emit [Event.Output true] { s with IsOn := true }
  else
    let s := { s with SG3525Curr := { s.SG3525Curr with RunTimer := 0 } }
    emit [Event.Output false] { s with IsOn := false }

/-- First test of `SG3525AdjustFreq` (SG3525.c lines 189-195); the `Bool` is `Changed`. -/
def AdjustFreqDown (s : State) : State × Bool :=
  if s.SG3525Curr.Freq > s.SG3525Set.Freq then
    let s := { s with SG3525Curr :=
      { s.SG3525Curr with FreqFWiper := dec16 s.SG3525Curr.FreqFWiper } }
    (FreqFPotSetWiper s.SG3525Curr.FreqFWiper s, true)
  else (s, false)

/-- Second test of `SG3525AdjustFreq` (SG3525.c lines 197-203). -/
def AdjustFreqUp (p : State × Bool) : State × Bool :=
  let s := p.1
  if s.SG3525Curr.Freq < s.SG3525Set.Freq then
    let s := { s with SG3525Curr :=
      { s.SG3525Curr with FreqFWiper := inc16 s.SG3525Curr.FreqFWiper } }
    (FreqFPotSetWiper s.SG3525Curr.FreqFWiper s, true)
  else p

/-- The control law of `SG3525AdjustFreq` (SG3525.c lines 189-203): the state and the
flag `Changed` as they are when line 205 is reached. -/
def AdjustFreqLaw (s : State) : State × Bool :=
  AdjustFreqUp (AdjustFreqDown s)

/-- Lower guard of `SG3525AdjustFreq` (SG3525.c lines 212-220). -/
def AdjustFreqCarryLow (s : State) : State :=
  if s.SG3525Curr.FreqFWiper < 28 then
    let s := { s with SG3525Curr := { s.SG3525Curr with FreqFWiper := FreqFPot_MAX_WIPER / 2 } }
    let s := { s with SG3525Curr :=
      { s.SG3525Curr with FreqCWiper := dec16 s.SG3525Curr.FreqCWiper } }
    let s := FreqFPotSetWiper s.SG3525Curr.FreqFWiper s
    FreqCPotSetWiper s.SG3525Curr.FreqCWiper s
  else s

/-- Upper guard of `SG3525AdjustFreq` (SG3525.c lines 222-230). -/
def AdjustFreqCarryHigh (s : State) : State :=
  if s.SG3525Curr.FreqFWiper > 228 then
    let s := { s with SG3525Curr := { s.SG3525Curr with FreqFWiper := FreqFPot_MAX_WIPER / 2 } }
    let s := { s with SG3525Curr :=
      { s.SG3525Curr with FreqCWiper := inc16 s.SG3525Curr.FreqCWiper } }
    let s := FreqFPotSetWiper s.SG3525Curr.FreqFWiper s
    FreqCPotSetWiper s.SG3525Curr.FreqCWiper s
  else s

/-- Function `SG3525AdjustFreq` (SG3525.c lines 155-231; the `#if 0` block and the
`SHOW_TUNING` prints are compiled out). -/
def SG3525AdjustFreq (s : State) : State :=
  let p := AdjustFreqLaw s
  if !p.2 then p.1
  else AdjustFreqCarryHigh (AdjustFreqCarryLow p.1)

/-! ## SG3525Cal.c -/

/-- Case `UPPER_FREQ` of `SG3525Cal` (SG3525Cal.c lines 134-138), up to its `break`. -/
def CalUpperFreq (s : State) : State :=
  let s := { s with UpperFreq := s.SG3525Curr.Freq }
  let s := { s with CalStep := SG3525_CAL_STEP.LOWER_FREQ }
  let s := { s with SG3525Curr :=
    { s.SG3525Curr with FreqCWiper := dec16 s.SG3525Curr.FreqCWiper } }
  FreqCPotSetWiper s.SG3525Curr.FreqCWiper s

/-- Case `END_CAL` of `SG3525Cal` (SG3525Cal.c lines 168-179). -/
def CalEndCal (s : State) : State :=
  let s := SG3525Run false s
  let s := { s with CalStep := SG3525_CAL_STEP.WAIT_START }
  let s := { s with SG3525Set := { s.SG3525Set with PwrMode := SG3525_PWR_MODE.PWR_CONST_FREQ } }
  let s := emit (List.replicate 20 Event.PrintCRLF) s
  emit [Event.ShowMAScreen] s

/-- Case `LOWER_FREQ` of `SG3525Cal` (SG3525Cal.c lines 143-158) with its fall-through
into `END_CAL`.  `CalCount` is a `uint8_t`; the test uses its value before the
post-decrement.  `UpperFreq-LowerFreq` is a 16-bit unsigned difference. -/
def CalLowerFreq (s : State) : State :=
  let s := { s with LowerFreq := s.SG3525Curr.Freq }
  let s := { s with CalStep := SG3525_CAL_STEP.UPPER_FREQ }
  let s := { s with SG3525Curr :=
    { s.SG3525Curr with FreqCWiper := dec16 s.SG3525Curr.FreqCWiper } }
  let s := FreqCPotSetWiper s.SG3525Curr.FreqCWiper s
  let s := emit
    [ Event.PrintStringP Text.Upper, Event.PrintD s.UpperFreq, Event.PrintCRLF,
      Event.PrintStringP Text.Lower, Event.PrintD s.LowerFreq, Event.PrintCRLF,
      Event.PrintStringP Text.Diff,
      Event.PrintD ((s.UpperFreq + 65536 - s.LowerFreq) % 65536 : Nat), Event.PrintCRLF ] s
  let old := s.CalCount
  let s := { s with CalCount := (s.CalCount + 255) % 256 }
  if old > 0 then s
  else CalEndCal s

/-- Function `SG3525Cal` (SG3525Cal.c lines 84-182). -/
def SG3525Cal (s : State) : State :=
  if !s.IsOn then { s with CalStep := SG3525_CAL_STEP.WAIT_START }
  else
    match s.CalStep with
    | SG3525_CAL_STEP.WAIT_START =>
      let s := { s with SG3525Curr := { s.SG3525Curr with PWMWiper := 30 } }
      let s := PWMPotSetWiper s.SG3525Curr.PWMWiper s
      let s := { s with SG3525Set := { s.SG3525Set with Freq := CAL_FREQ } }
      let s := SG3525AdjustFreq s
      { s with CalStep := SG3525_CAL_STEP.WAIT_28K }
    | SG3525_CAL_STEP.WAIT_28K =>
      if s.SG3525Curr.Freq < CAL_FREQ - 10 ∨ s.SG3525Curr.Freq > CAL_FREQ + 10 then
        SG3525AdjustFreq s
      else
        let s := { s with CalStep := SG3525_CAL_STEP.UPPER_FREQ }
        let s := { s with CalCount := 10 }
        CalUpperFreq s
    | SG3525_CAL_STEP.UPPER_FREQ => CalUpperFreq s
    | SG3525_CAL_STEP.LOWER_FREQ => CalLowerFreq s
    | SG3525_CAL_STEP.END_CAL => CalEndCal s

/-! ## SG3525Cmd.c -/

/-- The rejection message of the `FR` and `PO` commands (SG3525Cmd.c lines 115-123
and 139-147). -/
def RangeMsg (what : Text) (TokenText : String) (lo hi : Nat) : List Event :=
  [ Event.StartMsg, Event.PrintStringP what, Event.PrintString TokenText,
    Event.PrintStringP Text.MustBe, Event.PrintD lo, Event.PrintStringP Text.To,
    Event.PrintD hi, Event.PrintCRLF, Event.PrintStringP Text.TypeHelp ]

/-- The rejection message of the wiper commands (SG3525Cmd.c lines 240-247, 265-272
and 290-297). -/
def WiperMsg (TokenText : String) (hi : Int) : List Event :=
  [ Event.StartMsg, Event.PrintStringP Text.BadWiper, Event.PrintString TokenText,
    Event.PrintStringP Text.MustBe0To, Event.PrintD hi, Event.PrintCRLF,
    Event.PrintStringP Text.TypeHelp, Event.PrintCRLF ]

/-- The conversion of an `int` to `uint16_t` on assignment. -/
def toU16 (n : Int) : Nat := (n % 65536).toNat

/-- Function `SG3525Cmd` (SG3525Cmd.c lines 74-309; SG3525.h defines both
`USE_ADJ_CMDS` and `USE_WIPER_CMDS`).  `StrEQ`, `ParseToken` and `atoi` are not part
of the sources: `StrEQ` is string equality, `TokenText` is the text returned by
`ParseToken()` and `Num` the value of the `int` variable that receives
`atoi(TokenText)`.  The result is the returned flag and the new state. -/
def SG3525Cmd (K : Consts) (Command TokenText : String) (Num : Int) (s : State) :
    Bool × State :=
  if Command = "OF" ∨ Command = K.ESC_CMD then
    let s := SG3525Run false s
    (true, emit [Event.StartMsg, Event.PrintStringP Text.TransducerOFF] s)
  else if Command = "ON" then
    let s := SG3525Run true s
    (true, emit [Event.StartMsg, Event.PrintStringP Text.TransducerON] s)
  else if Command = "XX" then (true, s)
  else if Command = "FR" then
    if Num < SG3525_MIN_FREQ ∨ Num > SG3525_MAX_FREQ then
      (true, emit (RangeMsg Text.BadFrequency TokenText SG3525_MIN_FREQ SG3525_MAX_FREQ) s)
    else (true, { s with SG3525Set := { s.SG3525Set with Freq := toU16 Num } })
  else if Command = "PO" then
    if Num < SG3525_MIN_POWER ∨ Num > SG3525_MAX_POWER then
      (true, emit (RangeMsg Text.BadPower TokenText SG3525_MIN_POWER SG3525_MAX_POWER) s)
    else (true, { s with SG3525Set := { s.SG3525Set with Power := toU16 Num } })
  else if Command = "U" then
    let s := { s with SG3525Curr :=
      { s.SG3525Curr with FreqCWiper := inc16 s.SG3525Curr.FreqCWiper } }
    (true, FreqCPotSetWiper s.SG3525Curr.FreqCWiper s)
  else if Command = "D" then
    let s := { s with SG3525Curr :=
      { s.SG3525Curr with FreqCWiper := dec16 s.SG3525Curr.FreqCWiper } }
    (true, FreqCPotSetWiper s.SG3525Curr.FreqCWiper s)
  else if Command = "W" then
    let s := { s with SG3525Curr :=
      { s.SG3525Curr with PWMWiper := inc16 s.SG3525Curr.PWMWiper } }
    (true, PWMPotSetWiper s.SG3525Curr.PWMWiper s)
  else if Command = "N" then
    let s := { s with SG3525Curr :=
      { s.SG3525Curr with PWMWiper := dec16 s.SG3525Curr.PWMWiper } }
    (true, PWMPotSetWiper s.SG3525Curr.PWMWiper s)
  else if Command = "+" then
    let s := { s with SG3525Curr :=
      { s.SG3525Curr with FreqFWiper := inc16 s.SG3525Curr.FreqFWiper } }
    (true, FreqFPotSetWiper s.SG3525Curr.FreqFWiper s)
  else if Command = "-" then
    let s := { s with SG3525Curr :=
      { s.SG3525Curr with FreqFWiper := dec16 s.SG3525Curr.FreqFWiper } }
    (true, FreqFPotSetWiper s.SG3525Curr.FreqFWiper s)
  else if Command = "FCW" then
    if Num < 0 ∨ Num > FreqCPot_MAX_WIPER K then
      (true, emit (WiperMsg TokenText (FreqCPot_MAX_WIPER K)) s)
    else
      let s := { s with SG3525Curr := { s.SG3525Curr with FreqCWiper := toU16 Num } }
      (true, FreqCPotSetWiper s.SG3525Curr.FreqCWiper s)
  else if Command = "FFW" then
    if Num < 0 ∨ Num > (FreqFPot_MAX_WIPER : Int) then
      (true, emit (WiperMsg TokenText FreqFPot_MAX_WIPER) s)
    else
      let s := { s with SG3525Curr := { s.SG3525Curr with FreqFWiper := toU16 Num } }
      (true, FreqFPotSetWiper s.SG3525Curr.FreqCWiper s)
  else if Command = "PW" then
    if Num < 0 ∨ Num > PWMPot_MAX_WIPER K then
      (true, emit (WiperMsg TokenText (PWMPot_MAX_WIPER K)) s)
    else
      let s := { s with SG3525Curr := { s.SG3525Curr with PWMWiper := toU16 Num } }
      (true, PWMPotSetWiper s.SG3525Curr.PWMWiper s)
  else (false, s)

/-- Function `ProcessInput1` (SG3525Cmd.c lines 322-362). -/
def ProcessInput1 (Input1On : Bool) (s : State) : State :=
  let s := if s.SG3525Set.Input1.Print then
      emit [ Event.StartMsg, Event.PrintStringP Text.Input1,
             Event.PrintStringP (if Input1On then Text.ON else Text.OFF) ] s
    else s
  match s.SG3525Set.Input1.Action with
  | INPUT_ACTION.INPUT_UNUSED => s
  | INPUT_ACTION.INPUT_XCTRL => SG3525Run Input1On s
  | INPUT_ACTION.INPUT_XPOPO => if Input1On then SG3525Run (!s.IsOn) s else s
  | INPUT_ACTION.INPUT_ESTOP => if Input1On then SG3525Run false s else s

/-- Function `ProcessInput2` (SG3525Cmd.c lines 365-405); line 367 tests `Input1.Print`. -/
def ProcessInput2 (Input2On : Bool) (s : State) : State :=
  let s := if s.SG3525Set.Input1.Print then
      emit [ Event.StartMsg, Event.PrintStringP Text.Input2,
             Event.PrintStringP (if Input2On then Text.ON else Text.OFF) ] s
    else s
  match s.SG3525Set.Input2.Action with
  | INPUT_ACTION.INPUT_UNUSED => s
  | INPUT_ACTION.INPUT_XCTRL => SG3525Run Input2On s
  | INPUT_ACTION.INPUT_XPOPO => if Input2On then SG3525Run (!s.IsOn) s else s
  | INPUT_ACTION.INPUT_ESTOP => if Input2On then SG3525Run false s else s

/-! ## SG3525Update -/

/-- What the collaborators of `SG3525Update` deliver during one tick: the values
returned by `GetPWMFreq()`, `GetFreq()` (after this tick's `FreqUpdate()`), `GetPWM()`
and `ACS712GetCurrent()`, and the trigger events, if any, that `InputsUpdate()` passes
to `ProcessInput1` and `ProcessInput2`. -/
structure Tick where
  GetPWMFreq       : Nat
  GetFreq          : Nat
  GetPWM           : Nat
  ACS712GetCurrent : Nat
  Input1           : Option Bool
  Input2           : Option Bool
deriving DecidableEq, Repr

/-- Modelled from the spec: `InputsUpdate` of `Inputs.c`, which is not part of the
sources.  Section 4.7: each of the two inputs delivers a clean per-tick event to its
handler; debouncing and edge detection happen before. -/
def InputsUpdate (m : Tick) (s : State) : State :=
  let s := match m.Input1 with
    | some b => ProcessInput1 b s
    | none => s
  match m.Input2 with
  | some b => ProcessInput2 b s
  | none => s

/-- The run-timer step of `SG3525Update` (SG3525.c lines 301-305). -/
def UpdateRunTimer (s : State) : State :=
  if s.IsOn ∧ s.SG3525Set.RunMode = SG3525_RUN_MODE.RUN_TIMED then
    let s := { s with SG3525Curr := { s.SG3525Curr with RunTimer := dec16 s.SG3525Curr.RunTimer } }
    if s.SG3525Curr.RunTimer = 0 then SG3525Run false s else s
  else s

/-- The measurement refresh of `SG3525Update` (SG3525.c lines 291-296); all four
fields are `uint16_t`. -/
def UpdateMeasure (m : Tick) (s : State) : State :=
  let s := { s with SG3525Curr := { s.SG3525Curr with
    Freq := if s.IsOn then m.GetPWMFreq % 65536 else (m.GetFreq % 65536) >>> 1 } }
  let s := { s with SG3525Curr := { s.SG3525Curr with PWM := m.GetPWM % 65536 } }
  let s := { s with SG3525Curr := { s.SG3525Curr with Current := m.ACS712GetCurrent % 65536 } }
  { s with SG3525Curr := { s.SG3525Curr with Power := (s.SG3525Curr.Current * 12) % 65536 } }

/-- Function `SG3525Update` (SG3525.c lines 274-342).  `PWMUpdate` and `ACS712Update` only
refresh the values that the getters return. -/
def SG3525Update (m : Tick) (s : State) : State :=
  let s := InputsUpdate m s
  let s := UpdateMeasure m s
  let s := UpdateRunTimer s
  match s.SG3525Set.PwrMode with
  | SG3525_PWR_MODE.PWR_CONST_FREQ => SG3525AdjustFreq s
  | SG3525_PWR_MODE.PWR_CAL => SG3525Cal s
  | SG3525_PWR_MODE.PWR_CONST_WIPER => s

/-! ## Scenarios -/

/-- A concrete state for instantiating the theorems below: the values stored by
`SG3525Init` (SG3525.c lines 94-109, with a 129-step coarse potentiometer), the output
off, const-frequency mode, both inputs unused, an idle calibration session and an
empty log. -/
def bootState : State :=
  { SG3525Set :=
      { Freq := SG3525_DEF_FREQ, Power := SG3525_MIN_POWER
        RunMode := SG3525_RUN_MODE.RUN_CONTINUOUS, RunTimer := 0
        PwrMode := SG3525_PWR_MODE.PWR_CONST_FREQ
        Input1 := { Action := INPUT_ACTION.INPUT_UNUSED, Print := false }
        Input2 := { Action := INPUT_ACTION.INPUT_UNUSED, Print := false } }
    SG3525Curr :=
      { RunTimer := 0, Freq := 0, Current := 0, Power := 0, Vcc := 0, Vc := 0, PWM := 0
        PWMWiper := 30, FreqCWiper := 67, FreqFWiper := FreqFPot_MAX_WIPER / 2 }
    IsOn := false
    CalStep := SG3525_CAL_STEP.WAIT_START
    CalCount := 0
    UpperFreq := 0
    LowerFreq := 0
    Log := [] }

/-- A tick without input events in which every getter returns the given values. -/
def quietTick (GetPWMFreq GetFreq : Nat) : Tick :=
  { GetPWMFreq := GetPWMFreq, GetFreq := GetFreq, GetPWM := 0, ACS712GetCurrent := 0
    Input1 := none, Input2 := none }

/-- Constants for instantiating the command theorems: the step counts of the
MCP4161 (257) and MCP4131 (129) parts, and the escape character as `ESC_CMD`. -/
def sampleConsts : Consts :=
  { MCP4161_STEPS := 257, MCP4131_STEPS := 129, ESC_CMD := String.singleton (Char.ofNat 27) }

/-- The three mirrored wipers are valid positions of their potentiometers:
each lies in `[0, steps-1]`. -/
def wipersInRange (K : Consts) (s : State) : Prop :=
  (s.SG3525Curr.PWMWiper : Int) ≤ PWMPot_MAX_WIPER K ∧
    (s.SG3525Curr.FreqCWiper : Int) ≤ FreqCPot_MAX_WIPER K ∧
    (s.SG3525Curr.FreqFWiper : Int) ≤ (FreqFPot_MAX_WIPER : Int)

instance (K : Consts) (s : State) : Decidable (wipersInRange K s) := by
  unfold wipersInRange; infer_instance

/-- A simulated plant whose frequency falls by 1 Hz per fine-wiper step and is
28000 Hz at mid-scale. -/
def fallingPlant (w : Nat) : Nat := 28127 - w

/-- A simulated plant whose frequency rises by 3 Hz per fine-wiper step and passes
28000 Hz between wiper positions 126 and 127. -/
def risingPlant (w : Nat) : Nat := 27620 + 3 * w

/-- The state `s` with the measured frequency replaced by `m`. -/
def withFreq (m : Nat) (s : State) : State :=
  { s with SG3525Curr := { s.SG3525Curr with Freq := m } }

/-- The state `s` with the mirrored fine wiper replaced by `f`. -/
def withFine (f : Nat) (s : State) : State :=
  { s with SG3525Curr := { s.SG3525Curr with FreqFWiper := f } }

/-- The state `s` with the mirrored coarse wiper replaced by `c`. -/
def withCoarse (c : Nat) (s : State) : State :=
  { s with SG3525Curr := { s.SG3525Curr with FreqCWiper := c } }

/-- The state `s` with the output-enable line at the given level. -/
def withOutput (enable : Bool) (s : State) : State :=
  { s with IsOn := enable }

/-- The state `s` with the target frequency replaced by `t`. -/
def withTarget (t : Nat) (s : State) : State :=
  { s with SG3525Set := { s.SG3525Set with Freq := t } }

/-- Tuner calls in sequence, the measured and the target frequency being set to the
given pair before each call. -/
def TuneWith (s : State) (mt : List (Nat × Nat)) : State :=
  mt.foldl (fun s p => SG3525AdjustFreq (withTarget p.2 (withFreq p.1 s))) s

/-- One tuner call in closed loop with a simulated plant: the measured frequency is
refreshed from the plant, a function of the fine wiper, before the call. -/
def PlantStep (plant : Nat → Nat) (s : State) : State :=
  SG3525AdjustFreq (withFreq (plant s.SG3525Curr.FreqFWiper) s)

/-- The tracking error `|measured - target|` that the plant shows in state `s`. -/
def PlantError (plant : Nat → Nat) (s : State) : Nat :=
  Int.natAbs ((plant s.SG3525Curr.FreqFWiper : Int) - (s.SG3525Set.Freq : Int))

/-- Number of transfers to potentiometer `p` recorded in a log. -/
def writesTo (p : Pot) (log : List Event) : Nat :=
  log.count (Event.Select p)

/-- The state `s` with the calibration step replaced by `step`. -/
def withCalStep (step : SG3525_CAL_STEP) (s : State) : State :=
  { s with CalStep := step }

/-- The state `s` with the calibration down-counter replaced by `n`. -/
def withCalCount (n : Nat) (s : State) : State :=
  { s with CalCount := n }

/-- The state `s` with the power mode replaced by `mode`. -/
def withPwrMode (mode : SG3525_PWR_MODE) (s : State) : State :=
  { s with SG3525Set := { s.SG3525Set with PwrMode := mode } }

/-- The state `s` with run mode Timed and a configured run-timer duration of `n`. -/
def withTimed (n : Nat) (s : State) : State :=
  { s with SG3525Set := { s.SG3525Set with
      RunMode := SG3525_RUN_MODE.RUN_TIMED, RunTimer := n } }

/-- A concrete state inside a calibration session: the boot state with calibrating
mode selected, the output on, and the given calibration step, down-counter and
measured frequency. -/
def calState (step : SG3525_CAL_STEP) (count freq : Nat) : State :=
  withFreq freq (withCalCount count (withCalStep step
    (withOutput true (withPwrMode SG3525_PWR_MODE.PWR_CAL bootState))))

/-- A sample state waiting in `WAIT_START` with the output on. -/
def sampleStart : State := calState SG3525_CAL_STEP.WAIT_START 0 27000

/-- A sample state in `WAIT_28K` with the measurement on the upper bound of the band. -/
def sampleWait : State := calState SG3525_CAL_STEP.WAIT_28K 0 28010

/-- A sample state about to execute the `UPPER_FREQ` step. -/
def sampleUpper : State := calState SG3525_CAL_STEP.UPPER_FREQ 10 28000

/-- A sample state about to execute the `LOWER_FREQ` step with three samples to go. -/
def sampleLower : State := calState SG3525_CAL_STEP.LOWER_FREQ 3 27950

/-- A sample state with Timed run mode and a configured run-timer duration of 5. -/
def sampleTimed : State := withTimed 5 bootState

/-- A sample tick without input events: 28000 Hz from the PWM unit, 56000 counted
edges. -/
def sampleTick : Tick := quietTick 28000 56000

/-- Calibrator calls in sequence, the measured frequency being refreshed to the given
value before each call; nothing else touches the state in between, so the output
stays as the calibrator leaves it. -/
def CalRun (s : State) (ms : List Nat) : State :=
  ms.foldl (fun s m => SG3525Cal (withFreq m s)) s

/-- One `SG3525Update` call per tick, in sequence. -/
def UpdateRun (s : State) (ticks : List Tick) : State :=
  ticks.foldl (fun s m => SG3525Update m s) s

/-- The state in which `SG3525Update` reaches its `switch` (SG3525.c line 307):
inputs handled, measurements refreshed, run timer handled. -/
def UpdatePrepare (m : Tick) (s : State) : State :=
  UpdateRunTimer (UpdateMeasure m (InputsUpdate m s))

/-- Number of calibration reports (the three lines printed by the `LOWER_FREQ` case)
recorded in a log. -/
def reportsIn (log : List Event) : Nat :=
  log.count (Event.PrintStringP Text.Lower)

/-- Number of writes of the output-enable line to its disabled level (`SG3525_OFF`)
recorded in a log. -/
def disablesIn (log : List Event) : Nat :=
  log.count (Event.Output false)

/-- The potentiometer bus traffic recorded in a log: chip-select edges and bytes. -/
def busEvents (log : List Event) : List Event :=
  log.filter (fun e =>
    match e with
    | Event.Select _ => true
    | Event.Deselect _ => true
    | Event.SPIByte _ => true
    | _ => false)

/-- The calibration report of the `LOWER_FREQ` case (SG3525Cal.c lines 147-155) for
the samples `upper` and `lower`. -/
def calReport (upper lower : Nat) : List Event :=
  [ Event.PrintStringP Text.Upper, Event.PrintD upper, Event.PrintCRLF,
    Event.PrintStringP Text.Lower, Event.PrintD lower, Event.PrintCRLF,
    Event.PrintStringP Text.Diff,
    Event.PrintD ((upper + 65536 - lower) % 65536 : Nat), Event.PrintCRLF ]

/-- Number of calibrator calls, the current one included, up to and including the one
that runs `END_CAL`, for a session that is in its `UPPER_FREQ`/`LOWER_FREQ`
alternation with the output kept on. -/
def callsToEndCal (s : State) : Nat :=
  if s.CalStep = SG3525_CAL_STEP.LOWER_FREQ then 2 * s.CalCount + 1 else 2 * s.CalCount + 2

/-- The part of the state that belongs to the calibration session and its reporting:
power mode, calibration step and counter, both samples, and the numbers of screen
redraws and of reports in the log. -/
def sessionView (s : State) :
    SG3525_PWR_MODE × SG3525_CAL_STEP × Nat × Nat × Nat × Nat × Nat :=
  (s.SG3525Set.PwrMode, s.CalStep, s.CalCount, s.UpperFreq, s.LowerFreq,
    s.Log.count Event.ShowMAScreen, reportsIn s.Log)

/-- The part of the state that input handling, measurement refresh and run-timer
handling leave alone: the set-point, the three mirrored wipers, the calibration
session, the potentiometer bus traffic, and the numbers of screen redraws and of
calibration reports. -/
def controlView (s : State) :
    SG3525_SET × Nat × Nat × Nat × SG3525_CAL_STEP × Nat × Nat × Nat × List Event × Nat × Nat :=
  (s.SG3525Set, s.SG3525Curr.PWMWiper, s.SG3525Curr.FreqCWiper, s.SG3525Curr.FreqFWiper,
    s.CalStep, s.CalCount, s.UpperFreq, s.LowerFreq, busEvents s.Log,
    s.Log.count Event.ShowMAScreen, reportsIn s.Log)

/-- The read stream of `TCNTx` in which the low byte changes once, from `a` to `b`,
right after the first read. -/
def oneChange (a b : Nat) : Nat → Nat :=
  fun n => if n = 0 then a else b

/-! ## AD8400.h : resistance conversion -/

/-- Modelled from the spec: macro `SCALE_RATIO` of `PortMacros.h`, which is not part of
the sources.  Section 4.3: the one shared scaling function, `round(value*num/den)`;
the nearest integer is taken in integer arithmetic, a half going up. -/
def SCALE_RATIO (v n d : Nat) : Nat := (v * n + d / 2) / d

/-- Macro `AD8400_R2W` (AD8400.h line 90): the resistance is cast to `uint32_t`, scaled
by `AD8400_STEPS / _M_`, and the result is cast to `uint16_t`. -/
def AD8400_R2W (M R : Nat) : Nat := SCALE_RATIO (R % 4294967296) AD8400_STEPS M % 65536

/-- Macro `AD8400_W2R` (AD8400.h line 91): the wiper is cast to `uint32_t`, scaled by
`_M_ / AD8400_STEPS`, and the result is cast to `uint16_t`. -/
def AD8400_W2R (M W : Nat) : Nat := SCALE_RATIO (W % 4294967296) M AD8400_STEPS % 65536

/-- Macro `AD8400SetResist` (AD8400.h lines 137-139). -/
def AD8400SetResist (p : Pot) (MAXR R : Nat) : List Event :=
  AD8400SetWiper p (AD8400_R2W MAXR R)

def FreqFPot_MAXR : Nat := 1000

/-- Macro `FreqFPotSetResist` (SG3525.h line 321). -/
def FreqFPotSetResist (r : Nat) (s : State) : State :=
  emit (AD8400SetResist Pot.FreqFPot FreqFPot_MAXR r) s

/-- Macro `FreqFPotR2W` (SG3525.h line 326). -/
def FreqFPotR2W (r : Nat) : Nat := AD8400_R2W FreqFPot_MAXR r

/-- Macro `FreqFPotW2R` (SG3525.h line 328). -/
def FreqFPotW2R (w : Nat) : Nat := AD8400_W2R FreqFPot_MAXR w

/-! ## Timer snapshot while the counted signal runs -/

/-- The read stream of `TCNTx` during one snapshot taken while edges keep arriving:
the extended edge count is `c0` when `DISABLE_INT` executes (Freq.c line 142), and the
hardware has counted `edges n` further edges when the `n`-th read of the loop takes
place.  The register holds the low byte of the count. -/
def countingTCNT (c0 : Nat) (edges : Nat → Nat) : Nat → Nat :=
  fun n => (c0 + edges n) % 256

/-- The extended edge count, as a 16-bit value, at the `n`-th read of that snapshot. -/
def trueCount (c0 : Nat) (edges : Nat → Nat) (n : Nat) : Nat :=
  (c0 + edges n) % 65536

/-- The module state when `DISABLE_INT` executes with the overflow handler up to date:
`FreqISR` has run once per overflow, so the extension byte holds bits 8..15 of the
extended edge count `c0`. -/
def inSync (c0 : Nat) (s : FreqData) : FreqData :=
  { s with TimerExt := c0 / 256 % 256 }

/-- The 16-bit reading `CurrTimer` that `FreqUpdate` combines from its snapshot
(Freq.c line 151); the function keeps it in `Freq.PrevTimer` (line 154). -/
def CurrTimer (fuel : Nat) (TCNT : Nat → Nat) (s : FreqData) : Option Nat :=
  (FreqUpdate fuel TCNT s).map (fun t => t.PrevTimer)

/-! ## SG3525Cmd.c : tables for the command claims -/

/-- Least value of an `int` on the AVR target of these sources (`avr/io.h`), where `int`
has 16 bits. -/
def INT_MIN : Int := -32768

/-- Greatest value of an `int` on the AVR target. -/
def INT_MAX : Int := 32767

/-- The range-checked commands of `SG3525Cmd`: the command word, the two bounds its
argument is tested against, and the message printed when the test fails
(SG3525Cmd.c lines 110-125, 134-149, 235-249, 260-274 and 285-299). -/
def RangeChecked (K : Consts) (TokenText : String) : List (String × Int × Int × List Event) :=
  [ ("FR", SG3525_MIN_FREQ, SG3525_MAX_FREQ,
      RangeMsg Text.BadFrequency TokenText SG3525_MIN_FREQ SG3525_MAX_FREQ),
    ("PO", SG3525_MIN_POWER, SG3525_MAX_POWER,
      RangeMsg Text.BadPower TokenText SG3525_MIN_POWER SG3525_MAX_POWER),
    ("FCW", 0, FreqCPot_MAX_WIPER K, WiperMsg TokenText (FreqCPot_MAX_WIPER K)),
    ("FFW", 0, FreqFPot_MAX_WIPER, WiperMsg TokenText FreqFPot_MAX_WIPER),
    ("PW", 0, PWMPot_MAX_WIPER K, WiperMsg TokenText (PWMPot_MAX_WIPER K)) ]

/-- The command words tested by `SG3525Cmd`, in the order of the tests
(SG3525Cmd.c lines 79-285). -/
def CommandWords (K : Consts) : List String :=
  ["OF", K.ESC_CMD, "ON", "XX", "FR", "PO", "U", "D", "W", "N", "+", "-", "FCW", "FFW", "PW"]

/-- Number of writes of the output-enable line to its enabled level (`SG3525_ON`)
recorded in a log. -/
def enablesIn (log : List Event) : Nat :=
  log.count (Event.Output true)

/-- The message of `ProcessInput1` and `ProcessInput2` (SG3525Cmd.c lines 325-328 and
368-371); `which` is the text naming the input. -/
def InputMsg (which : Text) (pressed : Bool) : List Event :=
  [ Event.StartMsg, Event.PrintStringP which,
    Event.PrintStringP (if pressed then Text.ON else Text.OFF) ]

/-- The state after the first statement of `ProcessInput1` and `ProcessInput2`
(SG3525Cmd.c lines 324-329 and 367-372): both test `SG3525Set.Input1.Print`. -/
def InputPrinted (which : Text) (pressed : Bool) (s : State) : State :=
  if s.SG3525Set.Input1.Print then emit (InputMsg which pressed) s else s

/-- The state `s` with both inputs configured for `action` and with the given print
flag. -/
def withInputs (action : INPUT_ACTION) (print : Bool) (s : State) : State :=
  { s with SG3525Set := { s.SG3525Set with
      Input1 := { Action := action, Print := print }
      Input2 := { Action := action, Print := print } } }

/-- A sample state: both inputs on ToggleOnPress, printing on, Timed run mode with a
duration of 5, output off. -/
def sampleToggle : State := withInputs INPUT_ACTION.INPUT_XPOPO true sampleTimed

/-- A sample rejection message: the one of `FR` for the text `19999`. -/
def sampleReject : List Event :=
  RangeMsg Text.BadFrequency "19999" SG3525_MIN_FREQ SG3525_MAX_FREQ

/-! ## Observations on the event log and on runs -/

/-- One step of the scan for the last wiper byte sent to potentiometer `p`: the first
component is the last byte put on the bus, the second the byte that was the last one
when the chip-select of `p` was last released. -/
def scanWrites (p : Pot) (st : Option Nat × Option Nat) (e : Event) : Option Nat × Option Nat :=
  match e with
  | Event.SPIByte b => (some b, st.2)
  | Event.Deselect q => if q = p then (st.1, st.1) else st
  | _ => st

/-- The wiper byte of the last transfer to potentiometer `p` recorded in a log, if
there is one. -/
def lastWritten (p : Pot) (log : List Event) : Option Nat :=
  (log.foldl (scanWrites p) (none, none)).2

/-- Number of messages naming the input `which` recorded in a log. -/
def messagesIn (which : Text) (log : List Event) : Nat :=
  log.count (Event.PrintStringP which)

/-- The state `s` with the print flags of input 1 and input 2 replaced. -/
def withPrint (p1 p2 : Bool) (s : State) : State :=
  { s with SG3525Set := { s.SG3525Set with
      Input1 := { s.SG3525Set.Input1 with Print := p1 }
      Input2 := { s.SG3525Set.Input2 with Print := p2 } } }

/-- Calibrator calls in sequence.  Before each call the measured frequency is
refreshed, and the output-enable line may have been switched by something other than
the calibrator (a command, an input): `none` leaves it as it is. -/
def CalRunSwitched (s : State) (steps : List (Nat × Option Bool)) : State :=
  steps.foldl (fun s p =>
    SG3525Cal (withFreq p.1 (match p.2 with
      | some b => withOutput b s
      | none => s))) s

/-- The extended edge count after `j` ticks of a run whose cumulative edge counts at
the ticks are `cs`; the count is 0 when the run starts. -/
def edgesAt (cs : List Nat) (j : Nat) : Nat :=
  if j = 0 then 0 else cs.getD (j - 1) 0

/-- The 16-bit counter reading `c_j` taken at tick `j` of a run that starts with the
previous reading `prev`: the low 16 bits of the `j`-th entry of `cs`, and `prev` for
`j = 0`. -/
def readingAt (prev : Nat) (cs : List Nat) (j : Nat) : Nat :=
  if j = 0 then prev else cs.getD (j - 1) 0 % 65536

/-- A sample state at the lower rail of the coarse potentiometer: coarse wiper 0, fine
wiper 28, measured frequency one above the target. -/
def sampleRail : State := withCoarse 0 (withFine 28 (withFreq 28001 bootState))

/-- A sample state with the fine wiper at 0 and the measured frequency above the
target. -/
def sampleFineLow : State := withFine 0 (withFreq 28001 bootState)

/-- A sample state with the fine wiper at 65535 and the measured frequency below the
target. -/
def sampleFineHigh : State := withFine 65535 (withFreq 27999 bootState)

/-- A sample state: the boot state with a target of 30000 Hz, calibrating mode
selected and the output on. -/
def sampleUserTarget : State :=
  withOutput true (withPwrMode SG3525_PWR_MODE.PWR_CAL (withTarget 30000 bootState))

/-- A sample state with Timed run mode and a configured run-timer duration of 0. -/
def sampleTimedZero : State := withTimed 0 bootState

/-! ## Arguments beyond the range of `int`, and mixed input configurations -/

/-- The value an `int` of the 16-bit target holds for the number `n`: `n` reduced to
16 bits, two's complement.  It is what the `int` variables of `SG3525Cmd` receive from
`atoi` (libc, not part of the sources; avr-libc accumulates the digits in a 16-bit
register) for a decimal text that denotes `n`; for `n` in `INT_MIN .. INT_MAX` it is
`n` itself. -/
def toInt16 (n : Int) : Int := (n + 32768) % 65536 - 32768

/-- The field in which each range-checked command of `SG3525Cmd` stores an accepted
argument (SG3525Cmd.c lines 127, 151, 251, 276 and 301). -/
def ArgumentField (Command : String) (s : State) : Nat :=
  if Command = "FR" then s.SG3525Set.Freq
  else if Command = "PO" then s.SG3525Set.Power
  else if Command = "FCW" then s.SG3525Curr.FreqCWiper
  else if Command = "FFW" then s.SG3525Curr.FreqFWiper
  else if Command = "PW" then s.SG3525Curr.PWMWiper
  else 0

/-- Number of messages started (`StartMsg`) recorded in a log. -/
def startsIn (log : List Event) : Nat :=
  log.count Event.StartMsg

/-- The state `s` with the actions of input 1 and input 2 replaced. -/
def withActions (a1 a2 : INPUT_ACTION) (s : State) : State :=
  { s with SG3525Set := { s.SG3525Set with
      Input1 := { s.SG3525Set.Input1 with Action := a1 }
      Input2 := { s.SG3525Set.Input2 with Action := a2 } } }

/-- A sample state with the two inputs configured differently: Timed run mode with a
duration of 5, printing on for both inputs, the given actions and output level. -/
def mixedInputs (a1 a2 : INPUT_ACTION) (enable : Bool) : State :=
  withOutput enable (withPrint true true (withActions a1 a2 sampleTimed))


/-- The message that rejects the text `66000` as a power. -/
def sampleRejectPower : List Event :=
  RangeMsg Text.BadPower "66000" SG3525_MIN_POWER SG3525_MAX_POWER

/-- A mixed configuration: input 1 is the emergency stop, input 2 the direct control, output on. -/
def sampleStop1 : State :=
  mixedInputs INPUT_ACTION.INPUT_ESTOP INPUT_ACTION.INPUT_XCTRL true

/-- A mixed configuration: input 2 is the emergency stop, input 1 the direct control, output off. -/
def sampleStop2 : State :=
  mixedInputs INPUT_ACTION.INPUT_XCTRL INPUT_ACTION.INPUT_ESTOP false

/-- A mixed configuration: input 1 is the toggle, input 2 the emergency stop, output off. -/
def sampleToggle1 : State :=
  mixedInputs INPUT_ACTION.INPUT_XPOPO INPUT_ACTION.INPUT_ESTOP false

/-- A mixed configuration: input 2 is the toggle, input 1 the direct control, output on. -/
def sampleToggle2 : State :=
  mixedInputs INPUT_ACTION.INPUT_XCTRL INPUT_ACTION.INPUT_XPOPO true

/-- A mixed configuration: input 1 is the direct control, input 2 is unused, output off. -/
def sampleDirect1 : State :=
  mixedInputs INPUT_ACTION.INPUT_XCTRL INPUT_ACTION.INPUT_UNUSED false

/-- A mixed configuration: input 2 is the direct control, input 1 the emergency stop, output off. -/
def sampleDirect2 : State :=
  mixedInputs INPUT_ACTION.INPUT_ESTOP INPUT_ACTION.INPUT_XCTRL false

/-- A mixed configuration: input 1 is unused, input 2 is the direct control, output off. -/
def sampleUnused1 : State :=
  mixedInputs INPUT_ACTION.INPUT_UNUSED INPUT_ACTION.INPUT_XCTRL false

/-- A mixed configuration: input 2 is unused, input 1 is the toggle, output off. -/
def sampleUnused2 : State :=
  mixedInputs INPUT_ACTION.INPUT_XPOPO INPUT_ACTION.INPUT_UNUSED false

/-! ## Freq.c : lemmas -/

theorem ReadTimer_stable (lo ext fuel n : Nat) :
    ReadTimer (fun _ => lo) ext (fuel + 1) n = some (lo, ext) := by
  simp [ReadTimer]

theorem combine_bytes (c : Nat) : ((c / 256 % 256) <<< 8 + c % 256) % 65536 = c % 65536 := by
  rw [Nat.shiftLeft_eq]
  omega

/-- A tick with a stable counter always completes, and its effect is explicit. -/
theorem FreqTick_eq (s : FreqData) (c : Nat) :
    FreqTick s c = some
      { Counts := s.Counts.set s.Ptr ((c % 65536 + 65536 - s.PrevTimer) % 65536)
        Ptr := if s.Ptr + 1 ≥ s.Counts.length then 0 else s.Ptr + 1
        PrevTimer := c % 65536
        TimerExt := c / 256 % 256 } := by
  simp only [FreqTick, FreqUpdate, ReadTimer_stable, Option.map_some', FreqStore, combine_bytes]

/-- Writing at the cursor and advancing it drops the oldest entry of the window and
appends the new one. -/
theorem rotate_set_succ (l : List Nat) (p d : Nat) (hp : p < l.length) :
    (l.set p d).rotate (if p + 1 ≥ l.length then 0 else p + 1)
      = (l.rotate p).drop 1 ++ [d] := by
  have hrot : l.rotate p = l.drop p ++ l.take p :=
    List.rotate_eq_drop_append_take (Nat.le_of_lt hp)
  have hdrop : l.drop p = l[p] :: l.drop (p + 1) := List.drop_eq_getElem_cons hp
  have hset : l.set p d = l.take p ++ d :: l.drop (p + 1) :=
    List.set_eq_take_append_cons_drop.trans (by simp [hp])
  rw [hrot, hdrop]
  simp only [List.cons_append, List.drop_succ_cons, List.drop_zero]
  split
  · rename_i h
    have hlen : l.drop (p + 1) = [] := List.drop_eq_nil_of_le (by omega)
    rw [List.rotate_zero, hset, hlen]
    simp
  · rename_i h
    have hle : p + 1 ≤ (l.set p d).length := by simp; omega
    rw [List.rotate_eq_drop_append_take hle, hset]
    have h1 : (l.take p ++ d :: l.drop (p + 1)).drop (p + 1) = l.drop (p + 1) := by
      have hl : (l.take p ++ [d]).length = p + 1 := by simp; omega
      have := @List.drop_append _ (l.take p ++ [d]) (l.drop (p + 1)) 0
      simpa [hl] using this
    have h2 : (l.take p ++ d :: l.drop (p + 1)).take (p + 1) = l.take p ++ [d] := by
      have hl : (l.take p ++ [d]).length = p + 1 := by simp; omega
      have := @List.take_append _ (l.take p ++ [d]) (l.drop (p + 1)) 0
      simpa [hl] using this
    rw [h1, h2, List.append_assoc]

/-- Ring invariant of a run of ticks started in any state with a valid cursor: the
buffer read from the cursor onwards is the old window followed by the new deltas, with
as many of the oldest entries dropped as there were ticks. -/
theorem foldlM_FreqTick (cs : List Nat) : ∀ s : FreqData, s.Ptr < s.Counts.length →
    ∃ t, cs.foldlM FreqTick s = some t ∧ t.Counts.length = s.Counts.length ∧
      t.Ptr = (s.Ptr + cs.length) % s.Counts.length ∧
      t.Counts.rotate t.Ptr
        = (s.Counts.rotate s.Ptr ++ deltas s.PrevTimer cs).drop cs.length := by
  induction cs with
  | nil =>
    intro s hp
    exact ⟨s, rfl, rfl, by simp [Nat.mod_eq_of_lt hp], by simp [deltas]⟩
  | cons c cs ih =>
    intro s hp
    rw [List.foldlM_cons, FreqTick_eq]
    obtain ⟨t, ht, hlen, hptr, hrot⟩ := ih
      { Counts := s.Counts.set s.Ptr ((c % 65536 + 65536 - s.PrevTimer) % 65536)
        Ptr := if s.Ptr + 1 ≥ s.Counts.length then 0 else s.Ptr + 1
        PrevTimer := c % 65536
        TimerExt := c / 256 % 256 }
      (by simp only [List.length_set]; split <;> omega)
    refine ⟨t, by simpa using ht, by simpa using hlen, ?_, ?_⟩
    · rw [hptr]
      simp only [List.length_set, List.length_cons]
      split
      · rename_i h
        have : s.Ptr + 1 = s.Counts.length := by omega
        rw [Nat.zero_add, ← Nat.add_assoc, Nat.add_right_comm, this, Nat.add_mod_left]
      · rw [Nat.add_right_comm, Nat.add_assoc]
    · rw [hrot]
      simp only [rotate_set_succ _ _ _ hp, deltas, List.length_cons]
      have hne : (s.Counts.rotate s.Ptr).length = s.Counts.length := List.length_rotate _ _
      cases hr : s.Counts.rotate s.Ptr with
      | nil => rw [hr] at hne; simp at hne; omega
      | cons a r => simp

/-- The summation loop ends for every buffer of at most 255 entries and returns the
16-bit sum of the entries from `i` on, added to `Result`. -/
theorem GetFreqLoop_eq (Counts : List Nat) (hlen : Counts.length ≤ 255) :
    ∀ fuel i r, i ≤ Counts.length → Counts.length - i < fuel → r < 65536 →
      GetFreqLoop Counts fuel i r = some ((r + (Counts.drop i).sum) % 65536) := by
  intro fuel
  induction fuel with
  | zero => intro i r _ h _; omega
  | succ fuel ih =>
    intro i r hi hf hr
    by_cases h : i < Counts.length
    · have hm : (i + 1) % 256 = i + 1 := Nat.mod_eq_of_lt (by omega)
      rw [GetFreqLoop, if_pos h, hm, ih (i + 1) _ (by omega) (by omega) (Nat.mod_lt _ (by decide)),
        List.drop_eq_getElem_cons h, List.getD_eq_getElem _ _ h, List.sum_cons]
      congr 1
      omega
    · have : Counts.drop i = [] := List.drop_eq_nil_of_le (by omega)
      rw [GetFreqLoop, if_neg h, this, List.sum_nil, Nat.add_zero, Nat.mod_eq_of_lt hr]

/-- With 256 or more entries the `uint8_t` index never reaches the bound: the loop
does not end, whatever the fuel. -/
theorem GetFreqLoop_diverges (Counts : List Nat) (hlen : 256 ≤ Counts.length) :
    ∀ fuel i r, i < 256 → GetFreqLoop Counts fuel i r = none := by
  intro fuel
  induction fuel with
  | zero => intro i r _; rfl
  | succ fuel ih =>
    intro i r hi
    rw [GetFreqLoop, if_pos (by omega)]
    exact ih _ _ (Nat.mod_lt _ (by decide))

/-- The zero-padded window of the last `cap` deltas sums to the last
`min N cap` deltas. -/
theorem window_sum (cap : Nat) (ds : List Nat) :
    ((List.replicate cap 0 ++ ds).drop ds.length).sum
      = (lastN (min ds.length cap) ds).sum := by
  unfold lastN
  by_cases h : ds.length ≤ cap
  · rw [List.drop_append_of_le_length (by simpa using h), Nat.min_eq_left h]
    simp
  · have h1 : cap ≤ ds.length := by omega
    have := @List.drop_append _ (List.replicate cap 0) ds (ds.length - cap)
    rw [List.length_replicate, Nat.add_sub_cancel' h1] at this
    rw [this, Nat.min_eq_right h1]

theorem length_deltas : ∀ (cs : List Nat) (prev : Nat), (deltas prev cs).length = cs.length
  | [], _ => rfl
  | _ :: cs, _ => by simp [deltas, length_deltas cs]

/-- State reached by a run: it exists, the cursor is `N mod capacity`, and the buffer
sums to the last `min N capacity` deltas. -/
theorem FreqRun_spec (cap : Nat) (cs : List Nat) (h0 : 0 < cap) :
    ∃ t, FreqRun cap cs = some t ∧ t.Counts.length = cap ∧ t.Ptr = cs.length % cap ∧
      t.Counts.sum = (lastN (min cs.length cap) (deltas 0 cs)).sum := by
  obtain ⟨t, ht, hlen, hptr, hrot⟩ :=
    foldlM_FreqTick cs (FreqInit cap) (by simpa [FreqInit] using h0)
  refine ⟨t, ht, by simpa [FreqInit] using hlen, by simpa [FreqInit] using hptr, ?_⟩
  have hs : (t.Counts.rotate t.Ptr).sum = t.Counts.sum := (List.rotate_perm _ _).sum_eq
  rw [← hs, hrot]
  have := window_sum cap (deltas 0 cs)
  simpa [FreqInit, length_deltas] using this

/-- With 256 or more slots `GetFreq` never returns: the `uint8_t` loop index wraps
before it reaches the bound. -/
theorem GetFreq_diverges (s : FreqData) (h : 256 ≤ s.Counts.length) (fuel : Nat) :
    GetFreq fuel s = none :=
  GetFreqLoop_diverges s.Counts h fuel 0 0 (by decide)

/-! ## Freq.c : claims -/

/-- C1 fails as stated: with a capacity of 2 and the counter readings 40000 and 14464
(two deltas of 40000 each) `GetFreq` returns 14464, while the last two deltas sum to
80000; and with a capacity of 256 `GetFreq` does not return at all. -/
theorem C1_counterexample :
    (FreqRun 2 [40000, 14464]).bind (GetFreq 3) = some 14464 ∧
      deltas 0 [40000, 14464] = [40000, 40000] ∧
      (lastN (min [40000, 14464].length 2) (deltas 0 [40000, 14464])).sum = 80000 ∧
      (∀ fuel, GetFreq fuel (FreqInit 256) = none) := by
  refine ⟨by decide, by decide, by decide, fun fuel => ?_⟩
  exact GetFreq_diverges (FreqInit 256)
    (by show 256 ≤ (List.replicate 256 0).length; rw [List.length_replicate]) fuel

/-- C1 (amended): for every capacity from 1 to 255 and every sequence of N counter
readings fed to `FreqUpdate` after `FreqInit`, the run completes and `GetFreq` returns
(for any fuel above the capacity) the sum of the last `min N capacity` per-tick deltas
reduced modulo 2^16; for N = 0 this is 0. -/
theorem C1_GetFreq_window_sum_mod (cap : Nat) (cs : List Nat) (fuel : Nat)
    (h0 : 0 < cap) (h255 : cap ≤ 255) (hf : cap < fuel) :
    ∃ t, FreqRun cap cs = some t ∧
      GetFreq fuel t
        = some ((lastN (min cs.length cap) (deltas 0 cs)).sum % 65536) := by
  obtain ⟨t, ht, hlen, _, hsum⟩ := FreqRun_spec cap cs h0
  refine ⟨t, ht, ?_⟩
  have := GetFreqLoop_eq t.Counts (by omega) fuel 0 0 (Nat.zero_le _) (by omega) (by decide)
  simpa [GetFreq, hsum] using this

theorem C1_GetFreq_window_sum_mod_witness :
    ∃ t, FreqRun 3 [5, 7, 12, 20] = some t ∧
      GetFreq 4 t
        = some ((lastN (min [5, 7, 12, 20].length 3) (deltas 0 [5, 7, 12, 20])).sum % 65536) :=
  C1_GetFreq_window_sum_mod 3 [5, 7, 12, 20] 4 (by decide) (by decide) (by decide)

/-- C2: one `FreqUpdate` whose snapshot is the 16-bit reading `c = ext*256 + lo`, with
previous reading `p`, stores `(c - p) mod 2^16` in the slot at the cursor, leaves every
other slot unchanged, sets the previous reading to `c` and moves the cursor to
`(cursor + 1) mod capacity`; and after N updates from `FreqInit` the cursor is
`N mod capacity`, a valid index. -/
theorem C2_FreqUpdate_step_and_cursor (fuel : Nat) (TCNT : Nat → Nat) (s : FreqData)
    (lo ext cap : Nat) (cs : List Nat)
    (hread : ReadTimer TCNT s.TimerExt fuel 0 = some (lo, ext))
    (hlo : lo < 256) (hext : ext < 256) (hprev : s.PrevTimer < 65536)
    (hptr : s.Ptr < s.Counts.length) (hcap : 0 < cap) :
    (∃ t d, FreqUpdate fuel TCNT s = some t ∧
        t.Counts.length = s.Counts.length ∧
        t.Counts = s.Counts.set s.Ptr d ∧
        t.Counts[s.Ptr]? = some d ∧
        (d : Int) = (((ext * 256 + lo : Nat) : Int) - (s.PrevTimer : Int)) % 65536 ∧
        t.PrevTimer = ext * 256 + lo ∧
        t.Ptr = (s.Ptr + 1) % s.Counts.length) ∧
      (∃ t, FreqRun cap cs = some t ∧ t.Ptr = cs.length % cap ∧ t.Ptr < cap) := by
  constructor
  · have hc : ((ext <<< 8) + lo) % 65536 = ext * 256 + lo := by
      rw [Nat.shiftLeft_eq]; omega
    refine ⟨FreqStore s lo ext, (ext * 256 + lo + 65536 - s.PrevTimer) % 65536,
      by simp [FreqUpdate, hread], by simp [FreqStore], ?_, ?_, by omega, ?_, ?_⟩
    · simp [FreqStore, hc]
    · simp [FreqStore, hc, hptr]
    · simp [FreqStore, hc]
    · simp only [FreqStore]
      split
      · rename_i h
        have : s.Ptr + 1 = s.Counts.length := by omega
        rw [this, Nat.mod_self]
      · rename_i h
        exact (Nat.mod_eq_of_lt (by omega)).symm
  · obtain ⟨t, ht, _, hp, _⟩ := FreqRun_spec cap cs hcap
    exact ⟨t, ht, hp, hp ▸ Nat.mod_lt _ hcap⟩

theorem C2_FreqUpdate_step_and_cursor_witness :
    (∃ t d, FreqUpdate 1 (fun _ => 7) (FreqInit 3) = some t ∧
        t.Counts.length = (FreqInit 3).Counts.length ∧
        t.Counts = (FreqInit 3).Counts.set (FreqInit 3).Ptr d ∧
        t.Counts[(FreqInit 3).Ptr]? = some d ∧
        (d : Int) = (((0 * 256 + 7 : Nat) : Int) - ((FreqInit 3).PrevTimer : Int)) % 65536 ∧
        t.PrevTimer = 0 * 256 + 7 ∧
        t.Ptr = ((FreqInit 3).Ptr + 1) % (FreqInit 3).Counts.length) ∧
      (∃ t, FreqRun 3 [5, 7, 12, 20] = some t ∧ t.Ptr = [5, 7, 12, 20].length % 3 ∧ t.Ptr < 3) :=
  C2_FreqUpdate_step_and_cursor 1 (fun _ => 7) (FreqInit 3) 7 0 3 [5, 7, 12, 20]
    (by decide) (by decide) (by decide) (by decide) (by decide) (by decide)

/-! ## SG3525AdjustFreq : lemmas -/

theorem midscale : FreqFPot_MAX_WIPER / 2 = 127 := by decide

theorem dec16_cast (x : Nat) : ((dec16 x : Nat) : Int) = ((x : Int) - 1) % 65536 := by
  unfold dec16; omega

theorem inc16_cast (x : Nat) : ((inc16 x : Nat) : Int) = ((x : Int) + 1) % 65536 := by
  unfold inc16; omega

/-- The two tests of the control law are exclusive, so the law is a three-way case
distinction. -/
theorem AdjustFreqLaw_eq (s : State) :
    AdjustFreqLaw s =
      if s.SG3525Curr.Freq > s.SG3525Set.Freq then
        (FreqFPotSetWiper (dec16 s.SG3525Curr.FreqFWiper)
          { s with SG3525Curr :=
            { s.SG3525Curr with FreqFWiper := dec16 s.SG3525Curr.FreqFWiper } }, true)
      else if s.SG3525Curr.Freq < s.SG3525Set.Freq then
        (FreqFPotSetWiper (inc16 s.SG3525Curr.FreqFWiper)
          { s with SG3525Curr :=
            { s.SG3525Curr with FreqFWiper := inc16 s.SG3525Curr.FreqFWiper } }, true)
      else (s, false) := by
  unfold AdjustFreqLaw AdjustFreqUp AdjustFreqDown
  by_cases h1 : s.SG3525Curr.Freq > s.SG3525Set.Freq
  · have h2 : ¬ s.SG3525Curr.Freq < s.SG3525Set.Freq := by omega
    simp [h1, h2, FreqFPotSetWiper, emit]
  · by_cases h2 : s.SG3525Curr.Freq < s.SG3525Set.Freq
    · simp [h1, h2]
    · simp [h1, h2]

theorem AdjustFreqLaw_changed (s : State) :
    (AdjustFreqLaw s).2 = decide (s.SG3525Curr.Freq ≠ s.SG3525Set.Freq) := by
  rw [AdjustFreqLaw_eq]
  by_cases h1 : s.SG3525Curr.Freq > s.SG3525Set.Freq
  · simp [h1]; omega
  · by_cases h2 : s.SG3525Curr.Freq < s.SG3525Set.Freq
    · simp [h1, h2]; omega
    · simp [h1, h2]; omega

/-- The tuner is the identity when the measurement equals the target, and the carry
logic applied to the outcome of the control law otherwise. -/
theorem SG3525AdjustFreq_eq (s : State) :
    SG3525AdjustFreq s =
      if s.SG3525Curr.Freq = s.SG3525Set.Freq then s
      else AdjustFreqCarryHigh (AdjustFreqCarryLow (AdjustFreqLaw s).1) := by
  unfold SG3525AdjustFreq
  simp only [AdjustFreqLaw_changed]
  by_cases h : s.SG3525Curr.Freq = s.SG3525Set.Freq
  · have h1 : ¬ s.SG3525Curr.Freq > s.SG3525Set.Freq := by omega
    have h2 : ¬ s.SG3525Curr.Freq < s.SG3525Set.Freq := by omega
    simp [h, AdjustFreqLaw_eq]
  · simp [h]

/-- Fine wiper, coarse wiper and the untouched fields after the two guards. -/
theorem carry_fields (s : State) :
    (AdjustFreqCarryHigh (AdjustFreqCarryLow s)).SG3525Curr.FreqFWiper
        = (if s.SG3525Curr.FreqFWiper < 28 then 127
           else if s.SG3525Curr.FreqFWiper > 228 then 127 else s.SG3525Curr.FreqFWiper) ∧
      (AdjustFreqCarryHigh (AdjustFreqCarryLow s)).SG3525Curr.FreqCWiper
        = (if s.SG3525Curr.FreqFWiper < 28 then dec16 s.SG3525Curr.FreqCWiper
           else if s.SG3525Curr.FreqFWiper > 228 then inc16 s.SG3525Curr.FreqCWiper
           else s.SG3525Curr.FreqCWiper) := by
  unfold AdjustFreqCarryHigh AdjustFreqCarryLow
  by_cases h1 : s.SG3525Curr.FreqFWiper < 28
  · simp [h1, midscale, FreqFPotSetWiper, FreqCPotSetWiper, emit]
  · by_cases h2 : s.SG3525Curr.FreqFWiper > 228
    · simp [h1, h2, midscale, FreqFPotSetWiper, FreqCPotSetWiper, emit]
    · simp [h1, h2]

/-- The state after line 203: only the fine wiper and the log can differ from the
state at entry. -/
theorem AdjustFreqLaw_frame (s : State) :
    (AdjustFreqLaw s).1.SG3525Set = s.SG3525Set ∧
      (AdjustFreqLaw s).1.IsOn = s.IsOn ∧
      (AdjustFreqLaw s).1.CalStep = s.CalStep ∧
      (AdjustFreqLaw s).1.CalCount = s.CalCount ∧
      (AdjustFreqLaw s).1.UpperFreq = s.UpperFreq ∧
      (AdjustFreqLaw s).1.LowerFreq = s.LowerFreq ∧
      (AdjustFreqLaw s).1.SG3525Curr = { s.SG3525Curr with
        FreqFWiper := (AdjustFreqLaw s).1.SG3525Curr.FreqFWiper } := by
  rw [AdjustFreqLaw_eq]
  by_cases h1 : s.SG3525Curr.Freq > s.SG3525Set.Freq
  · simp [h1, FreqFPotSetWiper, emit]
  · by_cases h2 : s.SG3525Curr.Freq < s.SG3525Set.Freq
    · simp [h1, h2, FreqFPotSetWiper, emit]
    · simp [h1, h2]

/-- The guards change only the two frequency wipers and the log. -/
theorem carry_frame (s : State) :
    (AdjustFreqCarryHigh (AdjustFreqCarryLow s)).SG3525Set = s.SG3525Set ∧
      (AdjustFreqCarryHigh (AdjustFreqCarryLow s)).IsOn = s.IsOn ∧
      (AdjustFreqCarryHigh (AdjustFreqCarryLow s)).CalStep = s.CalStep ∧
      (AdjustFreqCarryHigh (AdjustFreqCarryLow s)).CalCount = s.CalCount ∧
      (AdjustFreqCarryHigh (AdjustFreqCarryLow s)).UpperFreq = s.UpperFreq ∧
      (AdjustFreqCarryHigh (AdjustFreqCarryLow s)).LowerFreq = s.LowerFreq ∧
      (AdjustFreqCarryHigh (AdjustFreqCarryLow s)).SG3525Curr = { s.SG3525Curr with
        FreqFWiper := (AdjustFreqCarryHigh (AdjustFreqCarryLow s)).SG3525Curr.FreqFWiper
        FreqCWiper := (AdjustFreqCarryHigh (AdjustFreqCarryLow s)).SG3525Curr.FreqCWiper } := by
  unfold AdjustFreqCarryHigh AdjustFreqCarryLow
  by_cases h1 : s.SG3525Curr.FreqFWiper < 28
  · simp [h1, midscale, FreqFPotSetWiper, FreqCPotSetWiper, emit]
  · by_cases h2 : s.SG3525Curr.FreqFWiper > 228
    · simp [h1, h2, midscale, FreqFPotSetWiper, FreqCPotSetWiper, emit]
    · simp [h1, h2]

/-- Frame of the tuner: the set-point, the output line, the calibration session and
every field of the current state other than the two frequency wipers are left as they
were. -/
theorem SG3525AdjustFreq_frame (s : State) :
    (SG3525AdjustFreq s).SG3525Set = s.SG3525Set ∧
      (SG3525AdjustFreq s).IsOn = s.IsOn ∧
      (SG3525AdjustFreq s).CalStep = s.CalStep ∧
      (SG3525AdjustFreq s).CalCount = s.CalCount ∧
      (SG3525AdjustFreq s).UpperFreq = s.UpperFreq ∧
      (SG3525AdjustFreq s).LowerFreq = s.LowerFreq ∧
      (SG3525AdjustFreq s).SG3525Curr = { s.SG3525Curr with
        FreqFWiper := (SG3525AdjustFreq s).SG3525Curr.FreqFWiper
        FreqCWiper := (SG3525AdjustFreq s).SG3525Curr.FreqCWiper } := by
  rw [SG3525AdjustFreq_eq]
  by_cases h : s.SG3525Curr.Freq = s.SG3525Set.Freq
  · rw [if_pos h]
    exact ⟨rfl, rfl, rfl, rfl, rfl, rfl, rfl⟩
  · simp only [if_neg h]
    obtain ⟨c1, c2, c3, c4, c5, c6, c7⟩ := carry_frame (AdjustFreqLaw s).1
    obtain ⟨l1, l2, l3, l4, l5, l6, l7⟩ := AdjustFreqLaw_frame s
    refine ⟨c1.trans l1, c2.trans l2, c3.trans l3, c4.trans l4, c5.trans l5, c6.trans l6, ?_⟩
    rw [c7, l7]

/-- Both wipers after one tuner call, as functions of the state at entry. -/
theorem SG3525AdjustFreq_wipers (s : State) :
    (SG3525AdjustFreq s).SG3525Curr.FreqFWiper
        = (if s.SG3525Curr.Freq = s.SG3525Set.Freq then s.SG3525Curr.FreqFWiper
           else if (AdjustFreqLaw s).1.SG3525Curr.FreqFWiper < 28 then 127
           else if (AdjustFreqLaw s).1.SG3525Curr.FreqFWiper > 228 then 127
           else (AdjustFreqLaw s).1.SG3525Curr.FreqFWiper) ∧
      (SG3525AdjustFreq s).SG3525Curr.FreqCWiper
        = (if s.SG3525Curr.Freq = s.SG3525Set.Freq then s.SG3525Curr.FreqCWiper
           else if (AdjustFreqLaw s).1.SG3525Curr.FreqFWiper < 28 then
             dec16 s.SG3525Curr.FreqCWiper
           else if (AdjustFreqLaw s).1.SG3525Curr.FreqFWiper > 228 then
             inc16 s.SG3525Curr.FreqCWiper
           else s.SG3525Curr.FreqCWiper) := by
  rw [SG3525AdjustFreq_eq]
  by_cases h : s.SG3525Curr.Freq = s.SG3525Set.Freq
  · simp [h]
  · simp only [if_neg h]
    have hc : (AdjustFreqLaw s).1.SG3525Curr.FreqCWiper = s.SG3525Curr.FreqCWiper := by
      have := (AdjustFreqLaw_frame s).2.2.2.2.2.2
      rw [this]
    have := carry_fields (AdjustFreqLaw s).1
    rw [hc] at this
    exact this

/-- The fine wiper at line 205, as a function of the state at entry. -/
theorem AdjustFreqLaw_fine (s : State) :
    (AdjustFreqLaw s).1.SG3525Curr.FreqFWiper
      = if s.SG3525Curr.Freq > s.SG3525Set.Freq then dec16 s.SG3525Curr.FreqFWiper
        else if s.SG3525Curr.Freq < s.SG3525Set.Freq then inc16 s.SG3525Curr.FreqFWiper
        else s.SG3525Curr.FreqFWiper := by
  rw [AdjustFreqLaw_eq]
  by_cases h1 : s.SG3525Curr.Freq > s.SG3525Set.Freq
  · simp [h1, FreqFPotSetWiper, emit]
  · by_cases h2 : s.SG3525Curr.Freq < s.SG3525Set.Freq
    · simp [h1, h2, FreqFPotSetWiper, emit]
    · simp [h1, h2]

/-- What one tuner call appends to the log. -/
theorem SG3525AdjustFreq_log (s : State) :
    (SG3525AdjustFreq s).Log = s.Log ++
      (if s.SG3525Curr.Freq = s.SG3525Set.Freq then []
       else AD8400SetWiper Pot.FreqFPot (AdjustFreqLaw s).1.SG3525Curr.FreqFWiper ++
        (if (AdjustFreqLaw s).1.SG3525Curr.FreqFWiper < 28 then
           AD8400SetWiper Pot.FreqFPot 127 ++
             MCP4131SetWiper Pot.FreqCPot (dec16 s.SG3525Curr.FreqCWiper)
         else if (AdjustFreqLaw s).1.SG3525Curr.FreqFWiper > 228 then
           AD8400SetWiper Pot.FreqFPot 127 ++
             MCP4131SetWiper Pot.FreqCPot (inc16 s.SG3525Curr.FreqCWiper)
         else [])) := by
  rw [SG3525AdjustFreq_eq]
  by_cases h : s.SG3525Curr.Freq = s.SG3525Set.Freq
  · simp [h]
  · simp only [if_neg h]
    have hlog : (AdjustFreqLaw s).1.Log
        = s.Log ++ AD8400SetWiper Pot.FreqFPot (AdjustFreqLaw s).1.SG3525Curr.FreqFWiper := by
      rw [AdjustFreqLaw_eq]
      by_cases h1 : s.SG3525Curr.Freq > s.SG3525Set.Freq
      · simp [h1, FreqFPotSetWiper, emit]
      · have h2 : s.SG3525Curr.Freq < s.SG3525Set.Freq := by omega
        simp [h1, h2, FreqFPotSetWiper, emit]
    have hc : (AdjustFreqLaw s).1.SG3525Curr.FreqCWiper = s.SG3525Curr.FreqCWiper := by
      have := (AdjustFreqLaw_frame s).2.2.2.2.2.2
      rw [this]
    generalize (AdjustFreqLaw s).1 = t at hlog hc
    unfold AdjustFreqCarryHigh AdjustFreqCarryLow
    by_cases g1 : t.SG3525Curr.FreqFWiper < 28
    · simp [g1, midscale, FreqFPotSetWiper, FreqCPotSetWiper, emit, hlog, hc]
    · by_cases g2 : t.SG3525Curr.FreqFWiper > 228
      · simp [g1, g2, midscale, FreqFPotSetWiper, FreqCPotSetWiper, emit, hlog, hc]
      · simp [g1, g2, hlog]

/-- Number of coarse-potentiometer transfers made by one tuner call. -/
theorem SG3525AdjustFreq_writes (s : State) :
    writesTo Pot.FreqCPot (SG3525AdjustFreq s).Log = writesTo Pot.FreqCPot s.Log +
      (if s.SG3525Curr.Freq = s.SG3525Set.Freq then 0
       else if (AdjustFreqLaw s).1.SG3525Curr.FreqFWiper < 28 then 1
       else if (AdjustFreqLaw s).1.SG3525Curr.FreqFWiper > 228 then 1
       else 0) := by
  rw [SG3525AdjustFreq_log]
  unfold writesTo
  by_cases h : s.SG3525Curr.Freq = s.SG3525Set.Freq
  · simp [h]
  · by_cases g1 : (AdjustFreqLaw s).1.SG3525Curr.FreqFWiper < 28
    · simp [h, g1, List.count_append, AD8400SetWiper, MCP4131SetWiper, List.count_cons]
    · by_cases g2 : (AdjustFreqLaw s).1.SG3525Curr.FreqFWiper > 228
      · simp [h, g1, g2, List.count_append, AD8400SetWiper, MCP4131SetWiper, List.count_cons]
      · simp [h, g1, g2, List.count_append, AD8400SetWiper, List.count_cons]

/-- While the measurement stays above the target and the fine wiper stays inside the
guard band, `k` tuner calls lower the fine wiper by `k` and leave the coarse wiper. -/
theorem iterate_down (k : Nat) : ∀ s : State,
    s.SG3525Curr.Freq > s.SG3525Set.Freq → s.SG3525Curr.FreqFWiper ≤ 228 →
    k + 28 ≤ s.SG3525Curr.FreqFWiper →
    (SG3525AdjustFreq^[k] s).SG3525Curr.FreqFWiper = s.SG3525Curr.FreqFWiper - k ∧
      (SG3525AdjustFreq^[k] s).SG3525Curr.FreqCWiper = s.SG3525Curr.FreqCWiper ∧
      (SG3525AdjustFreq^[k] s).SG3525Curr.Freq = s.SG3525Curr.Freq ∧
      (SG3525AdjustFreq^[k] s).SG3525Set = s.SG3525Set ∧
      writesTo Pot.FreqCPot (SG3525AdjustFreq^[k] s).Log = writesTo Pot.FreqCPot s.Log := by
  induction k with
  | zero => intro s _ _ _; exact ⟨rfl, rfl, rfl, rfl, rfl⟩
  | succ k ih =>
    intro s hgt h228 hk
    rw [Function.iterate_succ_apply]
    have hne : s.SG3525Curr.Freq ≠ s.SG3525Set.Freq := by omega
    have hlaw : (AdjustFreqLaw s).1.SG3525Curr.FreqFWiper = s.SG3525Curr.FreqFWiper - 1 := by
      rw [AdjustFreqLaw_fine, if_pos hgt]; unfold dec16; omega
    obtain ⟨hf, hc⟩ := SG3525AdjustFreq_wipers s
    obtain ⟨f1, _, _, _, _, _, f7⟩ := SG3525AdjustFreq_frame s
    rw [if_neg hne, hlaw, if_neg (by omega), if_neg (by omega)] at hf hc
    have hfreq : (SG3525AdjustFreq s).SG3525Curr.Freq = s.SG3525Curr.Freq := by rw [f7]
    have hw := SG3525AdjustFreq_writes s
    rw [if_neg hne, hlaw, if_neg (by omega), if_neg (by omega)] at hw
    obtain ⟨i1, i2, i3, i4, i5⟩ := ih (SG3525AdjustFreq s) (by rw [hfreq, f1]; exact hgt)
      (by omega) (by omega)
    refine ⟨by omega, by omega, by omega, i4.trans f1, by omega⟩

/-- One tuner call keeps an 8-bit fine wiper 8-bit. -/
theorem SG3525AdjustFreq_fine_le (s : State) (h : s.SG3525Curr.FreqFWiper ≤ 255) :
    (SG3525AdjustFreq s).SG3525Curr.FreqFWiper ≤ 255 := by
  rw [(SG3525AdjustFreq_wipers s).1]
  split
  · exact h
  · split
    · decide
    · split
      · decide
      · omega

/-! ## SG3525AdjustFreq : claims -/

/-- C3: control law of `SG3525AdjustFreq`.  For every state, when line 205 is reached
the fine wiper has been decremented by one (as a `uint16_t`) and written to the fine
potentiometer if measured > target, incremented by one and written if
measured < target, and nothing else has changed; if measured = target the call leaves
the whole state, log included, unchanged, and otherwise it continues with the carry
logic. -/
theorem C3_AdjustFreq_control_law (s : State) :
    AdjustFreqLaw s =
        (if s.SG3525Curr.Freq > s.SG3525Set.Freq then
          (FreqFPotSetWiper (dec16 s.SG3525Curr.FreqFWiper)
            { s with SG3525Curr :=
              { s.SG3525Curr with FreqFWiper := dec16 s.SG3525Curr.FreqFWiper } }, true)
        else if s.SG3525Curr.Freq < s.SG3525Set.Freq then
          (FreqFPotSetWiper (inc16 s.SG3525Curr.FreqFWiper)
            { s with SG3525Curr :=
              { s.SG3525Curr with FreqFWiper := inc16 s.SG3525Curr.FreqFWiper } }, true)
        else (s, false)) ∧
      ((dec16 s.SG3525Curr.FreqFWiper : Nat) : Int)
        = ((s.SG3525Curr.FreqFWiper : Int) - 1) % 65536 ∧
      ((inc16 s.SG3525Curr.FreqFWiper : Nat) : Int)
        = ((s.SG3525Curr.FreqFWiper : Int) + 1) % 65536 ∧
      SG3525AdjustFreq s =
        (if s.SG3525Curr.Freq = s.SG3525Set.Freq then s
         else AdjustFreqCarryHigh (AdjustFreqCarryLow (AdjustFreqLaw s).1)) :=
  ⟨AdjustFreqLaw_eq s, dec16_cast _, inc16_cast _, SG3525AdjustFreq_eq s⟩

/-- C4: carry of `SG3525AdjustFreq`.  When the tuner makes a one-step change and the
new fine wiper is `f`: if `f < 28` the fine wiper ends at mid-scale
(`FreqFPot_MAX_WIPER/2 = 127`) and the coarse wiper is decremented by one; if
`f > 228` the fine wiper ends at 127 and the coarse wiper is incremented by one; if
`28 ≤ f ≤ 228` the fine wiper stays `f` and the coarse wiper is unchanged. -/
theorem C4_AdjustFreq_carry (s : State) (h : s.SG3525Curr.Freq ≠ s.SG3525Set.Freq) :
    FreqFPot_MAX_WIPER / 2 = 127 ∧
      (SG3525AdjustFreq s).SG3525Curr.FreqFWiper
        = (if (AdjustFreqLaw s).1.SG3525Curr.FreqFWiper < 28 then FreqFPot_MAX_WIPER / 2
           else if (AdjustFreqLaw s).1.SG3525Curr.FreqFWiper > 228 then FreqFPot_MAX_WIPER / 2
           else (AdjustFreqLaw s).1.SG3525Curr.FreqFWiper) ∧
      (SG3525AdjustFreq s).SG3525Curr.FreqCWiper
        = (if (AdjustFreqLaw s).1.SG3525Curr.FreqFWiper < 28 then
             dec16 s.SG3525Curr.FreqCWiper
           else if (AdjustFreqLaw s).1.SG3525Curr.FreqFWiper > 228 then
             inc16 s.SG3525Curr.FreqCWiper
           else s.SG3525Curr.FreqCWiper) := by
  obtain ⟨hf, hc⟩ := SG3525AdjustFreq_wipers s
  rw [if_neg h] at hf hc
  rw [midscale]
  exact ⟨rfl, hf, hc⟩

theorem C4_AdjustFreq_carry_witness :
    FreqFPot_MAX_WIPER / 2 = 127 ∧
      (SG3525AdjustFreq (withFine 28 (withFreq 28001 bootState))).SG3525Curr.FreqFWiper
        = (if (AdjustFreqLaw (withFine 28 (withFreq 28001 bootState))).1.SG3525Curr.FreqFWiper
              < 28 then FreqFPot_MAX_WIPER / 2
           else if (AdjustFreqLaw (withFine 28 (withFreq 28001 bootState))).1.SG3525Curr.FreqFWiper
              > 228 then FreqFPot_MAX_WIPER / 2
           else (AdjustFreqLaw (withFine 28 (withFreq 28001 bootState))).1.SG3525Curr.FreqFWiper) ∧
      (SG3525AdjustFreq (withFine 28 (withFreq 28001 bootState))).SG3525Curr.FreqCWiper
        = (if (AdjustFreqLaw (withFine 28 (withFreq 28001 bootState))).1.SG3525Curr.FreqFWiper
              < 28 then dec16 (withFine 28 (withFreq 28001 bootState)).SG3525Curr.FreqCWiper
           else if (AdjustFreqLaw (withFine 28 (withFreq 28001 bootState))).1.SG3525Curr.FreqFWiper
              > 228 then inc16 (withFine 28 (withFreq 28001 bootState)).SG3525Curr.FreqCWiper
           else (withFine 28 (withFreq 28001 bootState)).SG3525Curr.FreqCWiper) :=
  C4_AdjustFreq_carry (withFine 28 (withFreq 28001 bootState)) (by decide)

/-- C5: exactly one carry per guard crossing.  A single tuner call, from any state
`t`, moves the coarse wiper by at most one step and makes at most one transfer to the
coarse potentiometer.  Starting from a fine wiper `f` in [28, 228] with measured >
target on every call: after any `k < f - 27` calls the coarse wiper is untouched and
the fine wiper is `f - k`; call number `f - 27` decrements the coarse wiper and resets
the fine wiper to 127; and after any `j ≤ 99` further calls the coarse wiper still
shows that single decrement, one coarse transfer in all, and the fine wiper is
`127 - j`. -/
theorem C5_one_carry_per_crossing (s t : State) (f k j : Nat)
    (hf : s.SG3525Curr.FreqFWiper = f) (h28 : 28 ≤ f) (h228 : f ≤ 228)
    (hgt : s.SG3525Curr.Freq > s.SG3525Set.Freq) (hk : k < f - 27) (hj : j ≤ 99) :
    ((SG3525AdjustFreq t).SG3525Curr.FreqCWiper = t.SG3525Curr.FreqCWiper ∨
        (SG3525AdjustFreq t).SG3525Curr.FreqCWiper = dec16 t.SG3525Curr.FreqCWiper ∨
        (SG3525AdjustFreq t).SG3525Curr.FreqCWiper = inc16 t.SG3525Curr.FreqCWiper) ∧
      writesTo Pot.FreqCPot (SG3525AdjustFreq t).Log ≤ writesTo Pot.FreqCPot t.Log + 1 ∧
      ((SG3525AdjustFreq^[k] s).SG3525Curr.FreqCWiper = s.SG3525Curr.FreqCWiper ∧
        (SG3525AdjustFreq^[k] s).SG3525Curr.FreqFWiper = f - k ∧
        writesTo Pot.FreqCPot (SG3525AdjustFreq^[k] s).Log
          = writesTo Pot.FreqCPot s.Log) ∧
      ((SG3525AdjustFreq^[f - 27] s).SG3525Curr.FreqCWiper = dec16 s.SG3525Curr.FreqCWiper ∧
        (SG3525AdjustFreq^[f - 27] s).SG3525Curr.FreqFWiper = 127 ∧
        writesTo Pot.FreqCPot (SG3525AdjustFreq^[f - 27] s).Log
          = writesTo Pot.FreqCPot s.Log + 1) ∧
      ((SG3525AdjustFreq^[f - 27 + j] s).SG3525Curr.FreqCWiper
          = dec16 s.SG3525Curr.FreqCWiper ∧
        (SG3525AdjustFreq^[f - 27 + j] s).SG3525Curr.FreqFWiper = 127 - j ∧
        writesTo Pot.FreqCPot (SG3525AdjustFreq^[f - 27 + j] s).Log
          = writesTo Pot.FreqCPot s.Log + 1) := by
  subst hf
  -- the crossing call, from the state reached after `f - 28` in-band calls
  have cross : ∀ u : State, u.SG3525Curr.Freq > u.SG3525Set.Freq →
      u.SG3525Curr.FreqFWiper = 28 →
      (SG3525AdjustFreq u).SG3525Curr.FreqCWiper = dec16 u.SG3525Curr.FreqCWiper ∧
      (SG3525AdjustFreq u).SG3525Curr.FreqFWiper = 127 ∧
      writesTo Pot.FreqCPot (SG3525AdjustFreq u).Log = writesTo Pot.FreqCPot u.Log + 1 ∧
      (SG3525AdjustFreq u).SG3525Curr.Freq = u.SG3525Curr.Freq ∧
      (SG3525AdjustFreq u).SG3525Set = u.SG3525Set := by
    intro u ugt u28
    have une : u.SG3525Curr.Freq ≠ u.SG3525Set.Freq := by omega
    have ulaw : (AdjustFreqLaw u).1.SG3525Curr.FreqFWiper = 27 := by
      rw [AdjustFreqLaw_fine, if_pos ugt, u28]; decide
    obtain ⟨uf, uc⟩ := SG3525AdjustFreq_wipers u
    have uw := SG3525AdjustFreq_writes u
    obtain ⟨f1, _, _, _, _, _, f7⟩ := SG3525AdjustFreq_frame u
    rw [if_neg une, ulaw, if_pos (by decide)] at uf uc uw
    exact ⟨uc, uf, uw, by rw [f7], f1⟩
  have part1 : ∀ m, m + 28 ≤ s.SG3525Curr.FreqFWiper → _ :=
    fun m hm => iterate_down m s hgt h228 hm
  obtain ⟨a1, a2, a3, a4, a5⟩ := part1 (s.SG3525Curr.FreqFWiper - 28) (by omega)
  obtain ⟨b1, b2, b3, b4, b5⟩ := cross (SG3525AdjustFreq^[s.SG3525Curr.FreqFWiper - 28] s)
    (by rw [a3, a4]; exact hgt) (by omega)
  have hsplit : s.SG3525Curr.FreqFWiper - 27 = 1 + (s.SG3525Curr.FreqFWiper - 28) := by omega
  have hcross : SG3525AdjustFreq^[s.SG3525Curr.FreqFWiper - 27] s
      = SG3525AdjustFreq (SG3525AdjustFreq^[s.SG3525Curr.FreqFWiper - 28] s) := by
    rw [hsplit, Function.iterate_add_apply]; rfl
  have hafter : SG3525AdjustFreq^[s.SG3525Curr.FreqFWiper - 27 + j] s
      = SG3525AdjustFreq^[j] (SG3525AdjustFreq^[s.SG3525Curr.FreqFWiper - 27] s) := by
    rw [Nat.add_comm, Function.iterate_add_apply]
  obtain ⟨c1, c2, c3, c4, c5⟩ := iterate_down j (SG3525AdjustFreq^[s.SG3525Curr.FreqFWiper - 27] s)
    (by rw [hcross, b4, b5, a3, a4]; exact hgt) (by rw [hcross, b2]; decide)
    (by rw [hcross, b2]; omega)
  obtain ⟨d1, d2, _, _, d5⟩ := part1 k (by omega)
  refine ⟨?_, ?_, ⟨d2, d1, d5⟩, ?_, ?_⟩
  · rw [(SG3525AdjustFreq_wipers t).2]
    split
    · exact Or.inl rfl
    · split
      · exact Or.inr (Or.inl rfl)
      · split
        · exact Or.inr (Or.inr rfl)
        · exact Or.inl rfl
  · rw [SG3525AdjustFreq_writes]
    split
    · omega
    · split
      · omega
      · split <;> omega
  · rw [hcross]
    exact ⟨by rw [b1, a2], b2, by rw [b3, a5]⟩
  · rw [hafter]
    refine ⟨by rw [c2, hcross, b1, a2], by rw [c1, hcross, b2], by rw [c5, hcross, b3, a5]⟩

theorem C5_one_carry_per_crossing_witness :
    ((SG3525AdjustFreq bootState).SG3525Curr.FreqCWiper = bootState.SG3525Curr.FreqCWiper ∨
        (SG3525AdjustFreq bootState).SG3525Curr.FreqCWiper
          = dec16 bootState.SG3525Curr.FreqCWiper ∨
        (SG3525AdjustFreq bootState).SG3525Curr.FreqCWiper
          = inc16 bootState.SG3525Curr.FreqCWiper) ∧
      writesTo Pot.FreqCPot (SG3525AdjustFreq bootState).Log
        ≤ writesTo Pot.FreqCPot bootState.Log + 1 ∧
      ((SG3525AdjustFreq^[2] (withFine 30 (withFreq 28001 bootState))).SG3525Curr.FreqCWiper
          = (withFine 30 (withFreq 28001 bootState)).SG3525Curr.FreqCWiper ∧
        (SG3525AdjustFreq^[2] (withFine 30 (withFreq 28001 bootState))).SG3525Curr.FreqFWiper
          = 30 - 2 ∧
        writesTo Pot.FreqCPot (SG3525AdjustFreq^[2] (withFine 30 (withFreq 28001 bootState))).Log
          = writesTo Pot.FreqCPot (withFine 30 (withFreq 28001 bootState)).Log) ∧
      ((SG3525AdjustFreq^[30 - 27] (withFine 30 (withFreq 28001 bootState))).SG3525Curr.FreqCWiper
          = dec16 (withFine 30 (withFreq 28001 bootState)).SG3525Curr.FreqCWiper ∧
        (SG3525AdjustFreq^[30 - 27] (withFine 30 (withFreq 28001 bootState))).SG3525Curr.FreqFWiper
          = 127 ∧
        writesTo Pot.FreqCPot
            (SG3525AdjustFreq^[30 - 27] (withFine 30 (withFreq 28001 bootState))).Log
          = writesTo Pot.FreqCPot (withFine 30 (withFreq 28001 bootState)).Log + 1) ∧
      ((SG3525AdjustFreq^[30 - 27 + 99]
            (withFine 30 (withFreq 28001 bootState))).SG3525Curr.FreqCWiper
          = dec16 (withFine 30 (withFreq 28001 bootState)).SG3525Curr.FreqCWiper ∧
        (SG3525AdjustFreq^[30 - 27 + 99]
            (withFine 30 (withFreq 28001 bootState))).SG3525Curr.FreqFWiper = 127 - 99 ∧
        writesTo Pot.FreqCPot
            (SG3525AdjustFreq^[30 - 27 + 99] (withFine 30 (withFreq 28001 bootState))).Log
          = writesTo Pot.FreqCPot (withFine 30 (withFreq 28001 bootState)).Log + 1) :=
  C5_one_carry_per_crossing (withFine 30 (withFreq 28001 bootState)) bootState 30 2 99
    rfl (by decide) (by decide) (by decide) (by decide) (by decide)

/-- C9: for every state whose mirrored fine wiper is in [0, 255], whatever the measured
and target frequencies, the fine wiper is again in [0, 255] when `SG3525AdjustFreq`
returns; hence it stays in [0, 255] over any sequence of tuner calls, the measured and
target frequencies being arbitrary at each call. -/
theorem C9_fine_wiper_stays_in_range (s : State) (mt : List (Nat × Nat))
    (h : s.SG3525Curr.FreqFWiper ≤ 255) :
    (SG3525AdjustFreq s).SG3525Curr.FreqFWiper ≤ 255 ∧
      (TuneWith s mt).SG3525Curr.FreqFWiper ≤ 255 := by
  refine ⟨SG3525AdjustFreq_fine_le s h, ?_⟩
  unfold TuneWith
  induction mt generalizing s with
  | nil => exact h
  | cons p mt ih =>
    rw [List.foldl_cons]
    exact ih _ (SG3525AdjustFreq_fine_le _ (by simpa [withTarget, withFreq] using h))

theorem C9_fine_wiper_stays_in_range_witness :
    (SG3525AdjustFreq (withFine 0 (withFreq 28001 bootState))).SG3525Curr.FreqFWiper ≤ 255 ∧
      (TuneWith (withFine 0 (withFreq 28001 bootState))
        [(28001, 28000), (27000, 28000), (28000, 28000)]).SG3525Curr.FreqFWiper ≤ 255 :=
  C9_fine_wiper_stays_in_range (withFine 0 (withFreq 28001 bootState))
    [(28001, 28000), (27000, 28000), (28000, 28000)] (by decide)

/-! ## SG3525Update and SG3525Cal : claims -/

/-- C6 fails as stated: from the boot state (output disabled, const-frequency mode,
fine wiper 127) one tick whose counted frequency is 0 moves the fine wiper to 128 and
makes one transfer to the fine potentiometer. -/
theorem C6_counterexample :
    bootState.IsOn = false ∧
      bootState.SG3525Set.PwrMode = SG3525_PWR_MODE.PWR_CONST_FREQ ∧
      bootState.SG3525Curr.FreqFWiper = 127 ∧
      (SG3525Update (quietTick 0 0) bootState).SG3525Curr.FreqFWiper = 128 ∧
      writesTo Pot.FreqFPot bootState.Log = 0 ∧
      writesTo Pot.FreqFPot (SG3525Update (quietTick 0 0) bootState).Log = 1 := by
  decide

/-- C6 (amended): the tuner is not gated by the output state.  With output disabled,
power-mode const-frequency and no input event in the tick, `SG3525Update` sets the
measured frequency to `GetFreq() >> 1` and runs `SG3525AdjustFreq` once against it; it
writes nothing if and only if `GetFreq() >> 1` equals the target frequency, and in that
case both frequency wipers are unchanged. -/
theorem C6_tuner_runs_while_disabled (m : Tick) (s : State)
    (hoff : s.IsOn = false)
    (hmode : s.SG3525Set.PwrMode = SG3525_PWR_MODE.PWR_CONST_FREQ)
    (h1 : m.Input1 = none) (h2 : m.Input2 = none) :
    SG3525Update m s = SG3525AdjustFreq (UpdateMeasure m s) ∧
      (UpdateMeasure m s).SG3525Curr.Freq = (m.GetFreq % 65536) >>> 1 ∧
      ((SG3525Update m s).Log = s.Log ↔ (m.GetFreq % 65536) >>> 1 = s.SG3525Set.Freq) ∧
      ((m.GetFreq % 65536) >>> 1 ≠ s.SG3525Set.Freq ∨
        ((SG3525Update m s).SG3525Curr.FreqFWiper = s.SG3525Curr.FreqFWiper ∧
          (SG3525Update m s).SG3525Curr.FreqCWiper = s.SG3525Curr.FreqCWiper)) := by
  have hu : SG3525Update m s = SG3525AdjustFreq (UpdateMeasure m s) := by
    simp [SG3525Update, InputsUpdate, h1, h2, UpdateRunTimer, UpdateMeasure, hoff, hmode]
  have hfreq : (UpdateMeasure m s).SG3525Curr.Freq = (m.GetFreq % 65536) >>> 1 := by
    simp [UpdateMeasure, hoff]
  have hset : (UpdateMeasure m s).SG3525Set = s.SG3525Set := rfl
  have hlog : (UpdateMeasure m s).Log = s.Log := rfl
  have hfine : (UpdateMeasure m s).SG3525Curr.FreqFWiper = s.SG3525Curr.FreqFWiper := rfl
  have hcoarse : (UpdateMeasure m s).SG3525Curr.FreqCWiper = s.SG3525Curr.FreqCWiper := rfl
  refine ⟨hu, hfreq, ?_, ?_⟩
  · rw [hu, SG3525AdjustFreq_log, hfreq, hset, hlog]
    by_cases h : (m.GetFreq % 65536) >>> 1 = s.SG3525Set.Freq
    · simp [h]
    · simp [h, AD8400SetWiper]
  · by_cases h : (m.GetFreq % 65536) >>> 1 = s.SG3525Set.Freq
    · right
      obtain ⟨wf, wc⟩ := SG3525AdjustFreq_wipers (UpdateMeasure m s)
      rw [hfreq, hset, if_pos h] at wf wc
      rw [hu, wf, wc]
      exact ⟨hfine, hcoarse⟩
    · exact Or.inl h

theorem C6_tuner_runs_while_disabled_witness :
    SG3525Update (quietTick 0 56000) bootState
        = SG3525AdjustFreq (UpdateMeasure (quietTick 0 56000) bootState) ∧
      (UpdateMeasure (quietTick 0 56000) bootState).SG3525Curr.Freq
        = ((quietTick 0 56000).GetFreq % 65536) >>> 1 ∧
      ((SG3525Update (quietTick 0 56000) bootState).Log = bootState.Log ↔
        ((quietTick 0 56000).GetFreq % 65536) >>> 1 = bootState.SG3525Set.Freq) ∧
      (((quietTick 0 56000).GetFreq % 65536) >>> 1 ≠ bootState.SG3525Set.Freq ∨
        ((SG3525Update (quietTick 0 56000) bootState).SG3525Curr.FreqFWiper
            = bootState.SG3525Curr.FreqFWiper ∧
          (SG3525Update (quietTick 0 56000) bootState).SG3525Curr.FreqCWiper
            = bootState.SG3525Curr.FreqCWiper)) :=
  C6_tuner_runs_while_disabled (quietTick 0 56000) bootState rfl rfl rfl rfl

/-- C10: calibration start.  In state `WAIT_START` with output enabled, one `SG3525Cal`
call sets the PWM wiper to 30 and writes it to the PWM potentiometer, sets the target
frequency to `CAL_FREQ = 28000`, runs `SG3525AdjustFreq` once against that new target,
and leaves the calibration state at `WAIT_28K`. -/
theorem C10_calibration_start (s : State)
    (hstep : s.CalStep = SG3525_CAL_STEP.WAIT_START) (hon : s.IsOn = true) :
    SG3525Cal s =
        { SG3525AdjustFreq (withTarget CAL_FREQ (PWMPotSetWiper 30
            { s with SG3525Curr := { s.SG3525Curr with PWMWiper := 30 } })) with
          CalStep := SG3525_CAL_STEP.WAIT_28K } ∧
      CAL_FREQ = 28000 ∧
      (SG3525Cal s).SG3525Curr.PWMWiper = 30 ∧
      (SG3525Cal s).SG3525Set.Freq = 28000 ∧
      (SG3525Cal s).CalStep = SG3525_CAL_STEP.WAIT_28K ∧
      (s.Log ++ MCP4161SetWiper Pot.PWMPot 30) <+: (SG3525Cal s).Log ∧
      writesTo Pot.PWMPot (SG3525Cal s).Log = writesTo Pot.PWMPot s.Log + 1 := by
  have heq : SG3525Cal s =
      { SG3525AdjustFreq (withTarget CAL_FREQ (PWMPotSetWiper 30
          { s with SG3525Curr := { s.SG3525Curr with PWMWiper := 30 } })) with
        CalStep := SG3525_CAL_STEP.WAIT_28K } := by
    simp [SG3525Cal, hstep, hon, withTarget]
  obtain ⟨f1, _, _, _, _, _, f7⟩ := SG3525AdjustFreq_frame (withTarget CAL_FREQ (PWMPotSetWiper 30
          { s with SG3525Curr := { s.SG3525Curr with PWMWiper := 30 } }))
  have hlog := SG3525AdjustFreq_log (withTarget CAL_FREQ (PWMPotSetWiper 30
          { s with SG3525Curr := { s.SG3525Curr with PWMWiper := 30 } }))
  refine ⟨heq, rfl, ?_, ?_, ?_, ?_, ?_⟩
  · rw [heq]; simp only; rw [f7]; rfl
  · rw [heq]; simp only; rw [f1]; rfl
  · rw [heq]
  · rw [heq]; simp only; rw [hlog]
    exact List.prefix_append _ _
  · rw [heq]; simp only; rw [hlog]
    unfold writesTo
    simp only [withTarget, PWMPotSetWiper, emit, List.count_append]
    split
    · simp [MCP4161SetWiper, List.count_cons]
    · split
      · simp [MCP4161SetWiper, AD8400SetWiper, MCP4131SetWiper, List.count_cons]
      · split
        · simp [MCP4161SetWiper, AD8400SetWiper, MCP4131SetWiper, List.count_cons]
        · simp [MCP4161SetWiper, AD8400SetWiper, List.count_cons]

theorem C10_calibration_start_witness :
    SG3525Cal (withOutput true bootState) =
        { SG3525AdjustFreq (withTarget CAL_FREQ (PWMPotSetWiper 30
            { withOutput true bootState with SG3525Curr :=
              { (withOutput true bootState).SG3525Curr with PWMWiper := 30 } })) with
          CalStep := SG3525_CAL_STEP.WAIT_28K } ∧
      CAL_FREQ = 28000 ∧
      (SG3525Cal (withOutput true bootState)).SG3525Curr.PWMWiper = 30 ∧
      (SG3525Cal (withOutput true bootState)).SG3525Set.Freq = 28000 ∧
      (SG3525Cal (withOutput true bootState)).CalStep = SG3525_CAL_STEP.WAIT_28K ∧
      ((withOutput true bootState).Log ++ MCP4161SetWiper Pot.PWMPot 30)
        <+: (SG3525Cal (withOutput true bootState)).Log ∧
      writesTo Pot.PWMPot (SG3525Cal (withOutput true bootState)).Log
        = writesTo Pot.PWMPot (withOutput true bootState).Log + 1 :=
  C10_calibration_start (withOutput true bootState) rfl rfl

theorem toU16_le (n hi : Int) (h0 : ¬ n < 0) (h1 : ¬ n > hi) : ((toU16 n : Nat) : Int) ≤ hi := by
  unfold toU16
  omega

theorem Cmd_FCW_range (K : Consts) (s : State) (t : String) (n : Int)  (hr : wipersInRange K s) :
   wipersInRange K (SG3525Cmd K "FCW" t n s).2 := by
  unfold SG3525Cmd
  simp only [String.reduceEq, false_or, if_false, ite_false, if_true]
  unfold wipersInRange at hr ⊢
  split
  · exact hr
  · split
    · exact hr
    · rename_i h
      rw [not_or] at h
      exact ⟨hr.1, toU16_le _ _ h.1 h.2, hr.2.2⟩

theorem Cmd_FFW_range (K : Consts) (s : State) (t : String) (n : Int)  (hr : wipersInRange K s) :
   wipersInRange K (SG3525Cmd K "FFW" t n s).2 := by
  unfold SG3525Cmd
  simp only [String.reduceEq, false_or, if_false, ite_false, if_true]
  unfold wipersInRange at hr ⊢
  split
  · exact hr
  · split
    · exact hr
    · rename_i h
      rw [not_or] at h
      exact ⟨hr.1, hr.2.1, toU16_le _ _ h.1 h.2⟩

theorem Cmd_PW_range (K : Consts) (s : State) (t : String) (n : Int)  (hr : wipersInRange K s) :
   wipersInRange K (SG3525Cmd K "PW" t n s).2 := by
  unfold SG3525Cmd
  simp only [String.reduceEq, false_or, if_false, ite_false, if_true]
  unfold wipersInRange at hr ⊢
  split
  · exact hr
  · split
    · exact hr
    · rename_i h
      rw [not_or] at h
      exact ⟨toU16_le _ _ h.1 h.2, hr.2.1, hr.2.2⟩

/-- The single-step commands move their wiper by one step of a `uint16_t`. -/
theorem Cmd_single_steps (K : Consts) (s : State) (t : String) (n : Int)
    (hesc : K.ESC_CMD ∉ ["U", "D", "W", "N", "+", "-"]) :
    (SG3525Cmd K "U" t n s).2.SG3525Curr.FreqCWiper = inc16 s.SG3525Curr.FreqCWiper ∧
      (SG3525Cmd K "D" t n s).2.SG3525Curr.FreqCWiper = dec16 s.SG3525Curr.FreqCWiper ∧
      (SG3525Cmd K "W" t n s).2.SG3525Curr.PWMWiper = inc16 s.SG3525Curr.PWMWiper ∧
      (SG3525Cmd K "N" t n s).2.SG3525Curr.PWMWiper = dec16 s.SG3525Curr.PWMWiper ∧
      (SG3525Cmd K "+" t n s).2.SG3525Curr.FreqFWiper = inc16 s.SG3525Curr.FreqFWiper ∧
      (SG3525Cmd K "-" t n s).2.SG3525Curr.FreqFWiper = dec16 s.SG3525Curr.FreqFWiper := by
  simp only [List.mem_cons, List.mem_singleton, List.not_mem_nil, or_false, not_or] at hesc
  obtain ⟨e1, e2, e3, e4, e5, e6⟩ := hesc
  unfold SG3525Cmd
  simp only [String.reduceEq, false_or, if_false, ite_false, if_true,
    Ne.symm e1, Ne.symm e2, Ne.symm e3, Ne.symm e4, Ne.symm e5, Ne.symm e6]
  exact ⟨rfl, rfl, rfl, rfl, rfl, rfl⟩

theorem SG3525AdjustFreq_coarse_cases (s : State) :
    (SG3525AdjustFreq s).SG3525Curr.FreqCWiper = s.SG3525Curr.FreqCWiper ∨
      (SG3525AdjustFreq s).SG3525Curr.FreqCWiper = dec16 s.SG3525Curr.FreqCWiper ∨
      (SG3525AdjustFreq s).SG3525Curr.FreqCWiper = inc16 s.SG3525Curr.FreqCWiper := by
  rw [(SG3525AdjustFreq_wipers s).2]
  split
  · exact Or.inl rfl
  · split
    · exact Or.inr (Or.inl rfl)
    · split
      · exact Or.inr (Or.inr rfl)
      · exact Or.inl rfl

theorem SG3525AdjustFreq_pwm (s : State) :
    (SG3525AdjustFreq s).SG3525Curr.PWMWiper = s.SG3525Curr.PWMWiper := by
  rw [(SG3525AdjustFreq_frame s).2.2.2.2.2.2]

/-- Wipers after one calibrator call: the fine wiper stays 8-bit, the PWM wiper is
left alone or set to 30, and the coarse wiper moves by at most one step. -/
theorem SG3525Cal_wipers (s : State) (h : s.SG3525Curr.FreqFWiper ≤ 255) :
    (SG3525Cal s).SG3525Curr.FreqFWiper ≤ 255 ∧
      ((SG3525Cal s).SG3525Curr.PWMWiper = s.SG3525Curr.PWMWiper ∨
        (SG3525Cal s).SG3525Curr.PWMWiper = 30) ∧
      ((SG3525Cal s).SG3525Curr.FreqCWiper = s.SG3525Curr.FreqCWiper ∨
        (SG3525Cal s).SG3525Curr.FreqCWiper = dec16 s.SG3525Curr.FreqCWiper ∨
        (SG3525Cal s).SG3525Curr.FreqCWiper = inc16 s.SG3525Curr.FreqCWiper) := by
  unfold SG3525Cal
  by_cases hon : s.IsOn = true
  · simp only [hon, Bool.not_true, Bool.false_eq_true, if_false]
    cases hs : s.CalStep with
    | WAIT_START =>
      simp only
      exact ⟨SG3525AdjustFreq_fine_le _ h, Or.inr (SG3525AdjustFreq_pwm _),
        SG3525AdjustFreq_coarse_cases _⟩
    | WAIT_28K =>
      simp only
      split
      · exact ⟨SG3525AdjustFreq_fine_le _ h, Or.inl (SG3525AdjustFreq_pwm _),
          SG3525AdjustFreq_coarse_cases _⟩
      · simp [CalUpperFreq, FreqCPotSetWiper, emit, h]
    | UPPER_FREQ => simp [CalUpperFreq, FreqCPotSetWiper, emit, h]
    | LOWER_FREQ =>
      simp only [CalLowerFreq]
      split
      · simp [FreqCPotSetWiper, emit, h]
      · simp [CalEndCal, SG3525Run, FreqCPotSetWiper, emit, h]
    | END_CAL => simp [CalEndCal, SG3525Run, emit, h]
  · simp [hon, h]

theorem withFreq_fields (m : Nat) (s : State) :
    (withFreq m s).SG3525Curr.Freq = m ∧ (withFreq m s).SG3525Set = s.SG3525Set ∧
      (withFreq m s).SG3525Curr.FreqFWiper = s.SG3525Curr.FreqFWiper := ⟨rfl, rfl, rfl⟩

/-- One closed-loop step from inside the guard band lowers the fine wiper by one when
the plant is above the target. -/
theorem PlantStep_down (g : Nat → Nat) (s : State)
    (hgt : g s.SG3525Curr.FreqFWiper > s.SG3525Set.Freq)
    (h29 : 29 ≤ s.SG3525Curr.FreqFWiper) (h228 : s.SG3525Curr.FreqFWiper ≤ 228) :
    (PlantStep g s).SG3525Curr.FreqFWiper = s.SG3525Curr.FreqFWiper - 1 ∧
      (PlantStep g s).SG3525Set = s.SG3525Set := by
  unfold PlantStep
  obtain ⟨w1, w2, w3⟩ := withFreq_fields (g s.SG3525Curr.FreqFWiper) s
  have hgt2 : (withFreq (g s.SG3525Curr.FreqFWiper) s).SG3525Curr.Freq
      > (withFreq (g s.SG3525Curr.FreqFWiper) s).SG3525Set.Freq := by rw [w1, w2]; exact hgt
  have hlaw : (AdjustFreqLaw (withFreq (g s.SG3525Curr.FreqFWiper) s)).1.SG3525Curr.FreqFWiper
      = s.SG3525Curr.FreqFWiper - 1 := by
    rw [AdjustFreqLaw_fine, if_pos hgt2, w3]; unfold dec16; omega
  have hf := (SG3525AdjustFreq_wipers (withFreq (g s.SG3525Curr.FreqFWiper) s)).1
  rw [if_neg (by omega), hlaw, if_neg (by omega), if_neg (by omega)] at hf
  exact ⟨hf, (SG3525AdjustFreq_frame _).1.trans w2⟩

/-- One closed-loop step from inside the guard band raises the fine wiper by one when
the plant is below the target. -/
theorem PlantStep_up (g : Nat → Nat) (s : State)
    (hlt : g s.SG3525Curr.FreqFWiper < s.SG3525Set.Freq)
    (h28 : 28 ≤ s.SG3525Curr.FreqFWiper) (h227 : s.SG3525Curr.FreqFWiper ≤ 227) :
    (PlantStep g s).SG3525Curr.FreqFWiper = s.SG3525Curr.FreqFWiper + 1 ∧
      (PlantStep g s).SG3525Set = s.SG3525Set := by
  unfold PlantStep
  obtain ⟨w1, w2, w3⟩ := withFreq_fields (g s.SG3525Curr.FreqFWiper) s
  have hlt2 : (withFreq (g s.SG3525Curr.FreqFWiper) s).SG3525Curr.Freq
      < (withFreq (g s.SG3525Curr.FreqFWiper) s).SG3525Set.Freq := by rw [w1, w2]; exact hlt
  have hlaw : (AdjustFreqLaw (withFreq (g s.SG3525Curr.FreqFWiper) s)).1.SG3525Curr.FreqFWiper
      = s.SG3525Curr.FreqFWiper + 1 := by
    rw [AdjustFreqLaw_fine, if_neg (by omega), if_pos hlt2, w3]; unfold inc16; omega
  have hf := (SG3525AdjustFreq_wipers (withFreq (g s.SG3525Curr.FreqFWiper) s)).1
  rw [if_neg (by omega), hlaw, if_neg (by omega), if_neg (by omega)] at hf
  exact ⟨hf, (SG3525AdjustFreq_frame _).1.trans w2⟩

theorem PlantStep_iterate_down (g : Nat → Nat) (s : State) (k : Nat)
    (hk : k + 28 ≤ s.SG3525Curr.FreqFWiper) (h228 : s.SG3525Curr.FreqFWiper ≤ 228)
    (habove : ∀ n, n < k → g (s.SG3525Curr.FreqFWiper - n) > s.SG3525Set.Freq) :
    ((PlantStep g)^[k] s).SG3525Curr.FreqFWiper = s.SG3525Curr.FreqFWiper - k ∧
      ((PlantStep g)^[k] s).SG3525Set = s.SG3525Set := by
  induction k with
  | zero => exact ⟨rfl, rfl⟩
  | succ k ih =>
    obtain ⟨i1, i2⟩ := ih (by omega) (fun n hn => habove n (by omega))
    rw [Function.iterate_succ_apply']
    obtain ⟨p1, p2⟩ := PlantStep_down g ((PlantStep g)^[k] s)
      (by rw [i1, i2]; exact habove k (by omega)) (by omega) (by omega)
    exact ⟨by omega, p2.trans i2⟩

theorem PlantStep_iterate_up (g : Nat → Nat) (s : State) (k : Nat)
    (h28 : 28 ≤ s.SG3525Curr.FreqFWiper) (hk : s.SG3525Curr.FreqFWiper + k ≤ 228)
    (hbelow : ∀ n, n < k → g (s.SG3525Curr.FreqFWiper + n) < s.SG3525Set.Freq) :
    ((PlantStep g)^[k] s).SG3525Curr.FreqFWiper = s.SG3525Curr.FreqFWiper + k ∧
      ((PlantStep g)^[k] s).SG3525Set = s.SG3525Set := by
  induction k with
  | zero => exact ⟨rfl, rfl⟩
  | succ k ih =>
    obtain ⟨i1, i2⟩ := ih (by omega) (fun n hn => hbelow n (by omega))
    rw [Function.iterate_succ_apply']
    obtain ⟨p1, p2⟩ := PlantStep_up g ((PlantStep g)^[k] s)
      (by rw [i1, i2]; exact hbelow k (by omega)) (by omega) (by omega)
    exact ⟨by omega, p2.trans i2⟩

/-! ## Closed loop with a simulated plant : claims -/

/-- C8 fails as stated: with target 28000 and the strictly decreasing plant
`fallingPlant`, starting at fine wiper 126 the error `|measured - target|` is 1 before
the first tuner call, 2 after it and 3 after the second: the control law steps the
wiper down when the measurement is above the target, which raises the frequency of a
decreasing plant. -/
theorem C8_counterexample :
    (withFine 126 bootState).SG3525Set.Freq = 28000 ∧
      (∀ w, w < 255 → fallingPlant (w + 1) < fallingPlant w) ∧
      PlantError fallingPlant (withFine 126 bootState) = 1 ∧
      PlantError fallingPlant (PlantStep fallingPlant (withFine 126 bootState)) = 2 ∧
      PlantError fallingPlant ((PlantStep fallingPlant)^[2] (withFine 126 bootState)) = 3 := by
  refine ⟨by decide, ?_, by decide, by decide, by decide⟩
  intro w hw
  unfold fallingPlant
  omega

/-- C8 (amended): given target = 28000 and a simulated plant whose measured frequency
is a monotonically non-decreasing function of the fine wiper, with the fine wiper `f`
in the guard band [28, 228] and the plant meeting the target `k ≥ 1` wiper steps away
inside the band (below `f` if the plant is above the target, above `f` if below):
repeated `SG3525AdjustFreq` calls, the measurement refreshed from the plant before
each, do not increase `|measured - target|` from one call to the next before the call
that reaches or crosses the target (call number `k`), and after that call the error is
smaller than the change of the plant over the last wiper step, the wiper still being
in the guard band. -/
theorem C8_tracking_until_crossing (g : Nat → Nat) (s : State) (f k i : Nat)
    (hmono : Monotone g) (hT : s.SG3525Set.Freq = 28000)
    (hf : s.SG3525Curr.FreqFWiper = f) (hi : i < k)
    (h : (k + 28 ≤ f ∧ f ≤ 228 ∧ g (f - k) ≤ 28000 ∧ 28000 < g (f - k + 1)) ∨
         (28 ≤ f ∧ f + k ≤ 228 ∧ g (f + k - 1) < 28000 ∧ 28000 ≤ g (f + k))) :
    (i + 1 = k ∨
        PlantError g ((PlantStep g)^[i + 1] s) ≤ PlantError g ((PlantStep g)^[i] s)) ∧
      PlantError g ((PlantStep g)^[k] s)
        < Int.natAbs ((g ((PlantStep g)^[k - 1] s).SG3525Curr.FreqFWiper : Int)
            - (g ((PlantStep g)^[k] s).SG3525Curr.FreqFWiper : Int)) ∧
      28 ≤ ((PlantStep g)^[k] s).SG3525Curr.FreqFWiper ∧
      ((PlantStep g)^[k] s).SG3525Curr.FreqFWiper ≤ 228 := by
  subst hf
  rcases h with ⟨h1, h2, h3, h4⟩ | ⟨h1, h2, h3, h4⟩
  · have habove : ∀ n, n < k → g (s.SG3525Curr.FreqFWiper - n) > s.SG3525Set.Freq := by
      intro n hn
      have := hmono (show s.SG3525Curr.FreqFWiper - k + 1 ≤ s.SG3525Curr.FreqFWiper - n by omega)
      omega
    have it : ∀ m, m ≤ k →
        ((PlantStep g)^[m] s).SG3525Curr.FreqFWiper = s.SG3525Curr.FreqFWiper - m ∧
        ((PlantStep g)^[m] s).SG3525Set = s.SG3525Set :=
      fun m hm => PlantStep_iterate_down g s m (by omega) h2 (fun n hn => habove n (by omega))
    obtain ⟨k1, k2⟩ := it k (Nat.le_refl _)
    obtain ⟨p1, p2⟩ := it (k - 1) (by omega)
    refine ⟨?_, ?_, by omega, by omega⟩
    · by_cases hik : i + 1 = k
      · exact Or.inl hik
      · right
        obtain ⟨a1, a2⟩ := it (i + 1) (by omega)
        obtain ⟨b1, b2⟩ := it i (by omega)
        unfold PlantError
        rw [a1, a2, b1, b2, hT]
        have m1 := hmono (show s.SG3525Curr.FreqFWiper - (i + 1) ≤ s.SG3525Curr.FreqFWiper - i by omega)
        have m2 := habove (i + 1) (by omega)
        omega
    · unfold PlantError
      rw [k1, k2, p1, hT]
      have : s.SG3525Curr.FreqFWiper - (k - 1) = s.SG3525Curr.FreqFWiper - k + 1 := by omega
      rw [this]
      omega
  · have hbelow : ∀ n, n < k → g (s.SG3525Curr.FreqFWiper + n) < s.SG3525Set.Freq := by
      intro n hn
      have := hmono (show s.SG3525Curr.FreqFWiper + n ≤ s.SG3525Curr.FreqFWiper + k - 1 by omega)
      omega
    have it : ∀ m, m ≤ k →
        ((PlantStep g)^[m] s).SG3525Curr.FreqFWiper = s.SG3525Curr.FreqFWiper + m ∧
        ((PlantStep g)^[m] s).SG3525Set = s.SG3525Set :=
      fun m hm => PlantStep_iterate_up g s m h1 (by omega) (fun n hn => hbelow n (by omega))
    obtain ⟨k1, k2⟩ := it k (Nat.le_refl _)
    obtain ⟨p1, p2⟩ := it (k - 1) (by omega)
    refine ⟨?_, ?_, by omega, by omega⟩
    · by_cases hik : i + 1 = k
      · exact Or.inl hik
      · right
        obtain ⟨a1, a2⟩ := it (i + 1) (by omega)
        obtain ⟨b1, b2⟩ := it i (by omega)
        unfold PlantError
        rw [a1, a2, b1, b2, hT]
        have m1 := hmono (show s.SG3525Curr.FreqFWiper + i ≤ s.SG3525Curr.FreqFWiper + (i + 1) by omega)
        have m2 := hbelow (i + 1) (by omega)
        omega
    · unfold PlantError
      rw [k1, k2, p1, hT]
      have : s.SG3525Curr.FreqFWiper + (k - 1) = s.SG3525Curr.FreqFWiper + k - 1 := by omega
      rw [this]
      omega

theorem risingPlant_monotone : Monotone risingPlant := by
  intro a b h
  unfold risingPlant
  omega

theorem C8_tracking_until_crossing_witness :
    (0 + 1 = 4 ∨
        PlantError risingPlant ((PlantStep risingPlant)^[0 + 1] (withFine 130 bootState))
          ≤ PlantError risingPlant ((PlantStep risingPlant)^[0] (withFine 130 bootState))) ∧
      PlantError risingPlant ((PlantStep risingPlant)^[4] (withFine 130 bootState))
        < Int.natAbs
          ((risingPlant
              ((PlantStep risingPlant)^[4 - 1] (withFine 130 bootState)).SG3525Curr.FreqFWiper : Int)
            - (risingPlant
              ((PlantStep risingPlant)^[4] (withFine 130 bootState)).SG3525Curr.FreqFWiper : Int)) ∧
      28 ≤ ((PlantStep risingPlant)^[4] (withFine 130 bootState)).SG3525Curr.FreqFWiper ∧
      ((PlantStep risingPlant)^[4] (withFine 130 bootState)).SG3525Curr.FreqFWiper ≤ 228 :=
  C8_tracking_until_crossing risingPlant (withFine 130 bootState) 130 4 0
    risingPlant_monotone rfl rfl (by decide)
    (Or.inl ⟨by decide, by decide, by decide, by decide⟩)

/-! ## Wiper ranges : claims -/

/-- C7 fails as stated: the command `+` takes an in-range fine wiper of 255 to 256, and
a tuner carry takes an in-range coarse wiper of 0 to 65535; nothing clamps. -/
theorem C7_counterexample :
    wipersInRange sampleConsts (withFine 255 bootState) ∧
      (SG3525Cmd sampleConsts "+" "" 0 (withFine 255 bootState)).2.SG3525Curr.FreqFWiper = 256 ∧
      ¬ wipersInRange sampleConsts (SG3525Cmd sampleConsts "+" "" 0 (withFine 255 bootState)).2 ∧
      wipersInRange sampleConsts (withCoarse 0 (withFine 28 (withFreq 28001 bootState))) ∧
      (SG3525AdjustFreq
        (withCoarse 0 (withFine 28 (withFreq 28001 bootState)))).SG3525Curr.FreqCWiper = 65535 ∧
      ¬ wipersInRange sampleConsts
        (SG3525AdjustFreq (withCoarse 0 (withFine 28 (withFreq 28001 bootState)))) := by
  decide

/-- C7 (amended): starting with the three mirrored wipers in `[0, steps-1]`, they are
all still in range after the range-checked commands `FCW`, `FFW` and `PW`, whatever the
argument.  `SG3525AdjustFreq` and `SG3525Cal` keep the fine wiper in [0, 255], leave the
PWM wiper unchanged (`SG3525Cal` may set it to 30) and move the coarse wiper by at most
one `uint16_t` step; the commands `U`, `D`, `W`, `N`, `+`, `-` move their wiper by
exactly one `uint16_t` step.  None of these single steps is clamped. -/
theorem C7_wiper_ranges (K : Consts) (s : State) (TokenText : String) (Num : Int)
    (hr : wipersInRange K s) (hesc : K.ESC_CMD ∉ ["U", "D", "W", "N", "+", "-"]) :
    (wipersInRange K (SG3525Cmd K "FCW" TokenText Num s).2 ∧
        wipersInRange K (SG3525Cmd K "FFW" TokenText Num s).2 ∧
        wipersInRange K (SG3525Cmd K "PW" TokenText Num s).2) ∧
      ((SG3525AdjustFreq s).SG3525Curr.FreqFWiper ≤ 255 ∧
        (SG3525AdjustFreq s).SG3525Curr.PWMWiper = s.SG3525Curr.PWMWiper ∧
        ((SG3525AdjustFreq s).SG3525Curr.FreqCWiper = s.SG3525Curr.FreqCWiper ∨
          (SG3525AdjustFreq s).SG3525Curr.FreqCWiper = dec16 s.SG3525Curr.FreqCWiper ∨
          (SG3525AdjustFreq s).SG3525Curr.FreqCWiper = inc16 s.SG3525Curr.FreqCWiper)) ∧
      ((SG3525Cal s).SG3525Curr.FreqFWiper ≤ 255 ∧
        ((SG3525Cal s).SG3525Curr.PWMWiper = s.SG3525Curr.PWMWiper ∨
          (SG3525Cal s).SG3525Curr.PWMWiper = 30) ∧
        ((SG3525Cal s).SG3525Curr.FreqCWiper = s.SG3525Curr.FreqCWiper ∨
          (SG3525Cal s).SG3525Curr.FreqCWiper = dec16 s.SG3525Curr.FreqCWiper ∨
          (SG3525Cal s).SG3525Curr.FreqCWiper = inc16 s.SG3525Curr.FreqCWiper)) ∧
      ((SG3525Cmd K "U" TokenText Num s).2.SG3525Curr.FreqCWiper
          = inc16 s.SG3525Curr.FreqCWiper ∧
        (SG3525Cmd K "D" TokenText Num s).2.SG3525Curr.FreqCWiper
          = dec16 s.SG3525Curr.FreqCWiper ∧
        (SG3525Cmd K "W" TokenText Num s).2.SG3525Curr.PWMWiper
          = inc16 s.SG3525Curr.PWMWiper ∧
        (SG3525Cmd K "N" TokenText Num s).2.SG3525Curr.PWMWiper
          = dec16 s.SG3525Curr.PWMWiper ∧
        (SG3525Cmd K "+" TokenText Num s).2.SG3525Curr.FreqFWiper
          = inc16 s.SG3525Curr.FreqFWiper ∧
        (SG3525Cmd K "-" TokenText Num s).2.SG3525Curr.FreqFWiper
          = dec16 s.SG3525Curr.FreqFWiper) := by
  have hfine : s.SG3525Curr.FreqFWiper ≤ 255 := by
    have := hr.2.2
    have h255 : (FreqFPot_MAX_WIPER : Int) = 255 := by decide
    omega
  exact ⟨⟨Cmd_FCW_range K s TokenText Num hr, Cmd_FFW_range K s TokenText Num hr,
      Cmd_PW_range K s TokenText Num hr⟩,
    ⟨SG3525AdjustFreq_fine_le s hfine, SG3525AdjustFreq_pwm s, SG3525AdjustFreq_coarse_cases s⟩,
    SG3525Cal_wipers s hfine, Cmd_single_steps K s TokenText Num hesc⟩

theorem C7_wiper_ranges_witness :
    (wipersInRange sampleConsts (SG3525Cmd sampleConsts "FCW" "300" 300 bootState).2 ∧
        wipersInRange sampleConsts (SG3525Cmd sampleConsts "FFW" "300" 300 bootState).2 ∧
        wipersInRange sampleConsts (SG3525Cmd sampleConsts "PW" "300" 300 bootState).2) ∧
      ((SG3525AdjustFreq bootState).SG3525Curr.FreqFWiper ≤ 255 ∧
        (SG3525AdjustFreq bootState).SG3525Curr.PWMWiper = bootState.SG3525Curr.PWMWiper ∧
        ((SG3525AdjustFreq bootState).SG3525Curr.FreqCWiper = bootState.SG3525Curr.FreqCWiper ∨
          (SG3525AdjustFreq bootState).SG3525Curr.FreqCWiper
            = dec16 bootState.SG3525Curr.FreqCWiper ∨
          (SG3525AdjustFreq bootState).SG3525Curr.FreqCWiper
            = inc16 bootState.SG3525Curr.FreqCWiper)) ∧
      ((SG3525Cal bootState).SG3525Curr.FreqFWiper ≤ 255 ∧
        ((SG3525Cal bootState).SG3525Curr.PWMWiper = bootState.SG3525Curr.PWMWiper ∨
          (SG3525Cal bootState).SG3525Curr.PWMWiper = 30) ∧
        ((SG3525Cal bootState).SG3525Curr.FreqCWiper = bootState.SG3525Curr.FreqCWiper ∨
          (SG3525Cal bootState).SG3525Curr.FreqCWiper = dec16 bootState.SG3525Curr.FreqCWiper ∨
          (SG3525Cal bootState).SG3525Curr.FreqCWiper
            = inc16 bootState.SG3525Curr.FreqCWiper)) ∧
      ((SG3525Cmd sampleConsts "U" "300" 300 bootState).2.SG3525Curr.FreqCWiper
          = inc16 bootState.SG3525Curr.FreqCWiper ∧
        (SG3525Cmd sampleConsts "D" "300" 300 bootState).2.SG3525Curr.FreqCWiper
          = dec16 bootState.SG3525Curr.FreqCWiper ∧
        (SG3525Cmd sampleConsts "W" "300" 300 bootState).2.SG3525Curr.PWMWiper
          = inc16 bootState.SG3525Curr.PWMWiper ∧
        (SG3525Cmd sampleConsts "N" "300" 300 bootState).2.SG3525Curr.PWMWiper
          = dec16 bootState.SG3525Curr.PWMWiper ∧
        (SG3525Cmd sampleConsts "+" "300" 300 bootState).2.SG3525Curr.FreqFWiper
          = inc16 bootState.SG3525Curr.FreqFWiper ∧
        (SG3525Cmd sampleConsts "-" "300" 300 bootState).2.SG3525Curr.FreqFWiper
          = dec16 bootState.SG3525Curr.FreqFWiper) :=
  C7_wiper_ranges sampleConsts bootState "300" 300 (by decide) (by decide)

/-! ## SG3525Run and SG3525Cal, one call : claims -/

/-- C17: `SG3525Run(true)` asserts the output and loads the run-timer countdown from
the configured duration if and only if the run mode is Timed (in Continuous mode the
countdown is left as it is); `SG3525Run(false)` deasserts the output and sets the
countdown to 0; in both cases every other field of the set-point and of the current
state is unchanged. -/
theorem C17_SG3525Run_semantics (s : State) :
    SG3525Run true s =
        { s with
          IsOn := true
          SG3525Curr := { s.SG3525Curr with
            RunTimer := if s.SG3525Set.RunMode = SG3525_RUN_MODE.RUN_TIMED
              then s.SG3525Set.RunTimer else s.SG3525Curr.RunTimer }
          Log := s.Log ++ [Event.Output true] } ∧
      SG3525Run false s =
        { s with
          IsOn := false
          SG3525Curr := { s.SG3525Curr with RunTimer := 0 }
          Log := s.Log ++ [Event.Output false] } ∧
      (SG3525Run true s).SG3525Set = s.SG3525Set ∧
      (SG3525Run false s).SG3525Set = s.SG3525Set := by
  refine ⟨?_, rfl, ?_, rfl⟩
  · unfold SG3525Run
    by_cases h : s.SG3525Set.RunMode = SG3525_RUN_MODE.RUN_TIMED
    · simp [h, emit]
    · simp [h, emit]
  · unfold SG3525Run
    by_cases h : s.SG3525Set.RunMode = SG3525_RUN_MODE.RUN_TIMED
    · simp [h, emit]
    · simp [h, emit]

/-- C16: calibration is abortable at any point.  For every state with the output
disabled, whatever the calibration state, one `SG3525Cal` call sets the calibration
state to `WAIT_START` and changes nothing else: set-point, current state, counter,
samples and log are as before. -/
theorem C16_calibration_abort (s : State) (hoff : s.IsOn = false) :
    SG3525Cal s = { s with CalStep := SG3525_CAL_STEP.WAIT_START } ∧
      (SG3525Cal s).CalStep = SG3525_CAL_STEP.WAIT_START ∧
      (SG3525Cal s).SG3525Set = s.SG3525Set ∧
      (SG3525Cal s).SG3525Curr = s.SG3525Curr ∧
      (SG3525Cal s).Log = s.Log := by
  have h : SG3525Cal s = { s with CalStep := SG3525_CAL_STEP.WAIT_START } := by
    simp [SG3525Cal, hoff]
  rw [h]
  exact ⟨rfl, rfl, rfl, rfl, rfl⟩

theorem C16_calibration_abort_witness :
    SG3525Cal (withCalStep SG3525_CAL_STEP.LOWER_FREQ bootState)
        = { withCalStep SG3525_CAL_STEP.LOWER_FREQ bootState with
            CalStep := SG3525_CAL_STEP.WAIT_START } ∧
      (SG3525Cal (withCalStep SG3525_CAL_STEP.LOWER_FREQ bootState)).CalStep
        = SG3525_CAL_STEP.WAIT_START ∧
      (SG3525Cal (withCalStep SG3525_CAL_STEP.LOWER_FREQ bootState)).SG3525Set
        = (withCalStep SG3525_CAL_STEP.LOWER_FREQ bootState).SG3525Set ∧
      (SG3525Cal (withCalStep SG3525_CAL_STEP.LOWER_FREQ bootState)).SG3525Curr
        = (withCalStep SG3525_CAL_STEP.LOWER_FREQ bootState).SG3525Curr ∧
      (SG3525Cal (withCalStep SG3525_CAL_STEP.LOWER_FREQ bootState)).Log
        = (withCalStep SG3525_CAL_STEP.LOWER_FREQ bootState).Log :=
  C16_calibration_abort (withCalStep SG3525_CAL_STEP.LOWER_FREQ bootState) rfl

/-- The `UPPER_FREQ` case in explicit form. -/
theorem CalUpperFreq_eq (s : State) :
    CalUpperFreq s =
      { s with
        UpperFreq := s.SG3525Curr.Freq
        CalStep := SG3525_CAL_STEP.LOWER_FREQ
        SG3525Curr := { s.SG3525Curr with FreqCWiper := dec16 s.SG3525Curr.FreqCWiper }
        Log := s.Log ++ MCP4131SetWiper Pot.FreqCPot (dec16 s.SG3525Curr.FreqCWiper) } := by
  simp [CalUpperFreq, FreqCPotSetWiper, emit]

/-- The `LOWER_FREQ` case in explicit form, before the test of the counter. -/
theorem CalLowerFreq_eq (s : State) :
    CalLowerFreq s =
      (if s.CalCount > 0 then fun t => t else CalEndCal)
        { s with
          LowerFreq := s.SG3525Curr.Freq
          CalStep := SG3525_CAL_STEP.UPPER_FREQ
          CalCount := (s.CalCount + 255) % 256
          SG3525Curr := { s.SG3525Curr with FreqCWiper := dec16 s.SG3525Curr.FreqCWiper }
          Log := s.Log ++ MCP4131SetWiper Pot.FreqCPot (dec16 s.SG3525Curr.FreqCWiper)
            ++ calReport s.UpperFreq s.SG3525Curr.Freq } := by
  unfold CalLowerFreq
  by_cases h : s.CalCount > 0
  · simp [h, FreqCPotSetWiper, emit, calReport]
  · simp [h, FreqCPotSetWiper, emit, calReport]

/-- The `END_CAL` case in explicit form. -/
theorem CalEndCal_eq (s : State) :
    CalEndCal s =
      { s with
        IsOn := false
        CalStep := SG3525_CAL_STEP.WAIT_START
        SG3525Set := { s.SG3525Set with PwrMode := SG3525_PWR_MODE.PWR_CONST_FREQ }
        SG3525Curr := { s.SG3525Curr with RunTimer := 0 }
        Log := s.Log ++ [Event.Output false] ++ List.replicate 20 Event.PrintCRLF
          ++ [Event.ShowMAScreen] } := by
  simp [CalEndCal, SG3525Run, emit]

/-- In state `WAIT_28K` with the output on, the calibrator either hands over to the
tuner or enters the `UPPER_FREQ` case with the counter set to 10. -/
theorem SG3525Cal_Wait28k (s : State) (hon : s.IsOn = true)
    (hstep : s.CalStep = SG3525_CAL_STEP.WAIT_28K) :
    SG3525Cal s =
      (if 27990 ≤ s.SG3525Curr.Freq ∧ s.SG3525Curr.Freq ≤ 28010 then
        CalUpperFreq { s with CalStep := SG3525_CAL_STEP.UPPER_FREQ, CalCount := 10 }
      else SG3525AdjustFreq s) := by
  have h1 : CAL_FREQ - 10 = 27990 := by decide
  have h2 : CAL_FREQ + 10 = 28010 := by decide
  unfold SG3525Cal
  simp only [hon, hstep, Bool.not_true, Bool.false_eq_true, if_false, h1, h2]
  by_cases hin : 27990 ≤ s.SG3525Curr.Freq ∧ s.SG3525Curr.Freq ≤ 28010
  · rw [if_pos hin, if_neg (by omega)]
  · rw [if_neg hin, if_pos (by omega)]

/-- C11: calibration state `WAIT_28K` with the output enabled.  If measured < 27990 or
measured > 28010 the call is exactly one tuner call: the state stays `WAIT_28K` and the
calibrator itself touches no wiper.  If 27990 ≤ measured ≤ 28010 (bounds included) the
same call sets the down-counter to 10 and executes the `UPPER_FREQ` step: the upper
sample becomes the measured frequency, the coarse wiper is decremented by one and
written, and the tuner is not called. -/
theorem C11_Wait28k (s : State) (hon : s.IsOn = true)
    (hstep : s.CalStep = SG3525_CAL_STEP.WAIT_28K) :
    CAL_FREQ - 10 = 27990 ∧ CAL_FREQ + 10 = 28010 ∧
      SG3525Cal s =
        (if 27990 ≤ s.SG3525Curr.Freq ∧ s.SG3525Curr.Freq ≤ 28010 then
          CalUpperFreq { s with CalStep := SG3525_CAL_STEP.UPPER_FREQ, CalCount := 10 }
        else SG3525AdjustFreq s) ∧
      CalUpperFreq { s with CalStep := SG3525_CAL_STEP.UPPER_FREQ, CalCount := 10 } =
        { s with
          CalCount := 10
          UpperFreq := s.SG3525Curr.Freq
          CalStep := SG3525_CAL_STEP.LOWER_FREQ
          SG3525Curr := { s.SG3525Curr with FreqCWiper := dec16 s.SG3525Curr.FreqCWiper }
          Log := s.Log ++ MCP4131SetWiper Pot.FreqCPot (dec16 s.SG3525Curr.FreqCWiper) } ∧
      (SG3525Cal s).CalStep =
        (if 27990 ≤ s.SG3525Curr.Freq ∧ s.SG3525Curr.Freq ≤ 28010 then
          SG3525_CAL_STEP.LOWER_FREQ else SG3525_CAL_STEP.WAIT_28K) := by
  have h1 : CAL_FREQ - 10 = 27990 := by decide
  have h2 : CAL_FREQ + 10 = 28010 := by decide
  have heq := SG3525Cal_Wait28k s hon hstep
  refine ⟨h1, h2, heq, ?_, ?_⟩
  · rw [CalUpperFreq_eq]
  · rw [heq]
    by_cases hin : 27990 ≤ s.SG3525Curr.Freq ∧ s.SG3525Curr.Freq ≤ 28010
    · rw [if_pos hin, if_pos hin, CalUpperFreq_eq]
    · rw [if_neg hin, if_neg hin, (SG3525AdjustFreq_frame s).2.2.1, hstep]


theorem C11_Wait28k_witness :
    CAL_FREQ - 10 = 27990 ∧ CAL_FREQ + 10 = 28010 ∧
      SG3525Cal sampleWait =
        (if 27990 ≤ sampleWait.SG3525Curr.Freq ∧ sampleWait.SG3525Curr.Freq ≤ 28010 then
          CalUpperFreq { sampleWait with CalStep := SG3525_CAL_STEP.UPPER_FREQ, CalCount := 10 }
        else SG3525AdjustFreq sampleWait) ∧
      CalUpperFreq { sampleWait with CalStep := SG3525_CAL_STEP.UPPER_FREQ, CalCount := 10 } =
        { sampleWait with
          CalCount := 10
          UpperFreq := sampleWait.SG3525Curr.Freq
          CalStep := SG3525_CAL_STEP.LOWER_FREQ
          SG3525Curr := { sampleWait.SG3525Curr with FreqCWiper := dec16 sampleWait.SG3525Curr.FreqCWiper }
          Log := sampleWait.Log ++ MCP4131SetWiper Pot.FreqCPot (dec16 sampleWait.SG3525Curr.FreqCWiper) } ∧
      (SG3525Cal sampleWait).CalStep =
        (if 27990 ≤ sampleWait.SG3525Curr.Freq ∧ sampleWait.SG3525Curr.Freq ≤ 28010 then
          SG3525_CAL_STEP.LOWER_FREQ else SG3525_CAL_STEP.WAIT_28K) :=
  C11_Wait28k sampleWait rfl rfl

/-- C13: calibration step `LOWER_FREQ` with the output enabled and down-counter `c`.
The step records the lower sample := measured, decrements the coarse wiper by one and
writes it, and reports upper, lower and the 16-bit difference upper - lower.  If
`c > 0` the counter becomes `c - 1`, the next state is `UPPER_FREQ`, the output is
still enabled and the power mode is untouched; if `c = 0` the `END_CAL` actions run in
the same call (output off, state `WAIT_START`, const-frequency mode). -/
theorem C13_LowerFreq_step (s : State) (hon : s.IsOn = true)
    (hstep : s.CalStep = SG3525_CAL_STEP.LOWER_FREQ) (hc : s.CalCount < 256)
    (hfreq : s.SG3525Curr.Freq < 65536) :
    SG3525Cal s =
        (if s.CalCount > 0 then fun t => t else CalEndCal)
          { s with
            LowerFreq := s.SG3525Curr.Freq
            CalStep := SG3525_CAL_STEP.UPPER_FREQ
            CalCount := (s.CalCount + 255) % 256
            SG3525Curr := { s.SG3525Curr with FreqCWiper := dec16 s.SG3525Curr.FreqCWiper }
            Log := s.Log ++ MCP4131SetWiper Pot.FreqCPot (dec16 s.SG3525Curr.FreqCWiper)
              ++ calReport s.UpperFreq s.SG3525Curr.Freq } ∧
      calReport s.UpperFreq s.SG3525Curr.Freq =
        [ Event.PrintStringP Text.Upper, Event.PrintD s.UpperFreq, Event.PrintCRLF,
          Event.PrintStringP Text.Lower, Event.PrintD s.SG3525Curr.Freq, Event.PrintCRLF,
          Event.PrintStringP Text.Diff,
          Event.PrintD ((s.UpperFreq + 65536 - s.SG3525Curr.Freq) % 65536 : Nat),
          Event.PrintCRLF ] ∧
      (((s.UpperFreq + 65536 - s.SG3525Curr.Freq) % 65536 : Nat) : Int)
        = ((s.UpperFreq : Int) - (s.SG3525Curr.Freq : Int)) % 65536 ∧
      (SG3525Cal s).LowerFreq = s.SG3525Curr.Freq ∧
      (SG3525Cal s).SG3525Curr.FreqCWiper = dec16 s.SG3525Curr.FreqCWiper ∧
      (SG3525Cal s).CalCount = (if s.CalCount > 0 then s.CalCount - 1 else 255) ∧
      (SG3525Cal s).CalStep =
        (if s.CalCount > 0 then SG3525_CAL_STEP.UPPER_FREQ else SG3525_CAL_STEP.WAIT_START) ∧
      (SG3525Cal s).IsOn = (if s.CalCount > 0 then true else false) ∧
      (SG3525Cal s).SG3525Set.PwrMode =
        (if s.CalCount > 0 then s.SG3525Set.PwrMode else SG3525_PWR_MODE.PWR_CONST_FREQ) := by
  have heq : SG3525Cal s = CalLowerFreq s := by
    simp [SG3525Cal, hon, hstep]
  rw [heq, CalLowerFreq_eq]
  refine ⟨rfl, rfl, by omega, ?_⟩
  · by_cases h : s.CalCount > 0
    · rw [if_pos h, if_pos h, if_pos h, if_pos h, if_pos h]
      refine ⟨rfl, rfl, ?_, rfl, hon, rfl⟩
      show (s.CalCount + 255) % 256 = s.CalCount - 1
      omega
    · rw [if_neg h, if_neg h, if_neg h, if_neg h, if_neg h, CalEndCal_eq]
      refine ⟨rfl, rfl, ?_, rfl, rfl, rfl⟩
      show (s.CalCount + 255) % 256 = 255
      have : s.CalCount = 0 := by omega
      rw [this]


theorem C13_LowerFreq_step_witness :
    SG3525Cal sampleLower =
        (if sampleLower.CalCount > 0 then fun t => t else CalEndCal)
          { sampleLower with
            LowerFreq := sampleLower.SG3525Curr.Freq
            CalStep := SG3525_CAL_STEP.UPPER_FREQ
            CalCount := (sampleLower.CalCount + 255) % 256
            SG3525Curr := { sampleLower.SG3525Curr with FreqCWiper := dec16 sampleLower.SG3525Curr.FreqCWiper }
            Log := sampleLower.Log ++ MCP4131SetWiper Pot.FreqCPot (dec16 sampleLower.SG3525Curr.FreqCWiper)
              ++ calReport sampleLower.UpperFreq sampleLower.SG3525Curr.Freq } ∧
      calReport sampleLower.UpperFreq sampleLower.SG3525Curr.Freq =
        [ Event.PrintStringP Text.Upper, Event.PrintD sampleLower.UpperFreq, Event.PrintCRLF,
          Event.PrintStringP Text.Lower, Event.PrintD sampleLower.SG3525Curr.Freq, Event.PrintCRLF,
          Event.PrintStringP Text.Diff,
          Event.PrintD ((sampleLower.UpperFreq + 65536 - sampleLower.SG3525Curr.Freq) % 65536 : Nat),
          Event.PrintCRLF ] ∧
      (((sampleLower.UpperFreq + 65536 - sampleLower.SG3525Curr.Freq) % 65536 : Nat) : Int)
        = ((sampleLower.UpperFreq : Int) - (sampleLower.SG3525Curr.Freq : Int)) % 65536 ∧
      (SG3525Cal sampleLower).LowerFreq = sampleLower.SG3525Curr.Freq ∧
      (SG3525Cal sampleLower).SG3525Curr.FreqCWiper = dec16 sampleLower.SG3525Curr.FreqCWiper ∧
      (SG3525Cal sampleLower).CalCount = (if sampleLower.CalCount > 0 then sampleLower.CalCount - 1 else 255) ∧
      (SG3525Cal sampleLower).CalStep =
        (if sampleLower.CalCount > 0 then SG3525_CAL_STEP.UPPER_FREQ else SG3525_CAL_STEP.WAIT_START) ∧
      (SG3525Cal sampleLower).IsOn = (if sampleLower.CalCount > 0 then true else false) ∧
      (SG3525Cal sampleLower).SG3525Set.PwrMode =
        (if sampleLower.CalCount > 0 then sampleLower.SG3525Set.PwrMode else SG3525_PWR_MODE.PWR_CONST_FREQ) :=
  C13_LowerFreq_step sampleLower rfl rfl (by decide) (by decide)

/-- What the `LOWER_FREQ` case does whatever the counter: it records the lower sample,
keeps the upper one, decrements the coarse wiper once, makes one coarse transfer and
prints one report. -/
theorem CalLowerFreq_fields (t : State) :
    (CalLowerFreq t).LowerFreq = t.SG3525Curr.Freq ∧
      (CalLowerFreq t).UpperFreq = t.UpperFreq ∧
      (CalLowerFreq t).SG3525Curr.FreqCWiper = dec16 t.SG3525Curr.FreqCWiper ∧
      reportsIn (CalLowerFreq t).Log = reportsIn t.Log + 1 ∧
      writesTo Pot.FreqCPot (CalLowerFreq t).Log = writesTo Pot.FreqCPot t.Log + 1 := by
  rw [CalLowerFreq_eq]
  by_cases h : t.CalCount > 0
  · simp [h, reportsIn, writesTo, calReport, MCP4131SetWiper, List.count_append,
      List.count_cons]
  · simp [h, CalEndCal_eq, reportsIn, writesTo, calReport, MCP4131SetWiper,
      List.count_append, List.count_cons, List.count_replicate]

/-- C12 fails as stated: from state `UPPER_FREQ` with the output on and a measured
frequency of 28000, one `SG3525Cal` call records the upper sample and decrements the
coarse wiper once (67 to 66), but it records no lower sample (it stays 0), prints no
report and stops in state `LOWER_FREQ`: the `LOWER_FREQ` step is left to the next
call. -/
theorem C12_counterexample :
    (SG3525Cal sampleUpper).UpperFreq = 28000 ∧
      (SG3525Cal sampleUpper).LowerFreq = 0 ∧
      sampleUpper.SG3525Curr.FreqCWiper = 67 ∧
      (SG3525Cal sampleUpper).SG3525Curr.FreqCWiper = 66 ∧
      reportsIn (SG3525Cal sampleUpper).Log = 0 ∧
      (SG3525Cal sampleUpper).CalStep
        = SG3525_CAL_STEP.LOWER_FREQ := by
  decide

/-- C12 (amended): `UPPER_FREQ` and `LOWER_FREQ` execute in consecutive calls, never in
the same one.  A call that executes the `UPPER_FREQ` step (from state `UPPER_FREQ`, or
from `WAIT_28K` with the measurement inside [27990, 28010]) records the upper sample,
decrements the coarse wiper once and writes it, prints no report, leaves the lower
sample as it was and leaves the state at `LOWER_FREQ` with the output on.  The next
call, made with measured frequency `m`, executes the `LOWER_FREQ` step: it records the
lower sample `m`, decrements the coarse wiper a second time and prints one report; the
two samples are taken one tick apart. -/
theorem C12_Upper_then_Lower (s : State) (m : Nat) (hon : s.IsOn = true)
    (hstep : s.CalStep = SG3525_CAL_STEP.UPPER_FREQ ∨
      (s.CalStep = SG3525_CAL_STEP.WAIT_28K ∧
        27990 ≤ s.SG3525Curr.Freq ∧ s.SG3525Curr.Freq ≤ 28010)) :
    ((SG3525Cal s).CalStep = SG3525_CAL_STEP.LOWER_FREQ ∧
        (SG3525Cal s).IsOn = true ∧
        (SG3525Cal s).UpperFreq = s.SG3525Curr.Freq ∧
        (SG3525Cal s).LowerFreq = s.LowerFreq ∧
        (SG3525Cal s).SG3525Curr.FreqCWiper = dec16 s.SG3525Curr.FreqCWiper ∧
        (SG3525Cal s).Log
          = s.Log ++ MCP4131SetWiper Pot.FreqCPot (dec16 s.SG3525Curr.FreqCWiper) ∧
        reportsIn (SG3525Cal s).Log = reportsIn s.Log) ∧
      ((SG3525Cal (withFreq m (SG3525Cal s))).LowerFreq = m ∧
        (SG3525Cal (withFreq m (SG3525Cal s))).UpperFreq = s.SG3525Curr.Freq ∧
        (SG3525Cal (withFreq m (SG3525Cal s))).SG3525Curr.FreqCWiper
          = dec16 (dec16 s.SG3525Curr.FreqCWiper) ∧
        reportsIn (SG3525Cal (withFreq m (SG3525Cal s))).Log = reportsIn s.Log + 1) := by
  have h1 : SG3525Cal s =
      { s with
        CalCount := if s.CalStep = SG3525_CAL_STEP.UPPER_FREQ then s.CalCount else 10
        UpperFreq := s.SG3525Curr.Freq
        CalStep := SG3525_CAL_STEP.LOWER_FREQ
        SG3525Curr := { s.SG3525Curr with FreqCWiper := dec16 s.SG3525Curr.FreqCWiper }
        Log := s.Log ++ MCP4131SetWiper Pot.FreqCPot (dec16 s.SG3525Curr.FreqCWiper) } := by
    rcases hstep with hu | ⟨hw, hlo, hhi⟩
    · simp [SG3525Cal, hon, hu, CalUpperFreq_eq]
    · rw [SG3525Cal_Wait28k s hon hw, if_pos ⟨hlo, hhi⟩, CalUpperFreq_eq]
      simp [hw]
  have h2 : SG3525Cal (withFreq m (SG3525Cal s)) = CalLowerFreq (withFreq m (SG3525Cal s)) := by
    rw [h1]
    simp [SG3525Cal, withFreq, hon]
  refine ⟨?_, ?_⟩
  · rw [h1]
    refine ⟨rfl, hon, rfl, rfl, rfl, rfl, ?_⟩
    simp [reportsIn, MCP4131SetWiper, List.count_append, List.count_cons]
  · obtain ⟨l1, l2, l3, l4, _⟩ := CalLowerFreq_fields (withFreq m (SG3525Cal s))
    rw [h2, l1, l2, l3, l4, h1]
    refine ⟨rfl, rfl, rfl, ?_⟩
    simp [reportsIn, withFreq, MCP4131SetWiper, List.count_append, List.count_cons]

theorem C12_Upper_then_Lower_witness :
    ((SG3525Cal sampleUpper).CalStep = SG3525_CAL_STEP.LOWER_FREQ ∧
        (SG3525Cal sampleUpper).IsOn = true ∧
        (SG3525Cal sampleUpper).UpperFreq = sampleUpper.SG3525Curr.Freq ∧
        (SG3525Cal sampleUpper).LowerFreq = sampleUpper.LowerFreq ∧
        (SG3525Cal sampleUpper).SG3525Curr.FreqCWiper = dec16 sampleUpper.SG3525Curr.FreqCWiper ∧
        (SG3525Cal sampleUpper).Log
          = sampleUpper.Log ++ MCP4131SetWiper Pot.FreqCPot (dec16 sampleUpper.SG3525Curr.FreqCWiper) ∧
        reportsIn (SG3525Cal sampleUpper).Log = reportsIn sampleUpper.Log) ∧
      ((SG3525Cal (withFreq 27950 (SG3525Cal sampleUpper))).LowerFreq = 27950 ∧
        (SG3525Cal (withFreq 27950 (SG3525Cal sampleUpper))).UpperFreq = sampleUpper.SG3525Curr.Freq ∧
        (SG3525Cal (withFreq 27950 (SG3525Cal sampleUpper))).SG3525Curr.FreqCWiper
          = dec16 (dec16 sampleUpper.SG3525Curr.FreqCWiper) ∧
        reportsIn (SG3525Cal (withFreq 27950 (SG3525Cal sampleUpper))).Log = reportsIn sampleUpper.Log + 1) :=
  C12_Upper_then_Lower sampleUpper 27950 rfl (Or.inl rfl)


/-! ## SG3525Update : lemmas -/

theorem SG3525Run_control (b : Bool) (s : State) :
    controlView (SG3525Run b s) = controlView s := by
  unfold SG3525Run
  cases b
  · simp [controlView, emit, busEvents, reportsIn, List.count_append, List.count_cons]
  · by_cases h : s.SG3525Set.RunMode = SG3525_RUN_MODE.RUN_TIMED
    · simp [h, controlView, emit, busEvents, reportsIn, List.count_append, List.count_cons]
    · simp [h, controlView, emit, busEvents, reportsIn, List.count_append, List.count_cons]

theorem emit_Set (es : List Event) (s : State) : (emit es s).SG3525Set = s.SG3525Set := rfl

theorem emit_IsOn (es : List Event) (s : State) : (emit es s).IsOn = s.IsOn := rfl

theorem ProcessInput1_control (b : Bool) (s : State) :
    controlView (ProcessInput1 b s) = controlView s := by
  unfold ProcessInput1
  cases b <;> by_cases hpr : s.SG3525Set.Input1.Print = true <;>
    cases hact : s.SG3525Set.Input1.Action <;>
    simp only [hpr, hact, emit_Set, emit_IsOn, SG3525Run_control, if_true, if_false,
      Bool.false_eq_true] <;>
    simp [controlView, emit, busEvents, reportsIn, List.count_append, List.count_cons]

theorem ProcessInput2_control (b : Bool) (s : State) :
    controlView (ProcessInput2 b s) = controlView s := by
  unfold ProcessInput2
  cases b <;> by_cases hpr : s.SG3525Set.Input1.Print = true <;>
    cases hact : s.SG3525Set.Input2.Action <;>
    simp only [hpr, hact, emit_Set, emit_IsOn, SG3525Run_control, if_true, if_false,
      Bool.false_eq_true] <;>
    simp [controlView, emit, busEvents, reportsIn, List.count_append, List.count_cons]

theorem InputsUpdate_control (m : Tick) (s : State) :
    controlView (InputsUpdate m s) = controlView s := by
  unfold InputsUpdate
  split <;> split <;> simp only [ProcessInput1_control, ProcessInput2_control]

theorem UpdateMeasure_control (m : Tick) (s : State) :
    controlView (UpdateMeasure m s) = controlView s := rfl

theorem UpdateRunTimer_control (s : State) :
    controlView (UpdateRunTimer s) = controlView s := by
  unfold UpdateRunTimer
  by_cases h : s.IsOn = true ∧ s.SG3525Set.RunMode = SG3525_RUN_MODE.RUN_TIMED
  · rw [if_pos h]
    by_cases h0 : dec16 s.SG3525Curr.RunTimer = 0
    · rw [if_pos h0, SG3525Run_control]; simp [controlView]
    · rw [if_neg h0]; simp [controlView]
  · rw [if_neg h]

/-- Nothing that `SG3525Update` does before its `switch` touches the set-point, the
wipers, the calibration session or the potentiometer bus. -/
theorem UpdatePrepare_control (m : Tick) (s : State) :
    controlView (UpdatePrepare m s) = controlView s := by
  unfold UpdatePrepare
  rw [UpdateRunTimer_control, UpdateMeasure_control, InputsUpdate_control]

/-- The dispatch of `SG3525Update` on the power mode found at entry. -/
theorem SG3525Update_eq (m : Tick) (s : State) :
    SG3525Update m s =
      (if s.SG3525Set.PwrMode = SG3525_PWR_MODE.PWR_CONST_FREQ then
        SG3525AdjustFreq (UpdatePrepare m s)
      else if s.SG3525Set.PwrMode = SG3525_PWR_MODE.PWR_CAL then
        SG3525Cal (UpdatePrepare m s)
      else UpdatePrepare m s) := by
  have hset : (UpdatePrepare m s).SG3525Set = s.SG3525Set :=
    congrArg (fun v => v.1) (UpdatePrepare_control m s)
  have hmode : (UpdatePrepare m s).SG3525Set.PwrMode = s.SG3525Set.PwrMode := by rw [hset]
  show (match (UpdatePrepare m s).SG3525Set.PwrMode with
    | SG3525_PWR_MODE.PWR_CONST_FREQ => SG3525AdjustFreq (UpdatePrepare m s)
    | SG3525_PWR_MODE.PWR_CAL => SG3525Cal (UpdatePrepare m s)
    | SG3525_PWR_MODE.PWR_CONST_WIPER => UpdatePrepare m s) = _
  rw [hmode]
  cases s.SG3525Set.PwrMode <;> simp


/-- Reading a `controlView` equation field by field. -/
theorem control_fields (a b : State) (h : controlView a = controlView b) :
    a.SG3525Set = b.SG3525Set ∧
      a.SG3525Curr.PWMWiper = b.SG3525Curr.PWMWiper ∧
      a.SG3525Curr.FreqCWiper = b.SG3525Curr.FreqCWiper ∧
      a.SG3525Curr.FreqFWiper = b.SG3525Curr.FreqFWiper ∧
      busEvents a.Log = busEvents b.Log ∧
      sessionView a = sessionView b := by
  simp only [controlView, Prod.mk.injEq] at h
  obtain ⟨h1, h2, h3, h4, h5, h6, h7, h8, h9, h10, h11⟩ := h
  refine ⟨h1, h2, h3, h4, h9, ?_⟩
  simp only [sessionView, h1, h5, h6, h7, h8, h10, h11]

/-- The tuner leaves the calibration session and its reporting alone. -/
theorem SG3525AdjustFreq_session (s : State) :
    sessionView (SG3525AdjustFreq s) = sessionView s := by
  obtain ⟨f1, _, f3, f4, f5, f6, _⟩ := SG3525AdjustFreq_frame s
  have hl := SG3525AdjustFreq_log s
  have hm : (SG3525AdjustFreq s).Log.count Event.ShowMAScreen
      = s.Log.count Event.ShowMAScreen := by
    rw [hl]
    split
    · simp
    · split
      · simp [AD8400SetWiper, MCP4131SetWiper, List.count_append, List.count_cons]
      · split
        · simp [AD8400SetWiper, MCP4131SetWiper, List.count_append, List.count_cons]
        · simp [AD8400SetWiper, List.count_append, List.count_cons]
  have hr : reportsIn (SG3525AdjustFreq s).Log = reportsIn s.Log := by
    rw [hl]
    unfold reportsIn
    split
    · simp
    · split
      · simp [AD8400SetWiper, MCP4131SetWiper, List.count_append, List.count_cons]
      · split
        · simp [AD8400SetWiper, MCP4131SetWiper, List.count_append, List.count_cons]
        · simp [AD8400SetWiper, List.count_append, List.count_cons]
  simp only [sessionView, f1, f3, f4, f5, f6, hm, hr]

/-! ## SG3525Update : claims -/

/-- C19: dispatch of `SG3525Update`.  After handling the inputs, refreshing the
measurements and handling the run timer (none of which touches the set-point, a wiper,
the calibration session or the potentiometer bus), one tick is exactly one
`SG3525AdjustFreq` call when the power mode is const-frequency, and then the
calibration session is untouched; exactly one `SG3525Cal` call when the power mode is
calibrating; and nothing more in debug-wiper mode, where all three wipers are
unchanged and no byte goes to a potentiometer. -/
theorem C19_Update_dispatch (m : Tick) (s : State) :
    SG3525Update m s =
        (if s.SG3525Set.PwrMode = SG3525_PWR_MODE.PWR_CONST_FREQ then
          SG3525AdjustFreq (UpdatePrepare m s)
        else if s.SG3525Set.PwrMode = SG3525_PWR_MODE.PWR_CAL then
          SG3525Cal (UpdatePrepare m s)
        else UpdatePrepare m s) ∧
      UpdatePrepare m s = UpdateRunTimer (UpdateMeasure m (InputsUpdate m s)) ∧
      controlView (UpdatePrepare m s) = controlView s ∧
      (s.SG3525Set.PwrMode ≠ SG3525_PWR_MODE.PWR_CONST_FREQ ∨
        sessionView (SG3525Update m s) = sessionView s) ∧
      (s.SG3525Set.PwrMode ≠ SG3525_PWR_MODE.PWR_CONST_WIPER ∨
        ((SG3525Update m s).SG3525Curr.PWMWiper = s.SG3525Curr.PWMWiper ∧
          (SG3525Update m s).SG3525Curr.FreqCWiper = s.SG3525Curr.FreqCWiper ∧
          (SG3525Update m s).SG3525Curr.FreqFWiper = s.SG3525Curr.FreqFWiper ∧
          busEvents (SG3525Update m s).Log = busEvents s.Log)) := by
  have heq := SG3525Update_eq m s
  obtain ⟨_, c2, c3, c4, c5, c6⟩ := control_fields _ _ (UpdatePrepare_control m s)
  refine ⟨heq, rfl, UpdatePrepare_control m s, ?_, ?_⟩
  · by_cases h : s.SG3525Set.PwrMode = SG3525_PWR_MODE.PWR_CONST_FREQ
    · right
      rw [heq, if_pos h, SG3525AdjustFreq_session, c6]
    · exact Or.inl h
  · by_cases h : s.SG3525Set.PwrMode = SG3525_PWR_MODE.PWR_CONST_WIPER
    · right
      rw [heq, if_neg (by rw [h]; decide), if_neg (by rw [h]; decide)]
      exact ⟨c2, c3, c4, c5⟩
    · exact Or.inl h


/-! ## Run timer : lemmas -/

/-- Output line, countdown and set-point after a tick without input events in
const-frequency mode: they are those left by the run-timer step. -/
theorem SG3525Update_quiet (m : Tick) (s : State)
    (hmode : s.SG3525Set.PwrMode = SG3525_PWR_MODE.PWR_CONST_FREQ)
    (h1 : m.Input1 = none) (h2 : m.Input2 = none) :
    (SG3525Update m s).IsOn = (UpdateRunTimer s).IsOn ∧
      (SG3525Update m s).SG3525Curr.RunTimer = (UpdateRunTimer s).SG3525Curr.RunTimer ∧
      (SG3525Update m s).SG3525Set = s.SG3525Set := by
  have hprep : UpdatePrepare m s = UpdateRunTimer (UpdateMeasure m s) := by
    simp [UpdatePrepare, InputsUpdate, h1, h2]
  have hu : (UpdateRunTimer (UpdateMeasure m s)).IsOn = (UpdateRunTimer s).IsOn ∧
      (UpdateRunTimer (UpdateMeasure m s)).SG3525Curr.RunTimer
        = (UpdateRunTimer s).SG3525Curr.RunTimer ∧
      (UpdateRunTimer (UpdateMeasure m s)).SG3525Set = s.SG3525Set := by
    unfold UpdateRunTimer
    have e1 : (UpdateMeasure m s).IsOn = s.IsOn := rfl
    have e2 : (UpdateMeasure m s).SG3525Set = s.SG3525Set := rfl
    have e3 : (UpdateMeasure m s).SG3525Curr.RunTimer = s.SG3525Curr.RunTimer := rfl
    rw [e1, e2, e3]
    by_cases h : s.IsOn = true ∧ s.SG3525Set.RunMode = SG3525_RUN_MODE.RUN_TIMED
    · rw [if_pos h, if_pos h]
      by_cases h0 : dec16 s.SG3525Curr.RunTimer = 0
      · simp [h0, SG3525Run, emit, UpdateMeasure]
      · simp [h0, UpdateMeasure]
    · rw [if_neg h, if_neg h]
      exact ⟨rfl, rfl, rfl⟩
  obtain ⟨f1, f2, _, _, _, _, f7⟩ := SG3525AdjustFreq_frame (UpdatePrepare m s)
  rw [SG3525Update_eq, if_pos hmode, f1, f2, f7, hprep]
  exact hu

/-- The run-timer step on an enabled output in Timed mode. -/
theorem UpdateRunTimer_timed (s : State) (hon : s.IsOn = true)
    (ht : s.SG3525Set.RunMode = SG3525_RUN_MODE.RUN_TIMED)
    (h1 : 1 ≤ s.SG3525Curr.RunTimer) (h2 : s.SG3525Curr.RunTimer < 65536) :
    (UpdateRunTimer s).IsOn = (if s.SG3525Curr.RunTimer = 1 then false else true) ∧
      (UpdateRunTimer s).SG3525Curr.RunTimer = s.SG3525Curr.RunTimer - 1 := by
  unfold UpdateRunTimer
  have hd : dec16 s.SG3525Curr.RunTimer = s.SG3525Curr.RunTimer - 1 := by
    unfold dec16; omega
  rw [if_pos ⟨hon, ht⟩]
  simp only [hd]
  by_cases h : s.SG3525Curr.RunTimer = 1
  · simp [h, SG3525Run, emit]
  · rw [if_neg (by omega), if_neg h]
    exact ⟨hon, rfl⟩

theorem UpdateRun_cons (s : State) (t : Tick) (ticks : List Tick) :
    UpdateRun s (t :: ticks) = UpdateRun (SG3525Update t s) ticks := rfl

theorem UpdateRun_append (s : State) (a b : List Tick) :
    UpdateRun s (a ++ b) = UpdateRun (UpdateRun s a) b := by
  unfold UpdateRun
  rw [List.foldl_append]

/-- Quiet ticks in const-frequency mode while the countdown has not run out. -/
theorem UpdateRun_counting (ticks : List Tick) : ∀ s : State,
    (∀ t ∈ ticks, t.Input1 = none ∧ t.Input2 = none) →
    s.SG3525Set.PwrMode = SG3525_PWR_MODE.PWR_CONST_FREQ →
    s.SG3525Set.RunMode = SG3525_RUN_MODE.RUN_TIMED →
    s.IsOn = true → ticks.length < s.SG3525Curr.RunTimer → s.SG3525Curr.RunTimer < 65536 →
    (UpdateRun s ticks).IsOn = true ∧
      (UpdateRun s ticks).SG3525Curr.RunTimer = s.SG3525Curr.RunTimer - ticks.length ∧
      (UpdateRun s ticks).SG3525Set = s.SG3525Set := by
  induction ticks with
  | nil => intro s _ _ _ hon _ _; exact ⟨hon, rfl, rfl⟩
  | cons t ticks ih =>
    intro s hq hmode ht hon hlen h16
    have hqt := hq t (List.mem_cons_self _ _)
    obtain ⟨u1, u2, u3⟩ := SG3525Update_quiet t s hmode hqt.1 hqt.2
    simp only [List.length_cons] at hlen
    obtain ⟨r1, r2⟩ := UpdateRunTimer_timed s hon ht (by omega) h16
    rw [if_neg (by omega)] at r1
    obtain ⟨i1, i2, i3⟩ := ih (SG3525Update t s)
      (fun x hx => hq x (List.mem_cons_of_mem _ hx)) (by rw [u3]; exact hmode)
      (by rw [u3]; exact ht) (by rw [u1, r1]) (by rw [u2, r2]; omega) (by rw [u2, r2]; omega)
    rw [UpdateRun_cons]
    refine ⟨i1, ?_, i3.trans u3⟩
    rw [i2, u2, r2, List.length_cons]
    omega

/-- Quiet ticks in const-frequency mode with the output off leave it off. -/
theorem UpdateRun_off (ticks : List Tick) : ∀ s : State,
    (∀ t ∈ ticks, t.Input1 = none ∧ t.Input2 = none) →
    s.SG3525Set.PwrMode = SG3525_PWR_MODE.PWR_CONST_FREQ →
    s.IsOn = false →
    (UpdateRun s ticks).IsOn = false ∧
      (UpdateRun s ticks).SG3525Curr.RunTimer = s.SG3525Curr.RunTimer := by
  induction ticks with
  | nil => intro s _ _ hoff; exact ⟨hoff, rfl⟩
  | cons t ticks ih =>
    intro s hq hmode hoff
    have hqt := hq t (List.mem_cons_self _ _)
    obtain ⟨u1, u2, u3⟩ := SG3525Update_quiet t s hmode hqt.1 hqt.2
    have hr : UpdateRunTimer s = s := by simp [UpdateRunTimer, hoff]
    rw [hr] at u1 u2
    obtain ⟨i1, i2⟩ := ih (SG3525Update t s)
      (fun x hx => hq x (List.mem_cons_of_mem _ hx)) (by rw [u3]; exact hmode)
      (by rw [u1]; exact hoff)
    rw [UpdateRun_cons]
    exact ⟨i1, i2.trans u2⟩

/-- C18: timed auto-shutoff.  For every run-timer duration `n` from 1 to 65535 (the
range of the `uint16_t` field), after `SG3525Run(true)` in Timed mode, with power mode
const-frequency and no input events, the output is still enabled after each of the
first `n - 1` `SG3525Update` calls (countdown `n - j` after `j` calls), is disabled by
exactly the `n`-th call, which leaves the countdown at 0, and stays disabled with
countdown 0 over any further calls. -/
theorem C18_timed_auto_shutoff (s : State) (n j : Nat) (pre post : List Tick) (t : Tick)
    (hmode : s.SG3525Set.PwrMode = SG3525_PWR_MODE.PWR_CONST_FREQ)
    (ht : s.SG3525Set.RunMode = SG3525_RUN_MODE.RUN_TIMED)
    (hn : s.SG3525Set.RunTimer = n) (h1 : 1 ≤ n) (h16 : n < 65536)
    (hpre : pre.length = n - 1)
    (hq : ∀ x ∈ pre ++ t :: post, x.Input1 = none ∧ x.Input2 = none)
    (hj : j ≤ n - 1) :
    ((UpdateRun (SG3525Run true s) (pre.take j)).IsOn = true ∧
        (UpdateRun (SG3525Run true s) (pre.take j)).SG3525Curr.RunTimer = n - j) ∧
      ((UpdateRun (SG3525Run true s) (pre ++ [t])).IsOn = false ∧
        (UpdateRun (SG3525Run true s) (pre ++ [t])).SG3525Curr.RunTimer = 0) ∧
      ((UpdateRun (SG3525Run true s) (pre ++ t :: post)).IsOn = false ∧
        (UpdateRun (SG3525Run true s) (pre ++ t :: post)).SG3525Curr.RunTimer = 0) := by
  have s0on : (SG3525Run true s).IsOn = true := by simp [SG3525Run, ht, emit]
  have s0set : (SG3525Run true s).SG3525Set = s.SG3525Set := by simp [SG3525Run, ht, emit]
  have s0rt : (SG3525Run true s).SG3525Curr.RunTimer = n := by simp [SG3525Run, ht, emit, hn]
  have qpre : ∀ x ∈ pre, x.Input1 = none ∧ x.Input2 = none :=
    fun x hx => hq x (List.mem_append_left _ hx)
  have qt : t.Input1 = none ∧ t.Input2 = none :=
    hq t (List.mem_append_right _ (List.mem_cons_self _ _))
  have qpost : ∀ x ∈ post, x.Input1 = none ∧ x.Input2 = none :=
    fun x hx => hq x (List.mem_append_right _ (List.mem_cons_of_mem _ hx))
  -- the first n - 1 calls
  have hlenj : (pre.take j).length = j := by rw [List.length_take]; omega
  obtain ⟨a1, a2, _⟩ := UpdateRun_counting (pre.take j) (SG3525Run true s)
    (fun x hx => qpre x (List.mem_of_mem_take hx)) (by rw [s0set]; exact hmode)
    (by rw [s0set]; exact ht) s0on (by rw [s0rt, hlenj]; omega) (by rw [s0rt]; exact h16)
  obtain ⟨b1, b2, b3⟩ := UpdateRun_counting pre (SG3525Run true s) qpre
    (by rw [s0set]; exact hmode) (by rw [s0set]; exact ht) s0on (by rw [s0rt, hpre]; omega)
    (by rw [s0rt]; exact h16)
  -- the n-th call
  have hmode' : (UpdateRun (SG3525Run true s) pre).SG3525Set.PwrMode
      = SG3525_PWR_MODE.PWR_CONST_FREQ := by rw [b3, s0set]; exact hmode
  have hrt1 : (UpdateRun (SG3525Run true s) pre).SG3525Curr.RunTimer = 1 := by
    rw [b2, s0rt, hpre]; omega
  obtain ⟨u1, u2, u3⟩ := SG3525Update_quiet t (UpdateRun (SG3525Run true s) pre) hmode' qt.1 qt.2
  obtain ⟨r1, r2⟩ := UpdateRunTimer_timed (UpdateRun (SG3525Run true s) pre) b1
    (by rw [b3, s0set]; exact ht) (by omega) (by omega)
  rw [if_pos hrt1] at r1
  rw [hrt1] at r2
  have hnth : UpdateRun (SG3525Run true s) (pre ++ [t])
      = SG3525Update t (UpdateRun (SG3525Run true s) pre) := by
    rw [UpdateRun_append]; rfl
  have c1 : (UpdateRun (SG3525Run true s) (pre ++ [t])).IsOn = false := by
    rw [hnth, u1, r1]
  have c2 : (UpdateRun (SG3525Run true s) (pre ++ [t])).SG3525Curr.RunTimer = 0 := by
    rw [hnth, u2, r2]
  -- any further calls
  have hall : pre ++ t :: post = (pre ++ [t]) ++ post := by simp
  obtain ⟨d1, d2⟩ := UpdateRun_off post (UpdateRun (SG3525Run true s) (pre ++ [t])) qpost
    (by rw [hnth, u3]; exact hmode') c1
  refine ⟨⟨a1, by rw [a2, s0rt, hlenj]⟩, ⟨c1, c2⟩, ?_, ?_⟩
  · rw [hall, UpdateRun_append]; exact d1
  · rw [hall, UpdateRun_append, d2]; exact c2

theorem C18_timed_auto_shutoff_witness :
    ((UpdateRun (SG3525Run true sampleTimed) ((List.replicate 4 sampleTick).take 2)).IsOn = true ∧
        (UpdateRun (SG3525Run true sampleTimed) ((List.replicate 4 sampleTick).take 2)).SG3525Curr.RunTimer = 5 - 2) ∧
      ((UpdateRun (SG3525Run true sampleTimed) ((List.replicate 4 sampleTick) ++ [sampleTick])).IsOn = false ∧
        (UpdateRun (SG3525Run true sampleTimed) ((List.replicate 4 sampleTick) ++ [sampleTick])).SG3525Curr.RunTimer = 0) ∧
      ((UpdateRun (SG3525Run true sampleTimed) ((List.replicate 4 sampleTick) ++ sampleTick :: [sampleTick])).IsOn = false ∧
        (UpdateRun (SG3525Run true sampleTimed) ((List.replicate 4 sampleTick) ++ sampleTick :: [sampleTick])).SG3525Curr.RunTimer = 0) :=
  C18_timed_auto_shutoff sampleTimed 5 2 (List.replicate 4 sampleTick) [sampleTick] sampleTick
    rfl rfl rfl (by decide) (by decide) (by decide) (by decide) (by decide)


/-! ## Timer snapshot : lemmas and claims -/

/-- The snapshot loop started at read `n` returns exactly at the first pass whose two
reads agree, with that byte and the extension byte. -/
theorem ReadTimer_iff (TCNT : Nat → Nat) (e : Nat) : ∀ (fuel n lo ext : Nat),
    ReadTimer TCNT e fuel n = some (lo, ext) ↔
      ∃ j, j < fuel ∧ (∀ i, i < j → TCNT (n + 2 * i) ≠ TCNT (n + 2 * i + 1)) ∧
        TCNT (n + 2 * j) = lo ∧ TCNT (n + 2 * j + 1) = lo ∧ ext = e := by
  intro fuel
  induction fuel with
  | zero =>
    intro n lo ext
    simp [ReadTimer]
  | succ fuel ih =>
    intro n lo ext
    unfold ReadTimer
    by_cases h : TCNT n ≠ TCNT (n + 1)
    · rw [if_pos h, ih]
      constructor
      · rintro ⟨j, hj, hne, h1, h2, h3⟩
        refine ⟨j + 1, by omega, ?_, ?_, ?_, h3⟩
        · intro i hi
          cases i with
          | zero => simpa using h
          | succ i =>
            have := hne i (by omega)
            have e1 : n + 2 * (i + 1) = n + 2 + 2 * i := by omega
            rw [e1]; exact this
        · have e1 : n + 2 * (j + 1) = n + 2 + 2 * j := by omega
          rw [e1]; exact h1
        · have e1 : n + 2 * (j + 1) = n + 2 + 2 * j := by omega
          rw [e1]; exact h2
      · rintro ⟨j, hj, hne, h1, h2, h3⟩
        cases j with
        | zero =>
          exfalso
          apply h
          simp only [Nat.mul_zero, Nat.add_zero] at h1 h2
          rw [h1, h2]
        | succ j =>
          have e1 : n + 2 * (j + 1) = n + 2 + 2 * j := by omega
          refine ⟨j, by omega, ?_, by rw [← e1]; exact h1, by rw [← e1]; exact h2, h3⟩
          intro i hi
          have := hne (i + 1) (by omega)
          have e2 : n + 2 * (i + 1) = n + 2 + 2 * i := by omega
          rw [e2] at this; exact this
    · have h' : TCNT n = TCNT (n + 1) := by
        by_contra hc; exact h hc
      rw [if_neg h]
      constructor
      · intro hs
        simp only [Option.some.injEq, Prod.mk.injEq] at hs
        refine ⟨0, by omega, fun i hi => by omega, by simpa using hs.1, ?_, hs.2.symm⟩
        simp only [Nat.mul_zero, Nat.add_zero]
        rw [← h']; exact hs.1
      · rintro ⟨j, hj, hne, h1, h2, h3⟩
        cases j with
        | zero =>
          simp only [Nat.mul_zero, Nat.add_zero] at h1
          rw [h1, h3]
        | succ j =>
          exfalso
          have := hne 0 (by omega)
          simp only [Nat.mul_zero, Nat.add_zero] at this
          exact this h'

/-- C20: timer snapshot retry.  With the successive reads of the low byte given as a
stream, the snapshot loop of `FreqUpdate` returns `(lo, ext)` exactly when some pass
`j` within the fuel is the first whose two consecutive reads are equal, `lo` being
that stable byte and `ext` the extension byte; the value `FreqUpdate` then accepts is
`ext*256 + lo`.  In particular, when the low byte changes once, from `a` to `b`,
between the two reads of the first pass, one pass is not enough, the second pass
returns, and the accepted value is `ext*256 + b`. -/
theorem C20_snapshot_retry (TCNT : Nat → Nat) (s : FreqData) (fuel lo ext a b : Nat)
    (hab : a ≠ b) (hlo : lo < 256) (hb : b < 256) (hext : s.TimerExt < 256) :
    (ReadTimer TCNT s.TimerExt fuel 0 = some (lo, ext) ↔
        ∃ j, j < fuel ∧ (∀ i, i < j → TCNT (2 * i) ≠ TCNT (2 * i + 1)) ∧
          TCNT (2 * j) = lo ∧ TCNT (2 * j + 1) = lo ∧ ext = s.TimerExt) ∧
      FreqUpdate fuel TCNT s
        = (ReadTimer TCNT s.TimerExt fuel 0).map (fun r => FreqStore s r.1 r.2) ∧
      (FreqStore s lo s.TimerExt).PrevTimer = s.TimerExt * 256 + lo ∧
      ReadTimer (oneChange a b) s.TimerExt 1 0 = none ∧
      ReadTimer (oneChange a b) s.TimerExt (fuel + 2) 0 = some (b, s.TimerExt) ∧
      FreqUpdate (fuel + 2) (oneChange a b) s = some (FreqStore s b s.TimerExt) ∧
      (FreqStore s b s.TimerExt).PrevTimer = s.TimerExt * 256 + b := by
  have hval : ∀ x, x < 256 → (FreqStore s x s.TimerExt).PrevTimer = s.TimerExt * 256 + x := by
    intro x hx
    simp only [FreqStore, Nat.shiftLeft_eq]
    omega
  have hpass1 : ReadTimer (oneChange a b) s.TimerExt 1 0 = none := by
    simp [ReadTimer, oneChange, hab]
  have hpass2 : ReadTimer (oneChange a b) s.TimerExt (fuel + 2) 0 = some (b, s.TimerExt) := by
    simp [ReadTimer, oneChange, hab]
  refine ⟨?_, rfl, hval lo hlo, hpass1, hpass2, ?_, hval b hb⟩
  · have := ReadTimer_iff TCNT s.TimerExt fuel 0 lo ext
    simpa using this
  · simp [FreqUpdate, hpass2]

theorem C20_snapshot_retry_witness :
    (ReadTimer (oneChange 3 4) (FreqInit 3).TimerExt 2 0 = some (4, 0) ↔
        ∃ j, j < 2 ∧ (∀ i, i < j → (oneChange 3 4) (2 * i) ≠ (oneChange 3 4) (2 * i + 1)) ∧
          (oneChange 3 4) (2 * j) = 4 ∧ (oneChange 3 4) (2 * j + 1) = 4 ∧ 0 = (FreqInit 3).TimerExt) ∧
      FreqUpdate 2 (oneChange 3 4) (FreqInit 3)
        = (ReadTimer (oneChange 3 4) (FreqInit 3).TimerExt 2 0).map (fun r => FreqStore (FreqInit 3) r.1 r.2) ∧
      (FreqStore (FreqInit 3) 4 (FreqInit 3).TimerExt).PrevTimer = (FreqInit 3).TimerExt * 256 + 4 ∧
      ReadTimer (oneChange 3 4) (FreqInit 3).TimerExt 1 0 = none ∧
      ReadTimer (oneChange 3 4) (FreqInit 3).TimerExt (2 + 2) 0 = some (4, (FreqInit 3).TimerExt) ∧
      FreqUpdate (2 + 2) (oneChange 3 4) (FreqInit 3) = some (FreqStore (FreqInit 3) 4 (FreqInit 3).TimerExt) ∧
      (FreqStore (FreqInit 3) 4 (FreqInit 3).TimerExt).PrevTimer = (FreqInit 3).TimerExt * 256 + 4 :=
  C20_snapshot_retry (oneChange 3 4) (FreqInit 3) 2 4 0 3 4
    (by decide) (by decide) (by decide) (by decide)


/-! ## Calibration session : lemmas -/

theorem CalRun_cons (s : State) (m : Nat) (ms : List Nat) :
    CalRun s (m :: ms) = CalRun (SG3525Cal (withFreq m s)) ms := rfl

theorem CalRun_append (s : State) (a b : List Nat) :
    CalRun s (a ++ b) = CalRun (CalRun s a) b := by
  unfold CalRun
  rw [List.foldl_append]

/-- The tuner never writes the output-enable line. -/
theorem SG3525AdjustFreq_disables (s : State) :
    disablesIn (SG3525AdjustFreq s).Log = disablesIn s.Log := by
  rw [SG3525AdjustFreq_log]
  unfold disablesIn
  split
  · simp
  · split
    · simp [AD8400SetWiper, MCP4131SetWiper, List.count_append, List.count_cons]
    · split
      · simp [AD8400SetWiper, MCP4131SetWiper, List.count_append, List.count_cons]
      · simp [AD8400SetWiper, List.count_append, List.count_cons]

/-- One calibrator call during the alternation, `END_CAL` not yet due: the output
stays on, one call fewer remains, one coarse transfer is made, reports plus counter is
conserved, and neither a redraw nor a disable happens. -/
theorem alternation_step (s : State) (m : Nat) (hon : s.IsOn = true)
    (hstep : s.CalStep = SG3525_CAL_STEP.LOWER_FREQ ∨ s.CalStep = SG3525_CAL_STEP.UPPER_FREQ)
    (hcalls : 2 ≤ callsToEndCal s) (hc : s.CalCount < 256) :
    (SG3525Cal (withFreq m s)).IsOn = true ∧
      ((SG3525Cal (withFreq m s)).CalStep = SG3525_CAL_STEP.LOWER_FREQ ∨
        (SG3525Cal (withFreq m s)).CalStep = SG3525_CAL_STEP.UPPER_FREQ) ∧
      callsToEndCal (SG3525Cal (withFreq m s)) + 1 = callsToEndCal s ∧
      (SG3525Cal (withFreq m s)).CalCount < 256 ∧
      reportsIn (SG3525Cal (withFreq m s)).Log + (SG3525Cal (withFreq m s)).CalCount
        = reportsIn s.Log + s.CalCount ∧
      writesTo Pot.FreqCPot (SG3525Cal (withFreq m s)).Log
        = writesTo Pot.FreqCPot s.Log + 1 ∧
      (SG3525Cal (withFreq m s)).Log.count Event.ShowMAScreen
        = s.Log.count Event.ShowMAScreen ∧
      disablesIn (SG3525Cal (withFreq m s)).Log = disablesIn s.Log ∧
      (SG3525Cal (withFreq m s)).SG3525Set = s.SG3525Set := by
  rcases hstep with hl | hu
  · have hpos : s.CalCount > 0 := by
      unfold callsToEndCal at hcalls
      rw [if_pos hl] at hcalls
      omega
    have heq : SG3525Cal (withFreq m s) = CalLowerFreq (withFreq m s) := by
      simp [SG3525Cal, withFreq, hon, hl]
    have hpos' : (withFreq m s).CalCount > 0 := hpos
    rw [heq, CalLowerFreq_eq, if_pos hpos']
    refine ⟨hon, Or.inr rfl, ?_, ?_, ?_, ?_, ?_, ?_, rfl⟩
    · simp only [callsToEndCal, withFreq, hl, if_true]
      have : (s.CalCount + 255) % 256 = s.CalCount - 1 := by omega
      simp [this]
      omega
    · exact Nat.mod_lt _ (by decide)
    · have : (s.CalCount + 255) % 256 = s.CalCount - 1 := by omega
      simp [reportsIn, withFreq, calReport, MCP4131SetWiper, List.count_append,
        List.count_cons, this]
      omega
    · simp [writesTo, withFreq, calReport, MCP4131SetWiper, List.count_append, List.count_cons]
    · simp [withFreq, calReport, MCP4131SetWiper, List.count_append, List.count_cons]
    · simp [disablesIn, withFreq, calReport, MCP4131SetWiper, List.count_append,
        List.count_cons]
  · have heq : SG3525Cal (withFreq m s) = CalUpperFreq (withFreq m s) := by
      simp [SG3525Cal, withFreq, hon, hu]
    rw [heq, CalUpperFreq_eq]
    refine ⟨hon, Or.inl rfl, ?_, hc, ?_, ?_, ?_, ?_, rfl⟩
    · simp [callsToEndCal, withFreq, hu]
    · simp [reportsIn, withFreq, MCP4131SetWiper, List.count_append, List.count_cons]
    · simp [writesTo, withFreq, MCP4131SetWiper, List.count_append, List.count_cons]
    · simp [withFreq, MCP4131SetWiper, List.count_append, List.count_cons]
    · simp [disablesIn, withFreq, MCP4131SetWiper, List.count_append, List.count_cons]


/-- Any number of calibrator calls during the alternation, short of the one that runs
`END_CAL`. -/
theorem alternation_run (ms : List Nat) : ∀ s : State, s.IsOn = true →
    (s.CalStep = SG3525_CAL_STEP.LOWER_FREQ ∨ s.CalStep = SG3525_CAL_STEP.UPPER_FREQ) →
    ms.length < callsToEndCal s → s.CalCount < 256 →
    (CalRun s ms).IsOn = true ∧
      ((CalRun s ms).CalStep = SG3525_CAL_STEP.LOWER_FREQ ∨
        (CalRun s ms).CalStep = SG3525_CAL_STEP.UPPER_FREQ) ∧
      callsToEndCal (CalRun s ms) + ms.length = callsToEndCal s ∧
      (CalRun s ms).CalCount < 256 ∧
      reportsIn (CalRun s ms).Log + (CalRun s ms).CalCount = reportsIn s.Log + s.CalCount ∧
      writesTo Pot.FreqCPot (CalRun s ms).Log = writesTo Pot.FreqCPot s.Log + ms.length ∧
      (CalRun s ms).Log.count Event.ShowMAScreen = s.Log.count Event.ShowMAScreen ∧
      disablesIn (CalRun s ms).Log = disablesIn s.Log ∧
      (CalRun s ms).SG3525Set = s.SG3525Set := by
  induction ms with
  | nil =>
    intro s hon hstep _ hc
    exact ⟨hon, hstep, rfl, hc, rfl, rfl, rfl, rfl, rfl⟩
  | cons m ms ih =>
    intro s hon hstep hlen hc
    simp only [List.length_cons] at hlen
    obtain ⟨a1, a2, a3, a4, a5, a6, a7, a8, a9⟩ :=
      alternation_step s m hon hstep (by omega) hc
    obtain ⟨b1, b2, b3, b4, b5, b6, b7, b8, b9⟩ :=
      ih (SG3525Cal (withFreq m s)) a1 a2 (by omega) a4
    rw [CalRun_cons, List.length_cons]
    exact ⟨b1, b2, by omega, b4, by omega, by omega, by omega, by omega, b9.trans a9⟩

/-- The calibrator call made in `LOWER_FREQ` with the counter at 0 runs `END_CAL`. -/
theorem final_step (s : State) (m : Nat) (hon : s.IsOn = true)
    (hstep : s.CalStep = SG3525_CAL_STEP.LOWER_FREQ) (hc : s.CalCount = 0) :
    (SG3525Cal (withFreq m s)).IsOn = false ∧
      (SG3525Cal (withFreq m s)).CalStep = SG3525_CAL_STEP.WAIT_START ∧
      (SG3525Cal (withFreq m s)).SG3525Set.PwrMode = SG3525_PWR_MODE.PWR_CONST_FREQ ∧
      (SG3525Cal (withFreq m s)).SG3525Curr.RunTimer = 0 ∧
      reportsIn (SG3525Cal (withFreq m s)).Log = reportsIn s.Log + 1 ∧
      writesTo Pot.FreqCPot (SG3525Cal (withFreq m s)).Log
        = writesTo Pot.FreqCPot s.Log + 1 ∧
      (SG3525Cal (withFreq m s)).Log.count Event.ShowMAScreen
        = s.Log.count Event.ShowMAScreen + 1 ∧
      disablesIn (SG3525Cal (withFreq m s)).Log = disablesIn s.Log + 1 := by
  have heq : SG3525Cal (withFreq m s) = CalLowerFreq (withFreq m s) := by
    simp [SG3525Cal, withFreq, hon, hstep]
  have hz : ¬ (withFreq m s).CalCount > 0 := by
    show ¬ s.CalCount > 0
    omega
  rw [heq, CalLowerFreq_eq, if_neg hz, CalEndCal_eq]
  refine ⟨rfl, rfl, rfl, rfl, ?_, ?_, ?_, ?_⟩
  · simp [reportsIn, withFreq, calReport, MCP4131SetWiper, List.count_append,
      List.count_cons, List.count_replicate]
  · simp [writesTo, withFreq, calReport, MCP4131SetWiper, List.count_append,
      List.count_cons, List.count_replicate]
  · simp [withFreq, calReport, MCP4131SetWiper, List.count_append,
      List.count_cons, List.count_replicate]
  · simp [disablesIn, withFreq, calReport, MCP4131SetWiper, List.count_append,
      List.count_cons, List.count_replicate]

/-- The calibrator call made in `WAIT_28K` with the measurement inside the band. -/
theorem settle_step (s : State) (m : Nat) (hon : s.IsOn = true)
    (hstep : s.CalStep = SG3525_CAL_STEP.WAIT_28K) (hlo : 27990 ≤ m) (hhi : m ≤ 28010) :
    (SG3525Cal (withFreq m s)).IsOn = true ∧
      (SG3525Cal (withFreq m s)).CalStep = SG3525_CAL_STEP.LOWER_FREQ ∧
      (SG3525Cal (withFreq m s)).CalCount = 10 ∧
      (SG3525Cal (withFreq m s)).UpperFreq = m ∧
      reportsIn (SG3525Cal (withFreq m s)).Log = reportsIn s.Log ∧
      writesTo Pot.FreqCPot (SG3525Cal (withFreq m s)).Log
        = writesTo Pot.FreqCPot s.Log + 1 ∧
      (SG3525Cal (withFreq m s)).Log.count Event.ShowMAScreen
        = s.Log.count Event.ShowMAScreen ∧
      disablesIn (SG3525Cal (withFreq m s)).Log = disablesIn s.Log ∧
      (SG3525Cal (withFreq m s)).SG3525Set = s.SG3525Set := by
  have hin : 27990 ≤ (withFreq m s).SG3525Curr.Freq ∧ (withFreq m s).SG3525Curr.Freq ≤ 28010 :=
    ⟨hlo, hhi⟩
  rw [SG3525Cal_Wait28k (withFreq m s) hon hstep, if_pos hin, CalUpperFreq_eq]
  refine ⟨hon, rfl, rfl, rfl, ?_, ?_, ?_, ?_, rfl⟩
  · simp [reportsIn, withFreq, MCP4131SetWiper, List.count_append, List.count_cons]
  · simp [writesTo, withFreq, MCP4131SetWiper, List.count_append, List.count_cons]
  · simp [withFreq, MCP4131SetWiper, List.count_append, List.count_cons]
  · simp [disablesIn, withFreq, MCP4131SetWiper, List.count_append, List.count_cons]

/-- The calibrator calls made in `WAIT_28K` with the measurement outside the band
leave the session where it is. -/
theorem waiting_run (ms : List Nat) : ∀ s : State, s.IsOn = true →
    s.CalStep = SG3525_CAL_STEP.WAIT_28K → (∀ m ∈ ms, m < 27990 ∨ 28010 < m) →
    (CalRun s ms).IsOn = true ∧
      (CalRun s ms).CalStep = SG3525_CAL_STEP.WAIT_28K ∧
      sessionView (CalRun s ms) = sessionView s ∧
      disablesIn (CalRun s ms).Log = disablesIn s.Log := by
  induction ms with
  | nil => intro s hon hstep _; exact ⟨hon, hstep, rfl, rfl⟩
  | cons m ms ih =>
    intro s hon hstep hout
    have hm := hout m (List.mem_cons_self _ _)
    have hnot : ¬ (27990 ≤ (withFreq m s).SG3525Curr.Freq ∧
        (withFreq m s).SG3525Curr.Freq ≤ 28010) := by
      show ¬ (27990 ≤ m ∧ m ≤ 28010)
      omega
    have heq : SG3525Cal (withFreq m s) = SG3525AdjustFreq (withFreq m s) := by
      rw [SG3525Cal_Wait28k (withFreq m s) hon hstep, if_neg hnot]
    obtain ⟨_, f2, f3, _, _, _, _⟩ := SG3525AdjustFreq_frame (withFreq m s)
    obtain ⟨i1, i2, i3, i4⟩ := ih (SG3525Cal (withFreq m s)) (by rw [heq, f2]; exact hon)
      (by rw [heq, f3]; exact hstep) (fun x hx => hout x (List.mem_cons_of_mem _ hx))
    rw [CalRun_cons]
    refine ⟨i1, i2, ?_, ?_⟩
    · rw [i3, heq, SG3525AdjustFreq_session]; rfl
    · rw [i4, heq, SG3525AdjustFreq_disables]; rfl

/-- The calibrator call made in `WAIT_START` with the output on. -/
theorem start_step (s : State) (m : Nat) (hon : s.IsOn = true)
    (hstep : s.CalStep = SG3525_CAL_STEP.WAIT_START) :
    (SG3525Cal (withFreq m s)).IsOn = true ∧
      (SG3525Cal (withFreq m s)).CalStep = SG3525_CAL_STEP.WAIT_28K ∧
      reportsIn (SG3525Cal (withFreq m s)).Log = reportsIn s.Log ∧
      (SG3525Cal (withFreq m s)).Log.count Event.ShowMAScreen
        = s.Log.count Event.ShowMAScreen ∧
      disablesIn (SG3525Cal (withFreq m s)).Log = disablesIn s.Log := by
  have heq : SG3525Cal (withFreq m s) =
      { SG3525AdjustFreq (withTarget CAL_FREQ (PWMPotSetWiper 30
          { withFreq m s with SG3525Curr :=
            { (withFreq m s).SG3525Curr with PWMWiper := 30 } })) with
        CalStep := SG3525_CAL_STEP.WAIT_28K } := by
    simp [SG3525Cal, withFreq, hstep, hon, withTarget]
  have hs := SG3525AdjustFreq_session (withTarget CAL_FREQ (PWMPotSetWiper 30
          { withFreq m s with SG3525Curr :=
            { (withFreq m s).SG3525Curr with PWMWiper := 30 } }))
  have hd := SG3525AdjustFreq_disables (withTarget CAL_FREQ (PWMPotSetWiper 30
          { withFreq m s with SG3525Curr :=
            { (withFreq m s).SG3525Curr with PWMWiper := 30 } }))
  have hf := (SG3525AdjustFreq_frame (withTarget CAL_FREQ (PWMPotSetWiper 30
          { withFreq m s with SG3525Curr :=
            { (withFreq m s).SG3525Curr with PWMWiper := 30 } }))).2.1
  simp only [sessionView, Prod.mk.injEq] at hs
  obtain ⟨_, _, _, _, _, hs6, hs7⟩ := hs
  rw [heq]
  refine ⟨?_, rfl, ?_, ?_, ?_⟩
  · show (SG3525AdjustFreq _).IsOn = true
    rw [hf]; exact hon
  · show reportsIn (SG3525AdjustFreq _).Log = _
    rw [hs7]
    simp [reportsIn, withTarget, PWMPotSetWiper, emit, withFreq, MCP4161SetWiper,
      List.count_append, List.count_cons]
  · show (SG3525AdjustFreq _).Log.count Event.ShowMAScreen = _
    rw [hs6]
    simp [withTarget, PWMPotSetWiper, emit, withFreq, MCP4161SetWiper,
      List.count_append, List.count_cons]
  · show disablesIn (SG3525AdjustFreq _).Log = _
    rw [hd]
    simp [disablesIn, withTarget, PWMPotSetWiper, emit, withFreq, MCP4161SetWiper,
      List.count_append, List.count_cons]


/-- The 22 calibrator calls from the one that finds the measurement inside the band
to the one that runs `END_CAL`, seen from the state `w` in which the session waits in
`WAIT_28K`: the state after `i ≤ 20` further calls, and the state after the last. -/
theorem settled_run (w : State) (mk last : Nat) (alt : List Nat) (i : Nat)
    (hon : w.IsOn = true) (hstep : w.CalStep = SG3525_CAL_STEP.WAIT_28K)
    (hlo : 27990 ≤ mk) (hhi : mk ≤ 28010) (halt : alt.length = 20) (hi : i ≤ 20) :
    ((CalRun w (mk :: alt.take i)).IsOn = true ∧
        (CalRun w (mk :: alt.take i)).CalStep
          = (if i % 2 = 0 then SG3525_CAL_STEP.LOWER_FREQ else SG3525_CAL_STEP.UPPER_FREQ) ∧
        (CalRun w (mk :: alt.take i)).CalCount = 10 - (i + 1) / 2 ∧
        reportsIn (CalRun w (mk :: alt.take i)).Log = reportsIn w.Log + (i + 1) / 2 ∧
        writesTo Pot.FreqCPot (CalRun w (mk :: alt.take i)).Log
          = writesTo Pot.FreqCPot w.Log + (i + 1) ∧
        (CalRun w (mk :: alt.take i)).Log.count Event.ShowMAScreen
          = w.Log.count Event.ShowMAScreen ∧
        disablesIn (CalRun w (mk :: alt.take i)).Log = disablesIn w.Log) ∧
      ((CalRun w (mk :: alt ++ [last])).IsOn = false ∧
        (CalRun w (mk :: alt ++ [last])).CalStep = SG3525_CAL_STEP.WAIT_START ∧
        (CalRun w (mk :: alt ++ [last])).SG3525Set.PwrMode
          = SG3525_PWR_MODE.PWR_CONST_FREQ ∧
        (CalRun w (mk :: alt ++ [last])).SG3525Curr.RunTimer = 0 ∧
        reportsIn (CalRun w (mk :: alt ++ [last])).Log = reportsIn w.Log + 11 ∧
        writesTo Pot.FreqCPot (CalRun w (mk :: alt ++ [last])).Log
          = writesTo Pot.FreqCPot w.Log + 22 ∧
        (CalRun w (mk :: alt ++ [last])).Log.count Event.ShowMAScreen
          = w.Log.count Event.ShowMAScreen + 1 ∧
        disablesIn (CalRun w (mk :: alt ++ [last])).Log = disablesIn w.Log + 1) := by
  obtain ⟨k1, k2, k3, k4, k5, k6, k7, k8, k9⟩ := settle_step w mk hon hstep hlo hhi
  have kcalls : callsToEndCal (SG3525Cal (withFreq mk w)) = 21 := by
    simp [callsToEndCal, k2, k3]
  constructor
  · have hlen : (alt.take i).length = i := by rw [List.length_take]; omega
    obtain ⟨a1, a2, a3, a4, a5, a6, a7, a8, _⟩ :=
      alternation_run (alt.take i) (SG3525Cal (withFreq mk w)) k1 (Or.inl k2)
        (by rw [kcalls, hlen]; omega) (by rw [k3]; decide)
    rw [CalRun_cons]
    rw [hlen, kcalls] at a3
    rw [hlen] at a6
    rw [k3, k5] at a5
    unfold callsToEndCal at a3
    rcases a2 with hl | hu
    · rw [if_pos hl] at a3
      have hpar : i % 2 = 0 := by omega
      refine ⟨a1, by rw [if_pos hpar]; exact hl, by omega, by omega, by omega, by omega,
        by omega⟩
    · rw [if_neg (by rw [hu]; decide)] at a3
      have hpar : ¬ i % 2 = 0 := by omega
      refine ⟨a1, by rw [if_neg hpar]; exact hu, by omega, by omega, by omega, by omega,
        by omega⟩
  · obtain ⟨a1, a2, a3, a4, a5, a6, a7, a8, _⟩ :=
      alternation_run alt (SG3525Cal (withFreq mk w)) k1 (Or.inl k2)
        (by rw [kcalls, halt]; omega) (by rw [k3]; decide)
    rw [halt, kcalls] at a3
    rw [halt] at a6
    rw [k3, k5] at a5
    have hL : (CalRun (SG3525Cal (withFreq mk w)) alt).CalStep = SG3525_CAL_STEP.LOWER_FREQ ∧
        (CalRun (SG3525Cal (withFreq mk w)) alt).CalCount = 0 := by
      unfold callsToEndCal at a3
      rcases a2 with hl | hu
      · rw [if_pos hl] at a3
        exact ⟨hl, by omega⟩
      · rw [if_neg (by rw [hu]; decide)] at a3
        omega
    obtain ⟨e1, e2, e3, e4, e5, e6, e7, e8⟩ :=
      final_step (CalRun (SG3525Cal (withFreq mk w)) alt) last a1 hL.1 hL.2
    have hrun : CalRun w (mk :: alt ++ [last])
        = SG3525Cal (withFreq last (CalRun (SG3525Cal (withFreq mk w)) alt)) := by
      rw [List.cons_append, CalRun_cons, CalRun_append]
      rfl
    rw [hrun]
    exact ⟨e1, e2, e3, e4, by omega, by omega, by omega, by omega⟩


/-- The state in which the session waits for the band, after the start call and any
calls made with the measurement outside the band. -/
theorem waiting_state (s : State) (m0 : Nat) (pre : List Nat) (hon : s.IsOn = true)
    (hstart : s.CalStep = SG3525_CAL_STEP.WAIT_START)
    (hout : ∀ m ∈ pre, m < 27990 ∨ 28010 < m) :
    (CalRun s (m0 :: pre)).IsOn = true ∧
      (CalRun s (m0 :: pre)).CalStep = SG3525_CAL_STEP.WAIT_28K ∧
      reportsIn (CalRun s (m0 :: pre)).Log = reportsIn s.Log ∧
      (CalRun s (m0 :: pre)).Log.count Event.ShowMAScreen = s.Log.count Event.ShowMAScreen ∧
      disablesIn (CalRun s (m0 :: pre)).Log = disablesIn s.Log := by
  obtain ⟨s1, s2, s3, s4, s5⟩ := start_step s m0 hon hstart
  obtain ⟨w1, w2, w3, w4⟩ := waiting_run pre (SG3525Cal (withFreq m0 s)) s1 s2 hout
  simp only [sessionView, Prod.mk.injEq] at w3
  obtain ⟨_, _, _, _, _, w6, w7⟩ := w3
  rw [CalRun_cons]
  exact ⟨w1, w2, w7.trans s3, w6.trans s4, w4.trans s5⟩

/-! ## Calibration session : claims -/

/-- C14: starting from `WAIT_START` with the output enabled and kept enabled, for every
frequency trace that is outside [27990, 28010] at every `WAIT_28K` call before tick `k`
and inside it at tick `k`: before tick `k` the session stays in `WAIT_28K` and nothing
is reported; the `UPPER_FREQ` step first executes at tick `k` (upper sample = the
measurement of that tick, counter 10); from then on the `UPPER_FREQ` and `LOWER_FREQ`
steps alternate, one per call (after `i ≤ 20` further calls the next step is
`LOWER_FREQ` for even `i` and `UPPER_FREQ` for odd `i`, with `(i+1)/2` reports made and
`i+1` coarse transfers); and the 22nd call counted from tick `k` runs `END_CAL`, with 11
reports (`LOWER_FREQ` steps) and 22 - 11 = 11 `UPPER_FREQ` steps made in all. -/
theorem C14_calibration_sequence (s : State) (m0 mk last : Nat) (pre alt : List Nat)
    (p i : Nat) (hon : s.IsOn = true) (hstart : s.CalStep = SG3525_CAL_STEP.WAIT_START)
    (hout : ∀ m ∈ pre, m < 27990 ∨ 28010 < m) (hlo : 27990 ≤ mk) (hhi : mk ≤ 28010)
    (halt : alt.length = 20) (hi : i ≤ 20) :
    ((CalRun s (m0 :: pre.take p)).CalStep = SG3525_CAL_STEP.WAIT_28K ∧
        reportsIn (CalRun s (m0 :: pre.take p)).Log = reportsIn s.Log) ∧
      ((CalRun s ((m0 :: pre) ++ [mk])).CalStep = SG3525_CAL_STEP.LOWER_FREQ ∧
        (CalRun s ((m0 :: pre) ++ [mk])).UpperFreq = mk ∧
        (CalRun s ((m0 :: pre) ++ [mk])).CalCount = 10 ∧
        writesTo Pot.FreqCPot (CalRun s ((m0 :: pre) ++ [mk])).Log
          = writesTo Pot.FreqCPot (CalRun s (m0 :: pre)).Log + 1) ∧
      ((CalRun s ((m0 :: pre) ++ mk :: alt.take i)).IsOn = true ∧
        (CalRun s ((m0 :: pre) ++ mk :: alt.take i)).CalStep
          = (if i % 2 = 0 then SG3525_CAL_STEP.LOWER_FREQ else SG3525_CAL_STEP.UPPER_FREQ) ∧
        (CalRun s ((m0 :: pre) ++ mk :: alt.take i)).CalCount = 10 - (i + 1) / 2 ∧
        reportsIn (CalRun s ((m0 :: pre) ++ mk :: alt.take i)).Log
          = reportsIn s.Log + (i + 1) / 2 ∧
        writesTo Pot.FreqCPot (CalRun s ((m0 :: pre) ++ mk :: alt.take i)).Log
          = writesTo Pot.FreqCPot (CalRun s (m0 :: pre)).Log + (i + 1) ∧
        (CalRun s ((m0 :: pre) ++ mk :: alt.take i)).Log.count Event.ShowMAScreen
          = s.Log.count Event.ShowMAScreen) ∧
      ((CalRun s ((m0 :: pre) ++ (mk :: alt ++ [last]))).CalStep
          = SG3525_CAL_STEP.WAIT_START ∧
        (CalRun s ((m0 :: pre) ++ (mk :: alt ++ [last]))).IsOn = false ∧
        reportsIn (CalRun s ((m0 :: pre) ++ (mk :: alt ++ [last]))).Log
          = reportsIn s.Log + 11 ∧
        writesTo Pot.FreqCPot (CalRun s ((m0 :: pre) ++ (mk :: alt ++ [last]))).Log
          = writesTo Pot.FreqCPot (CalRun s (m0 :: pre)).Log + 22 ∧
        (CalRun s ((m0 :: pre) ++ (mk :: alt ++ [last]))).Log.count Event.ShowMAScreen
          = s.Log.count Event.ShowMAScreen + 1) := by
  obtain ⟨q1, q2, q3, _, _⟩ := waiting_state s m0 (pre.take p) hon hstart
    (fun m hm => hout m (List.mem_of_mem_take hm))
  obtain ⟨w1, w2, w3, w4, w5⟩ := waiting_state s m0 pre hon hstart hout
  obtain ⟨k1, k2, k3, k4, _, k6, _, _, _⟩ := settle_step (CalRun s (m0 :: pre)) mk w1 w2 hlo hhi
  obtain ⟨⟨a1, a2, a3, a4, a5, a6, _⟩, ⟨e1, e2, _, _, e5, e6, e7, _⟩⟩ :=
    settled_run (CalRun s (m0 :: pre)) mk last alt i w1 w2 hlo hhi halt hi
  have htick : CalRun s ((m0 :: pre) ++ [mk])
      = SG3525Cal (withFreq mk (CalRun s (m0 :: pre))) := by
    rw [CalRun_append]; rfl
  refine ⟨⟨q2, q3⟩, ?_, ?_, ?_⟩
  · rw [htick]
    exact ⟨k2, k4, k3, k6⟩
  · rw [CalRun_append]
    exact ⟨a1, a2, a3, by rw [a4, w3], a5, by rw [a6, w4]⟩
  · rw [CalRun_append]
    exact ⟨e2, e1, by rw [e5, w3], e6, by rw [e7, w4]⟩

theorem C14_calibration_sequence_witness :
    ((CalRun sampleStart (27000 :: [27500, 28500].take 1)).CalStep = SG3525_CAL_STEP.WAIT_28K ∧
        reportsIn (CalRun sampleStart (27000 :: [27500, 28500].take 1)).Log = reportsIn sampleStart.Log) ∧
      ((CalRun sampleStart ((27000 :: [27500, 28500]) ++ [27995])).CalStep = SG3525_CAL_STEP.LOWER_FREQ ∧
        (CalRun sampleStart ((27000 :: [27500, 28500]) ++ [27995])).UpperFreq = 27995 ∧
        (CalRun sampleStart ((27000 :: [27500, 28500]) ++ [27995])).CalCount = 10 ∧
        writesTo Pot.FreqCPot (CalRun sampleStart ((27000 :: [27500, 28500]) ++ [27995])).Log
          = writesTo Pot.FreqCPot (CalRun sampleStart (27000 :: [27500, 28500])).Log + 1) ∧
      ((CalRun sampleStart ((27000 :: [27500, 28500]) ++ 27995 :: (List.replicate 20 28000).take 3)).IsOn = true ∧
        (CalRun sampleStart ((27000 :: [27500, 28500]) ++ 27995 :: (List.replicate 20 28000).take 3)).CalStep
          = (if 3 % 2 = 0 then SG3525_CAL_STEP.LOWER_FREQ else SG3525_CAL_STEP.UPPER_FREQ) ∧
        (CalRun sampleStart ((27000 :: [27500, 28500]) ++ 27995 :: (List.replicate 20 28000).take 3)).CalCount = 10 - (3 + 1) / 2 ∧
        reportsIn (CalRun sampleStart ((27000 :: [27500, 28500]) ++ 27995 :: (List.replicate 20 28000).take 3)).Log
          = reportsIn sampleStart.Log + (3 + 1) / 2 ∧
        writesTo Pot.FreqCPot (CalRun sampleStart ((27000 :: [27500, 28500]) ++ 27995 :: (List.replicate 20 28000).take 3)).Log
          = writesTo Pot.FreqCPot (CalRun sampleStart (27000 :: [27500, 28500])).Log + (3 + 1) ∧
        (CalRun sampleStart ((27000 :: [27500, 28500]) ++ 27995 :: (List.replicate 20 28000).take 3)).Log.count Event.ShowMAScreen
          = sampleStart.Log.count Event.ShowMAScreen) ∧
      ((CalRun sampleStart ((27000 :: [27500, 28500]) ++ (27995 :: (List.replicate 20 28000) ++ [27000]))).CalStep
          = SG3525_CAL_STEP.WAIT_START ∧
        (CalRun sampleStart ((27000 :: [27500, 28500]) ++ (27995 :: (List.replicate 20 28000) ++ [27000]))).IsOn = false ∧
        reportsIn (CalRun sampleStart ((27000 :: [27500, 28500]) ++ (27995 :: (List.replicate 20 28000) ++ [27000]))).Log
          = reportsIn sampleStart.Log + 11 ∧
        writesTo Pot.FreqCPot (CalRun sampleStart ((27000 :: [27500, 28500]) ++ (27995 :: (List.replicate 20 28000) ++ [27000]))).Log
          = writesTo Pot.FreqCPot (CalRun sampleStart (27000 :: [27500, 28500])).Log + 22 ∧
        (CalRun sampleStart ((27000 :: [27500, 28500]) ++ (27995 :: (List.replicate 20 28000) ++ [27000]))).Log.count Event.ShowMAScreen
          = sampleStart.Log.count Event.ShowMAScreen + 1) :=
  C14_calibration_sequence sampleStart 27000 27995 27000 [27500, 28500] (List.replicate 20 28000) 1 3
    rfl rfl (by decide) (by decide) (by decide) (by decide) (by decide)

/-- In const-frequency mode no sequence of ticks touches the calibration session: the
power mode, the calibration state, the counter and both samples stay as they are, and
neither a report nor a redraw is made. -/
theorem UpdateRun_session (ticks : List Tick) : ∀ v : State,
    v.SG3525Set.PwrMode = SG3525_PWR_MODE.PWR_CONST_FREQ →
    sessionView (UpdateRun v ticks) = sessionView v := by
  induction ticks with
  | nil => intro v _; rfl
  | cons t ticks ih =>
    intro v hmode
    have hstep : sessionView (SG3525Update t v) = sessionView v := by
      rw [SG3525Update_eq, if_pos hmode, SG3525AdjustFreq_session]
      exact (control_fields _ _ (UpdatePrepare_control t v)).2.2.2.2.2
    have hmode' : (SG3525Update t v).SG3525Set.PwrMode = SG3525_PWR_MODE.PWR_CONST_FREQ := by
      have := congrArg (fun x => x.1) hstep
      simp only [sessionView] at this
      rw [this]; exact hmode
    rw [UpdateRun_cons, ih _ hmode', hstep]

/-- C15: effects of `END_CAL`.  From any state `u`, `END_CAL` writes the output line to
its disabled level once (`SG3525Run(false)`: output off, countdown 0), sets the
calibration state to `WAIT_START` and the power mode to const-frequency, and calls
`ShowMAScreen` once, after 20 line feeds.  Over a complete session (start call, calls
outside the band, the call inside it and the 21 that follow, output kept on) no redraw
and no disable happens before the last call, and exactly one of each has happened
after it.  From then on every `SG3525Update` tick is a tuner call and the calibration
session is untouched, whatever the ticks bring. -/
theorem C15_EndCal_effects (s u : State) (m0 mk last : Nat) (pre alt : List Nat)
    (ticks : List Tick) (t : Tick)
    (hon : s.IsOn = true) (hstart : s.CalStep = SG3525_CAL_STEP.WAIT_START)
    (hout : ∀ m ∈ pre, m < 27990 ∨ 28010 < m) (hlo : 27990 ≤ mk) (hhi : mk ≤ 28010)
    (halt : alt.length = 20) :
    CalEndCal u =
        { u with
          IsOn := false
          CalStep := SG3525_CAL_STEP.WAIT_START
          SG3525Set := { u.SG3525Set with PwrMode := SG3525_PWR_MODE.PWR_CONST_FREQ }
          SG3525Curr := { u.SG3525Curr with RunTimer := 0 }
          Log := u.Log ++ [Event.Output false] ++ List.replicate 20 Event.PrintCRLF
            ++ [Event.ShowMAScreen] } ∧
      ((CalRun s ((m0 :: pre) ++ mk :: alt)).IsOn = true ∧
        (CalRun s ((m0 :: pre) ++ mk :: alt)).Log.count Event.ShowMAScreen
          = s.Log.count Event.ShowMAScreen ∧
        disablesIn (CalRun s ((m0 :: pre) ++ mk :: alt)).Log = disablesIn s.Log) ∧
      ((CalRun s ((m0 :: pre) ++ (mk :: alt ++ [last]))).IsOn = false ∧
        (CalRun s ((m0 :: pre) ++ (mk :: alt ++ [last]))).SG3525Curr.RunTimer = 0 ∧
        (CalRun s ((m0 :: pre) ++ (mk :: alt ++ [last]))).CalStep
          = SG3525_CAL_STEP.WAIT_START ∧
        (CalRun s ((m0 :: pre) ++ (mk :: alt ++ [last]))).SG3525Set.PwrMode
          = SG3525_PWR_MODE.PWR_CONST_FREQ ∧
        (CalRun s ((m0 :: pre) ++ (mk :: alt ++ [last]))).Log.count Event.ShowMAScreen
          = s.Log.count Event.ShowMAScreen + 1 ∧
        disablesIn (CalRun s ((m0 :: pre) ++ (mk :: alt ++ [last]))).Log
          = disablesIn s.Log + 1) ∧
      (sessionView (UpdateRun (CalRun s ((m0 :: pre) ++ (mk :: alt ++ [last]))) ticks)
          = sessionView (CalRun s ((m0 :: pre) ++ (mk :: alt ++ [last]))) ∧
        SG3525Update t (UpdateRun (CalRun s ((m0 :: pre) ++ (mk :: alt ++ [last]))) ticks)
          = SG3525AdjustFreq (UpdatePrepare t
              (UpdateRun (CalRun s ((m0 :: pre) ++ (mk :: alt ++ [last]))) ticks))) := by
  obtain ⟨w1, w2, _, w4, w5⟩ := waiting_state s m0 pre hon hstart hout
  obtain ⟨⟨a1, _, _, _, _, a6, a7⟩, ⟨e1, e2, e3, e4, _, _, e7, e8⟩⟩ :=
    settled_run (CalRun s (m0 :: pre)) mk last alt 20 w1 w2 hlo hhi halt (Nat.le_refl _)
  have htake : alt.take 20 = alt := by rw [← halt, List.take_length]
  rw [htake] at a1 a6 a7
  have hsess := UpdateRun_session ticks (CalRun s ((m0 :: pre) ++ (mk :: alt ++ [last])))
    (by rw [CalRun_append]; exact e3)
  refine ⟨CalEndCal_eq u, ?_, ?_, hsess, ?_⟩
  · rw [CalRun_append]
    exact ⟨a1, by rw [a6, w4], by rw [a7, w5]⟩
  · rw [CalRun_append]
    exact ⟨e1, e4, e2, e3, by rw [e7, w4], by rw [e8, w5]⟩
  · have hmode : (UpdateRun (CalRun s ((m0 :: pre) ++ (mk :: alt ++ [last]))) ticks).SG3525Set.PwrMode
        = SG3525_PWR_MODE.PWR_CONST_FREQ := by
      have := congrArg (fun x => x.1) hsess
      simp only [sessionView] at this
      rw [this, CalRun_append]; exact e3
    rw [SG3525Update_eq, if_pos hmode]

theorem C15_EndCal_effects_witness :
    CalEndCal sampleLower =
        { sampleLower with
          IsOn := false
          CalStep := SG3525_CAL_STEP.WAIT_START
          SG3525Set := { sampleLower.SG3525Set with PwrMode := SG3525_PWR_MODE.PWR_CONST_FREQ }
          SG3525Curr := { sampleLower.SG3525Curr with RunTimer := 0 }
          Log := sampleLower.Log ++ [Event.Output false] ++ List.replicate 20 Event.PrintCRLF
            ++ [Event.ShowMAScreen] } ∧
      ((CalRun sampleStart ((27000 :: [27500, 28500]) ++ 27995 :: (List.replicate 20 28000))).IsOn = true ∧
        (CalRun sampleStart ((27000 :: [27500, 28500]) ++ 27995 :: (List.replicate 20 28000))).Log.count Event.ShowMAScreen
          = sampleStart.Log.count Event.ShowMAScreen ∧
        disablesIn (CalRun sampleStart ((27000 :: [27500, 28500]) ++ 27995 :: (List.replicate 20 28000))).Log = disablesIn sampleStart.Log) ∧
      ((CalRun sampleStart ((27000 :: [27500, 28500]) ++ (27995 :: (List.replicate 20 28000) ++ [27000]))).IsOn = false ∧
        (CalRun sampleStart ((27000 :: [27500, 28500]) ++ (27995 :: (List.replicate 20 28000) ++ [27000]))).SG3525Curr.RunTimer = 0 ∧
        (CalRun sampleStart ((27000 :: [27500, 28500]) ++ (27995 :: (List.replicate 20 28000) ++ [27000]))).CalStep
          = SG3525_CAL_STEP.WAIT_START ∧
        (CalRun sampleStart ((27000 :: [27500, 28500]) ++ (27995 :: (List.replicate 20 28000) ++ [27000]))).SG3525Set.PwrMode
          = SG3525_PWR_MODE.PWR_CONST_FREQ ∧
        (CalRun sampleStart ((27000 :: [27500, 28500]) ++ (27995 :: (List.replicate 20 28000) ++ [27000]))).Log.count Event.ShowMAScreen
          = sampleStart.Log.count Event.ShowMAScreen + 1 ∧
        disablesIn (CalRun sampleStart ((27000 :: [27500, 28500]) ++ (27995 :: (List.replicate 20 28000) ++ [27000]))).Log
          = disablesIn sampleStart.Log + 1) ∧
      (sessionView (UpdateRun (CalRun sampleStart ((27000 :: [27500, 28500]) ++ (27995 :: (List.replicate 20 28000) ++ [27000]))) [sampleTick, sampleTick])
          = sessionView (CalRun sampleStart ((27000 :: [27500, 28500]) ++ (27995 :: (List.replicate 20 28000) ++ [27000]))) ∧
        SG3525Update sampleTick (UpdateRun (CalRun sampleStart ((27000 :: [27500, 28500]) ++ (27995 :: (List.replicate 20 28000) ++ [27000]))) [sampleTick, sampleTick])
          = SG3525AdjustFreq (UpdatePrepare sampleTick
              (UpdateRun (CalRun sampleStart ((27000 :: [27500, 28500]) ++ (27995 :: (List.replicate 20 28000) ++ [27000]))) [sampleTick, sampleTick]))) :=
  C15_EndCal_effects sampleStart sampleLower 27000 27995 27000 [27500, 28500] (List.replicate 20 28000)
    [sampleTick, sampleTick] sampleTick rfl rfl (by decide) (by decide) (by decide) (by decide)

/-! ## Timer snapshot under a running counter : claims -/

/-- The reading taken while the counter runs.  When pass `j` is the first whose two
reads of `TCNTx` agree, `CurrTimer` is the extension byte of the moment `DISABLE_INT`
executed, combined with the low byte of the count at the accepted read.  That is the
edge count at the accepted read when the low byte has not overflowed since
`DISABLE_INT`, and 256 short of it (modulo 2^16) when it has overflowed once. -/
theorem CurrTimer_counting (c0 : Nat) (edges : Nat → Nat) (s : FreqData) (fuel j : Nat)
    (hj : j < fuel)
    (hretry : ∀ i, i < j →
      countingTCNT c0 edges (2 * i) ≠ countingTCNT c0 edges (2 * i + 1))
    (hstable : countingTCNT c0 edges (2 * j) = countingTCNT c0 edges (2 * j + 1)) :
    CurrTimer fuel (countingTCNT c0 edges) (inSync c0 s)
        = some ((c0 / 256 % 256) * 256 + (c0 + edges (2 * j)) % 256) ∧
      (c0 % 256 + edges (2 * j) < 256 →
        (c0 / 256 % 256) * 256 + (c0 + edges (2 * j)) % 256 = trueCount c0 edges (2 * j)) ∧
      (256 ≤ c0 % 256 + edges (2 * j) → c0 % 256 + edges (2 * j) < 512 →
        ((c0 / 256 % 256) * 256 + (c0 + edges (2 * j)) % 256 + 256) % 65536
          = trueCount c0 edges (2 * j)) := by
  have hread : ReadTimer (countingTCNT c0 edges) (c0 / 256 % 256) fuel 0
      = some ((c0 + edges (2 * j)) % 256, c0 / 256 % 256) := by
    rw [ReadTimer_iff]
    refine ⟨j, hj, ?_, ?_, ?_, rfl⟩
    · intro i hi
      simpa using hretry i hi
    · simp [countingTCNT]
    · rw [Nat.zero_add, ← hstable]
      simp [countingTCNT]
  refine ⟨?_, ?_, ?_⟩
  · unfold CurrTimer FreqUpdate inSync
    simp only [hread, Option.map_some', FreqStore, Nat.shiftLeft_eq]
    congr 1
    omega
  · intro h
    unfold trueCount
    omega
  · intro h1 h2
    unfold trueCount
    omega

/-- One run of the snapshot loop with an overflow inside: count 255 and extension byte 0
at `DISABLE_INT`, reads 255, 0, 0, 0.  One pass gives nothing, the second accepts
`(0, 0)` and `CurrTimer` is 0, while the edge count is 255, 256, 256, 256 at the four
reads.  The same read with the count starting at 254 returns 255, the count at the
accepted read. -/
theorem masked_overflow_run :
    (List.range 4).map (countingTCNT 255 (oneChange 0 1)) = [255, 0, 0, 0] ∧
      (inSync 255 (FreqInit 4)).TimerExt = 0 ∧
      ReadTimer (countingTCNT 255 (oneChange 0 1)) (inSync 255 (FreqInit 4)).TimerExt 1 0
        = none ∧
      ReadTimer (countingTCNT 255 (oneChange 0 1)) (inSync 255 (FreqInit 4)).TimerExt 2 0
        = some (0, 0) ∧
      CurrTimer 2 (countingTCNT 255 (oneChange 0 1)) (inSync 255 (FreqInit 4)) = some 0 ∧
      (List.range 4).map (trueCount 255 (oneChange 0 1)) = [255, 256, 256, 256] ∧
      0 ∉ (List.range 4).map (trueCount 255 (oneChange 0 1)) ∧
      CurrTimer 2 (countingTCNT 254 (oneChange 0 1)) (inSync 254 (FreqInit 4)) = some 255 ∧
      trueCount 254 (oneChange 0 1) 2 = 255 := by
  decide

/-- C21 is what the comment of `FreqUpdate` announces (watch out for the timer
overflowing in between getting the two values), and the code misses it.  Take any read
in which pass `j` is the first whose two reads of `TCNTx` agree, fewer than 256 edges
arrive during the read, and the low byte overflows between `DISABLE_INT` and the
accepted read.  The overflow handler is masked until `ENABLE_INT`, so `CurrTimer`
combines the new low byte with the extension byte from before the overflow: it is 256
short of the edge count at the accepted read, and it differs from the edge count at
every instant of the read, from `DISABLE_INT` (count `c0`) to the last read of
`TCNTx` (count `c0 + edges (2 * j + 1)`). -/
theorem C21_masked_overflow_torn (c0 : Nat) (edges : Nat → Nat) (s : FreqData)
    (fuel j : Nat) (hj : j < fuel)
    (hretry : ∀ i, i < j →
      countingTCNT c0 edges (2 * i) ≠ countingTCNT c0 edges (2 * i + 1))
    (hstable : countingTCNT c0 edges (2 * j) = countingTCNT c0 edges (2 * j + 1))
    (hmono : edges (2 * j) ≤ edges (2 * j + 1))
    (hfew : edges (2 * j + 1) < 256)
    (hover : 256 ≤ c0 % 256 + edges (2 * j)) :
    CurrTimer fuel (countingTCNT c0 edges) (inSync c0 s)
        = some ((c0 / 256 % 256) * 256 + (c0 + edges (2 * j)) % 256) ∧
      (c0 / 256 % 256) * 256 + (c0 + edges (2 * j)) % 256
        ∉ (List.range (edges (2 * j + 1) + 1)).map (fun d => (c0 + d) % 65536) ∧
      ((c0 / 256 % 256) * 256 + (c0 + edges (2 * j)) % 256 + 256) % 65536
        = trueCount c0 edges (2 * j) := by
  have h := CurrTimer_counting c0 edges s fuel j hj hretry hstable
  refine ⟨h.1, ?_, h.2.2 hover (by omega)⟩
  simp only [List.mem_map, List.mem_range, not_exists, not_and]
  intro d hd
  omega

theorem C21_masked_overflow_torn_witness :
    CurrTimer 2 (countingTCNT 255 (oneChange 0 1)) (inSync 255 (FreqInit 4)) = some 0 ∧
      0 ∉ (List.range 2).map (fun d => (255 + d) % 65536) ∧
      (0 + 256) % 65536 = trueCount 255 (oneChange 0 1) 2 :=
  C21_masked_overflow_torn 255 (oneChange 0 1) (FreqInit 4) 2 1 (by decide) (by decide)
    (by decide) (by decide) (by decide) (by decide)

/-! ## AD8400.h : lemmas and claims -/

/-- The fine potentiometer's resistance-to-wiper conversion on `[0, 1000]`. -/
theorem FreqFPotR2W_eq (R : Nat) (h : R ≤ 1000) :
    FreqFPotR2W R = (R * 256 + 500) / 1000 ∧ FreqFPotR2W R ≤ 256 := by
  simp only [FreqFPotR2W, AD8400_R2W, SCALE_RATIO, AD8400_STEPS, FreqFPot_MAXR]
  have h1 : R % 4294967296 = R := Nat.mod_eq_of_lt (by omega)
  rw [h1]
  have h2 : (R * 256 + 1000 / 2) / 1000 ≤ 256 := by omega
  have h3 : (R * 256 + 1000 / 2) / 1000 % 65536 = (R * 256 + 1000 / 2) / 1000 :=
    Nat.mod_eq_of_lt (by omega)
  rw [h3]
  omega

/-- The fine potentiometer's wiper-to-resistance conversion on `[0, 256]`. -/
theorem FreqFPotW2R_eq (W : Nat) (h : W ≤ 256) :
    FreqFPotW2R W = (W * 1000 + 128) / 256 := by
  simp only [FreqFPotW2R, AD8400_W2R, SCALE_RATIO, AD8400_STEPS, FreqFPot_MAXR]
  have h1 : W % 4294967296 = W := Nat.mod_eq_of_lt (by omega)
  rw [h1]
  have h2 : (W * 1000 + 256 / 2) / 256 ≤ 1000 := by omega
  exact Nat.mod_eq_of_lt (by omega)

/-- In the other direction the round trip is exact: every wiper position is recovered
from its resistance. -/
theorem FreqFPot_wiper_round_trip (W : Nat) (h : W ≤ 256) :
    FreqFPotR2W (FreqFPotW2R W) = W := by
  rw [FreqFPotW2R_eq W h]
  have : (W * 1000 + 128) / 256 ≤ 1000 := by omega
  rw [(FreqFPotR2W_eq _ this).1]
  omega

/-- On `[0, 1000]` the converted wiper is a valid position exactly up to 998 ohms. -/
theorem FreqFPotR2W_valid_iff (R : Nat) (h : R ≤ 1000) :
    FreqFPotR2W R ≤ 255 ↔ R ≤ 998 := by
  rw [(FreqFPotR2W_eq R h).1]
  omega

/-- C22: potentiometer wire protocol.  For every wiper value `W` in [0, 255],
`AD8400SetWiper` is exactly the four bus events chip-select low, byte 0, byte `W`,
chip-select high, and the macro instantiated for the fine potentiometer appends exactly
these to the log and changes nothing else.  `AD8400SetResist` is `AD8400SetWiper`
applied to `AD8400_R2W(MAXR, R)`: the same four events with that wiper value as the
second byte whenever the value fits a byte. -/
theorem C22_wire_protocol (p : Pot) (W MAXR R : Nat) (s : State)
    (hW : W ≤ 255) (hR : AD8400_R2W MAXR R ≤ 255) :
    AD8400SetWiper p W
        = [Event.Select p, Event.SPIByte 0, Event.SPIByte W, Event.Deselect p] ∧
      FreqFPotSetWiper W s
        = { s with Log := s.Log ++ [Event.Select Pot.FreqFPot, Event.SPIByte 0,
              Event.SPIByte W, Event.Deselect Pot.FreqFPot] } ∧
      AD8400SetResist p MAXR R = AD8400SetWiper p (AD8400_R2W MAXR R) ∧
      AD8400SetResist p MAXR R
        = [Event.Select p, Event.SPIByte 0, Event.SPIByte (AD8400_R2W MAXR R),
            Event.Deselect p] ∧
      emit (AD8400SetResist p MAXR R) s
        = { s with Log := s.Log ++ [Event.Select p, Event.SPIByte 0,
              Event.SPIByte (AD8400_R2W MAXR R), Event.Deselect p] } := by
  have e1 : W % 256 = W := Nat.mod_eq_of_lt (by omega)
  have e2 : AD8400_R2W MAXR R % 256 = AD8400_R2W MAXR R := Nat.mod_eq_of_lt (by omega)
  refine ⟨?_, ?_, rfl, ?_, ?_⟩
  · unfold AD8400SetWiper
    rw [e1]
  · unfold FreqFPotSetWiper AD8400SetWiper emit
    rw [e1]
  · unfold AD8400SetResist AD8400SetWiper
    rw [e2]
  · unfold AD8400SetResist AD8400SetWiper emit
    rw [e2]

theorem C22_wire_protocol_witness :
    AD8400SetWiper Pot.FreqFPot 127
        = [Event.Select Pot.FreqFPot, Event.SPIByte 0, Event.SPIByte 127,
            Event.Deselect Pot.FreqFPot] ∧
      FreqFPotSetWiper 127 bootState
        = { bootState with Log := bootState.Log ++ [Event.Select Pot.FreqFPot, Event.SPIByte 0,
              Event.SPIByte 127, Event.Deselect Pot.FreqFPot] } ∧
      AD8400SetResist Pot.FreqFPot 1000 500
        = AD8400SetWiper Pot.FreqFPot (AD8400_R2W 1000 500) ∧
      AD8400SetResist Pot.FreqFPot 1000 500
        = [Event.Select Pot.FreqFPot, Event.SPIByte 0, Event.SPIByte (AD8400_R2W 1000 500),
            Event.Deselect Pot.FreqFPot] ∧
      emit (AD8400SetResist Pot.FreqFPot 1000 500) bootState
        = { bootState with Log := bootState.Log ++ [Event.Select Pot.FreqFPot, Event.SPIByte 0,
              Event.SPIByte (AD8400_R2W 1000 500), Event.Deselect Pot.FreqFPot] } :=
  C22_wire_protocol Pot.FreqFPot 127 1000 500 bootState (by decide) (by decide)

/-- C23 fails as stated: 2 ohms convert to wiper position 1, which converts back to
4 ohms, two away from 2. -/
theorem C23_counterexample :
    2 ≤ FreqFPot_MAXR ∧ FreqFPotR2W 2 = 1 ∧ FreqFPotW2R (FreqFPotR2W 2) = 4 ∧
      ¬ (FreqFPotW2R (FreqFPotR2W 2) ≤ 2 + 1 ∧ 2 ≤ FreqFPotW2R (FreqFPotR2W 2) + 1) := by
  decide

/-- C23 (amended): with the conversions as instantiated for the fine potentiometer
(256 steps, 1000 ohms), for every integer resistance `R` in [0, 1000] the value
`W2R(R2W(R))` is within 2 of `R`. -/
theorem C23_resistance_round_trip (R : Nat) (h : R ≤ FreqFPot_MAXR) :
    FreqFPotW2R (FreqFPotR2W R) ≤ R + 2 ∧ R ≤ FreqFPotW2R (FreqFPotR2W R) + 2 := by
  have h' : R ≤ 1000 := h
  obtain ⟨e1, e2⟩ := FreqFPotR2W_eq R h'
  rw [FreqFPotW2R_eq _ e2, e1]
  omega

theorem C23_resistance_round_trip_witness :
    FreqFPotW2R (FreqFPotR2W 2) ≤ 2 + 2 ∧ 2 ≤ FreqFPotW2R (FreqFPotR2W 2) + 2 :=
  C23_resistance_round_trip 2 (by decide)

/-- The conversion at the top of the fine potentiometer's range: 1000 ohms give 256,
so `AD8400SetResist` sends the same four bytes as `AD8400SetWiper` for position 0;
999 ohms give 256 as well, 998 ohms give 255. -/
theorem FreqFPot_full_scale :
    FreqFPot_MAXR = 1000 ∧ FreqFPot_MAX_WIPER = 255 ∧
      AD8400_R2W FreqFPot_MAXR 1000 = 256 ∧
      ¬ AD8400_R2W FreqFPot_MAXR 1000 ≤ FreqFPot_MAX_WIPER ∧
      AD8400SetResist Pot.FreqFPot FreqFPot_MAXR 1000
        = [Event.Select Pot.FreqFPot, Event.SPIByte 0, Event.SPIByte 0,
            Event.Deselect Pot.FreqFPot] ∧
      FreqFPotSetResist 1000 bootState = FreqFPotSetWiper 0 bootState ∧
      AD8400_R2W FreqFPot_MAXR 999 = 256 ∧
      AD8400_R2W FreqFPot_MAXR 998 = 255 := by
  decide

/-- C24 is what the header documents (`AD8400SetWiper` takes a wiper value 0 .. 255,
`AD8400SetResist` a resistance 0 .. 1000, and the last valid position is
`FreqFPot_MAX_WIPER`), and the conversion misses it at the top of the range.  For a
resistance `R` in [0, 1000] the converted wiper is a valid position exactly when
`R ≤ 998`; for 999 and 1000 it is 256, one past the last position, and
`AD8400SetResist` then puts byte 0 on the bus, the transfer of wiper position 0. -/
theorem C24_R2W_past_last_wiper (R : Nat) (h : R ≤ FreqFPot_MAXR) :
    (AD8400_R2W FreqFPot_MAXR R ≤ FreqFPot_MAX_WIPER ↔ R ≤ 998) ∧
      AD8400_R2W FreqFPot_MAXR R = (if R ≤ 998 then (R * 256 + 500) / 1000 else 256) ∧
      AD8400SetResist Pot.FreqFPot FreqFPot_MAXR R
        = AD8400SetWiper Pot.FreqFPot (if R ≤ 998 then AD8400_R2W FreqFPot_MAXR R else 0) := by
  have h' : R ≤ 1000 := h
  have e := (FreqFPotR2W_eq R h').1
  have v := FreqFPotR2W_valid_iff R h'
  unfold FreqFPotR2W at e v
  have h255 : FreqFPot_MAX_WIPER = 255 := by decide
  rw [h255]
  refine ⟨v, ?_, ?_⟩
  · rw [e]
    split <;> omega
  · unfold AD8400SetResist AD8400SetWiper
    by_cases hr : R ≤ 998
    · rw [if_pos hr]
    · rw [if_neg hr]
      have : AD8400_R2W FreqFPot_MAXR R = 256 := by
        rw [e]
        omega
      rw [this]

theorem C24_R2W_past_last_wiper_witness :
    (AD8400_R2W FreqFPot_MAXR 1000 ≤ FreqFPot_MAX_WIPER ↔ 1000 ≤ 998) ∧
      AD8400_R2W FreqFPot_MAXR 1000 = (if 1000 ≤ 998 then (1000 * 256 + 500) / 1000 else 256) ∧
      AD8400SetResist Pot.FreqFPot FreqFPot_MAXR 1000
        = AD8400SetWiper Pot.FreqFPot (if 1000 ≤ 998 then AD8400_R2W FreqFPot_MAXR 1000 else 0) :=
  C24_R2W_past_last_wiper 1000 (by decide)

/-! ## Input handlers : lemmas and claims -/

theorem InputPrinted_fields (which : Text) (b : Bool) (s : State) :
    (InputPrinted which b s).SG3525Set = s.SG3525Set ∧
      (InputPrinted which b s).SG3525Curr = s.SG3525Curr ∧
      (InputPrinted which b s).IsOn = s.IsOn ∧
      { InputPrinted which b s with Log := s.Log } = s ∧
      (InputPrinted which b s).Log
        = s.Log ++ (if s.SG3525Set.Input1.Print then InputMsg which b else []) ∧
      enablesIn (InputPrinted which b s).Log = enablesIn s.Log := by
  unfold InputPrinted
  by_cases h : s.SG3525Set.Input1.Print = true
  · rw [if_pos h, if_pos h]
    refine ⟨rfl, rfl, rfl, rfl, rfl, ?_⟩
    cases b <;> simp [emit, enablesIn, InputMsg, List.count_append, List.count_cons]
  · rw [if_neg h, if_neg h]
    refine ⟨rfl, rfl, rfl, rfl, ?_, rfl⟩
    simp

/-- Function `ProcessInput1` by configured action. -/
theorem ProcessInput1_eq (b : Bool) (s : State) :
    ProcessInput1 b s =
      match s.SG3525Set.Input1.Action with
      | INPUT_ACTION.INPUT_UNUSED => InputPrinted Text.Input1 b s
      | INPUT_ACTION.INPUT_XCTRL => SG3525Run b (InputPrinted Text.Input1 b s)
      | INPUT_ACTION.INPUT_XPOPO =>
        if b then SG3525Run (!s.IsOn) (InputPrinted Text.Input1 b s)
        else InputPrinted Text.Input1 b s
      | INPUT_ACTION.INPUT_ESTOP =>
        if b then SG3525Run false (InputPrinted Text.Input1 b s)
        else InputPrinted Text.Input1 b s := by
  unfold ProcessInput1 InputPrinted InputMsg
  by_cases h : s.SG3525Set.Input1.Print = true
  · simp only [h, if_true, emit_Set, emit_IsOn]
  · simp only [h, if_false, Bool.false_eq_true]

/-- Function `ProcessInput2` by configured action. -/
theorem ProcessInput2_eq (b : Bool) (s : State) :
    ProcessInput2 b s =
      match s.SG3525Set.Input2.Action with
      | INPUT_ACTION.INPUT_UNUSED => InputPrinted Text.Input2 b s
      | INPUT_ACTION.INPUT_XCTRL => SG3525Run b (InputPrinted Text.Input2 b s)
      | INPUT_ACTION.INPUT_XPOPO =>
        if b then SG3525Run (!s.IsOn) (InputPrinted Text.Input2 b s)
        else InputPrinted Text.Input2 b s
      | INPUT_ACTION.INPUT_ESTOP =>
        if b then SG3525Run false (InputPrinted Text.Input2 b s)
        else InputPrinted Text.Input2 b s := by
  unfold ProcessInput2 InputPrinted InputMsg
  by_cases h : s.SG3525Set.Input1.Print = true
  · simp only [h, if_true, emit_Set, emit_IsOn]
  · simp only [h, if_false, Bool.false_eq_true]

theorem SG3525Run_fields (b : Bool) (s : State) :
    (SG3525Run b s).IsOn = b ∧ (SG3525Run b s).SG3525Set = s.SG3525Set ∧
      (SG3525Run b s).Log = s.Log ++ [Event.Output b] ∧
      (SG3525Run b s).SG3525Curr.RunTimer =
        (if b then
          (if s.SG3525Set.RunMode = SG3525_RUN_MODE.RUN_TIMED then s.SG3525Set.RunTimer
            else s.SG3525Curr.RunTimer)
          else 0) := by
  unfold SG3525Run
  cases b
  · exact ⟨rfl, rfl, rfl, rfl⟩
  · by_cases h : s.SG3525Set.RunMode = SG3525_RUN_MODE.RUN_TIMED
    · simp only [h, if_true]
      exact ⟨rfl, rfl, rfl, rfl⟩
    · simp only [h, if_false, if_true]
      exact ⟨rfl, rfl, rfl, rfl⟩

/-- C27: EmergencyStop only disables.  For every state `s` in which input 1 has action
`INPUT_ESTOP`, whatever the configuration of input 2, `ProcessInput1` is
`SG3525Run(false)` after the optional message when the input is pressed, and only the
optional message when it is not; and likewise `ProcessInput2` for every state `t` in
which input 2 has action `INPUT_ESTOP`, whatever the configuration of input 1.  So the
output is off after a press and as before without one; it is on afterwards only if it
was on before, and the output-enable line is never written to its enabled level. -/
theorem C27_ESTOP_only_disables (pressed : Bool) (s t : State)
    (h1 : s.SG3525Set.Input1.Action = INPUT_ACTION.INPUT_ESTOP)
    (h2 : t.SG3525Set.Input2.Action = INPUT_ACTION.INPUT_ESTOP) :
    (ProcessInput1 pressed s
          = (if pressed then SG3525Run false (InputPrinted Text.Input1 pressed s)
              else InputPrinted Text.Input1 pressed s) ∧
        (ProcessInput1 pressed s).IsOn = (if pressed then false else s.IsOn) ∧
        (ProcessInput1 pressed s).IsOn = (!pressed && s.IsOn) ∧
        enablesIn (ProcessInput1 pressed s).Log = enablesIn s.Log) ∧
      (ProcessInput2 pressed t
          = (if pressed then SG3525Run false (InputPrinted Text.Input2 pressed t)
              else InputPrinted Text.Input2 pressed t) ∧
        (ProcessInput2 pressed t).IsOn = (if pressed then false else t.IsOn) ∧
        (ProcessInput2 pressed t).IsOn = (!pressed && t.IsOn) ∧
        enablesIn (ProcessInput2 pressed t).Log = enablesIn t.Log) := by
  have p1 := InputPrinted_fields Text.Input1 pressed s
  have p2 := InputPrinted_fields Text.Input2 pressed t
  have r1 := SG3525Run_fields false (InputPrinted Text.Input1 pressed s)
  have r2 := SG3525Run_fields false (InputPrinted Text.Input2 pressed t)
  have e1 := ProcessInput1_eq pressed s
  have e2 := ProcessInput2_eq pressed t
  rw [h1] at e1
  rw [h2] at e2
  simp only at e1 e2
  rw [e1, e2]
  cases pressed
  · simp only [Bool.false_eq_true, if_false, Bool.not_false, Bool.true_and]
    exact ⟨⟨trivial, p1.2.2.1, p1.2.2.1, p1.2.2.2.2.2⟩,
      ⟨trivial, p2.2.2.1, p2.2.2.1, p2.2.2.2.2.2⟩⟩
  · simp only [if_true, Bool.not_true, Bool.false_and]
    refine ⟨⟨trivial, r1.1, r1.1, ?_⟩, ⟨trivial, r2.1, r2.1, ?_⟩⟩
    · rw [r1.2.2.1, ← p1.2.2.2.2.2]
      simp [enablesIn, List.count_append, List.count_cons]
    · rw [r2.2.2.1, ← p2.2.2.2.2.2]
      simp [enablesIn, List.count_append, List.count_cons]

theorem C27_ESTOP_only_disables_witness :
    (ProcessInput1 true sampleStop1
          = (if true then SG3525Run false (InputPrinted Text.Input1 true sampleStop1)
              else InputPrinted Text.Input1 true sampleStop1) ∧
        (ProcessInput1 true sampleStop1).IsOn = (if true then false else sampleStop1.IsOn) ∧
        (ProcessInput1 true sampleStop1).IsOn = (!true && sampleStop1.IsOn) ∧
        enablesIn (ProcessInput1 true sampleStop1).Log = enablesIn sampleStop1.Log) ∧
      (ProcessInput2 true sampleStop2
          = (if true then SG3525Run false (InputPrinted Text.Input2 true sampleStop2)
              else InputPrinted Text.Input2 true sampleStop2) ∧
        (ProcessInput2 true sampleStop2).IsOn = (if true then false else sampleStop2.IsOn) ∧
        (ProcessInput2 true sampleStop2).IsOn = (!true && sampleStop2.IsOn) ∧
        enablesIn (ProcessInput2 true sampleStop2).Log = enablesIn sampleStop2.Log) :=
  C27_ESTOP_only_disables true sampleStop1
    sampleStop2 rfl rfl

/-- C28: ToggleOnPress.  For every state `s` in which input 1 has action
`INPUT_XPOPO`, whatever the configuration of input 2: a press makes `ProcessInput1`
call `SG3525Run(!SG3525_IS_ON)` after the optional message, so the output-enabled state
is inverted; without a press it only prints the optional message and every field of
the state is as before; two consecutive presses restore the original enabled/disabled
state.  Likewise `ProcessInput2` for every state `t` in which input 2 has action
`INPUT_XPOPO`, whatever the configuration of input 1.  In a state `b` in which both
inputs have that action, one press on each input, in either order, restores the
original state as well. -/
theorem C28_toggle_on_press (s t b : State)
    (h1 : s.SG3525Set.Input1.Action = INPUT_ACTION.INPUT_XPOPO)
    (h2 : t.SG3525Set.Input2.Action = INPUT_ACTION.INPUT_XPOPO)
    (hb1 : b.SG3525Set.Input1.Action = INPUT_ACTION.INPUT_XPOPO)
    (hb2 : b.SG3525Set.Input2.Action = INPUT_ACTION.INPUT_XPOPO) :
    (ProcessInput1 true s = SG3525Run (!s.IsOn) (InputPrinted Text.Input1 true s) ∧
        (ProcessInput1 true s).IsOn = !s.IsOn ∧
        ProcessInput1 false s = InputPrinted Text.Input1 false s ∧
        { ProcessInput1 false s with Log := s.Log } = s ∧
        (ProcessInput1 false s).Log
          = s.Log ++ (if s.SG3525Set.Input1.Print then InputMsg Text.Input1 false else []) ∧
        (ProcessInput1 true (ProcessInput1 true s)).IsOn = s.IsOn) ∧
      (ProcessInput2 true t = SG3525Run (!t.IsOn) (InputPrinted Text.Input2 true t) ∧
        (ProcessInput2 true t).IsOn = !t.IsOn ∧
        ProcessInput2 false t = InputPrinted Text.Input2 false t ∧
        { ProcessInput2 false t with Log := t.Log } = t ∧
        (ProcessInput2 false t).Log
          = t.Log ++ (if t.SG3525Set.Input1.Print then InputMsg Text.Input2 false else []) ∧
        (ProcessInput2 true (ProcessInput2 true t)).IsOn = t.IsOn) ∧
      ((ProcessInput2 true (ProcessInput1 true b)).IsOn = b.IsOn ∧
        (ProcessInput1 true (ProcessInput2 true b)).IsOn = b.IsOn) := by
  have e1 : ∀ (p : Bool) (u : State),
      u.SG3525Set.Input1.Action = INPUT_ACTION.INPUT_XPOPO →
      ProcessInput1 p u = if p then SG3525Run (!u.IsOn) (InputPrinted Text.Input1 p u)
        else InputPrinted Text.Input1 p u := by
    intro p u hu
    have := ProcessInput1_eq p u
    rw [hu] at this
    exact this
  have e2 : ∀ (p : Bool) (u : State),
      u.SG3525Set.Input2.Action = INPUT_ACTION.INPUT_XPOPO →
      ProcessInput2 p u = if p then SG3525Run (!u.IsOn) (InputPrinted Text.Input2 p u)
        else InputPrinted Text.Input2 p u := by
    intro p u hu
    have := ProcessInput2_eq p u
    rw [hu] at this
    exact this
  have press1 : ∀ u : State, u.SG3525Set.Input1.Action = INPUT_ACTION.INPUT_XPOPO →
      ProcessInput1 true u = SG3525Run (!u.IsOn) (InputPrinted Text.Input1 true u) ∧
        (ProcessInput1 true u).IsOn = (!u.IsOn) ∧
        (ProcessInput1 true u).SG3525Set = u.SG3525Set := by
    intro u hu
    have t1 : ProcessInput1 true u
        = SG3525Run (!u.IsOn) (InputPrinted Text.Input1 true u) := by
      rw [e1 true u hu, if_pos rfl]
    refine ⟨t1, ?_, ?_⟩
    · rw [t1]; exact (SG3525Run_fields _ _).1
    · rw [t1, (SG3525Run_fields _ _).2.1]
      exact (InputPrinted_fields _ _ _).1
  have press2 : ∀ u : State, u.SG3525Set.Input2.Action = INPUT_ACTION.INPUT_XPOPO →
      ProcessInput2 true u = SG3525Run (!u.IsOn) (InputPrinted Text.Input2 true u) ∧
        (ProcessInput2 true u).IsOn = (!u.IsOn) ∧
        (ProcessInput2 true u).SG3525Set = u.SG3525Set := by
    intro u hu
    have t2 : ProcessInput2 true u
        = SG3525Run (!u.IsOn) (InputPrinted Text.Input2 true u) := by
      rw [e2 true u hu, if_pos rfl]
    refine ⟨t2, ?_, ?_⟩
    · rw [t2]; exact (SG3525Run_fields _ _).1
    · rw [t2, (SG3525Run_fields _ _).2.1]
      exact (InputPrinted_fields _ _ _).1
  have f1 : ProcessInput1 false s = InputPrinted Text.Input1 false s := by
    rw [e1 false s h1]; simp
  have f2 : ProcessInput2 false t = InputPrinted Text.Input2 false t := by
    rw [e2 false t h2]; simp
  obtain ⟨s1, s2, s3⟩ := press1 s h1
  obtain ⟨t1, t2, t3⟩ := press2 t h2
  obtain ⟨b1, b2, b3⟩ := press1 b hb1
  obtain ⟨c1, c2, c3⟩ := press2 b hb2
  have ss := (press1 (ProcessInput1 true s) (by rw [s3]; exact h1)).2.1
  have tt := (press2 (ProcessInput2 true t) (by rw [t3]; exact h2)).2.1
  have b21 := (press2 (ProcessInput1 true b) (by rw [b3]; exact hb2)).2.1
  have b12 := (press1 (ProcessInput2 true b) (by rw [c3]; exact hb1)).2.1
  rw [s2, Bool.not_not] at ss
  rw [t2, Bool.not_not] at tt
  rw [b2, Bool.not_not] at b21
  rw [c2, Bool.not_not] at b12
  refine ⟨⟨s1, s2, f1, ?_, ?_, ss⟩, ⟨t1, t2, f2, ?_, ?_, tt⟩, ⟨b21, b12⟩⟩
  · rw [f1]; exact (InputPrinted_fields _ _ _).2.2.2.1
  · rw [f1]; exact (InputPrinted_fields _ _ _).2.2.2.2.1
  · rw [f2]; exact (InputPrinted_fields _ _ _).2.2.2.1
  · rw [f2]; exact (InputPrinted_fields _ _ _).2.2.2.2.1

theorem C28_toggle_on_press_witness :
    (ProcessInput1 true sampleToggle1 = SG3525Run (!sampleToggle1.IsOn) (InputPrinted Text.Input1 true sampleToggle1) ∧
        (ProcessInput1 true sampleToggle1).IsOn = !sampleToggle1.IsOn ∧
        ProcessInput1 false sampleToggle1 = InputPrinted Text.Input1 false sampleToggle1 ∧
        { ProcessInput1 false sampleToggle1 with Log := sampleToggle1.Log } = sampleToggle1 ∧
        (ProcessInput1 false sampleToggle1).Log
          = sampleToggle1.Log ++ (if sampleToggle1.SG3525Set.Input1.Print then InputMsg Text.Input1 false else []) ∧
        (ProcessInput1 true (ProcessInput1 true sampleToggle1)).IsOn = sampleToggle1.IsOn) ∧
      (ProcessInput2 true sampleToggle2 = SG3525Run (!sampleToggle2.IsOn) (InputPrinted Text.Input2 true sampleToggle2) ∧
        (ProcessInput2 true sampleToggle2).IsOn = !sampleToggle2.IsOn ∧
        ProcessInput2 false sampleToggle2 = InputPrinted Text.Input2 false sampleToggle2 ∧
        { ProcessInput2 false sampleToggle2 with Log := sampleToggle2.Log } = sampleToggle2 ∧
        (ProcessInput2 false sampleToggle2).Log
          = sampleToggle2.Log ++ (if sampleToggle2.SG3525Set.Input1.Print then InputMsg Text.Input2 false else []) ∧
        (ProcessInput2 true (ProcessInput2 true sampleToggle2)).IsOn = sampleToggle2.IsOn) ∧
      ((ProcessInput2 true (ProcessInput1 true sampleToggle)).IsOn = sampleToggle.IsOn ∧
        (ProcessInput1 true (ProcessInput2 true sampleToggle)).IsOn = sampleToggle.IsOn) :=
  C28_toggle_on_press sampleToggle1
    sampleToggle2 sampleToggle rfl rfl rfl rfl

/-- C29: DirectControl and Unused.  For every state `s` in which input 1 has action
`INPUT_XCTRL`, whatever the configuration of input 2, `ProcessInput1` is
`SG3525Run(pressed)` after the optional message: the output is enabled afterwards if
and only if the input is pressed, the countdown is loaded from the configured duration
on a press in Timed mode, kept on a press in Continuous mode, and set to 0 on a
release; likewise `ProcessInput2` for every state `t` in which input 2 has that action.
For every state `u` in which input 1 has action `INPUT_UNUSED`, whatever the
configuration of input 2, `ProcessInput1` only prints the optional message: the output
state, the countdown and every other field are as before; likewise `ProcessInput2` for
every state `v` in which input 2 has that action. -/
theorem C29_direct_and_unused (pressed : Bool) (s t u v : State)
    (h1 : s.SG3525Set.Input1.Action = INPUT_ACTION.INPUT_XCTRL)
    (h2 : t.SG3525Set.Input2.Action = INPUT_ACTION.INPUT_XCTRL)
    (u1 : u.SG3525Set.Input1.Action = INPUT_ACTION.INPUT_UNUSED)
    (u2 : v.SG3525Set.Input2.Action = INPUT_ACTION.INPUT_UNUSED) :
    (ProcessInput1 pressed s = SG3525Run pressed (InputPrinted Text.Input1 pressed s) ∧
        (ProcessInput1 pressed s).IsOn = pressed ∧
        (ProcessInput1 pressed s).SG3525Curr.RunTimer =
          (if pressed then
            (if s.SG3525Set.RunMode = SG3525_RUN_MODE.RUN_TIMED then s.SG3525Set.RunTimer
              else s.SG3525Curr.RunTimer)
            else 0)) ∧
      (ProcessInput2 pressed t = SG3525Run pressed (InputPrinted Text.Input2 pressed t) ∧
        (ProcessInput2 pressed t).IsOn = pressed ∧
        (ProcessInput2 pressed t).SG3525Curr.RunTimer =
          (if pressed then
            (if t.SG3525Set.RunMode = SG3525_RUN_MODE.RUN_TIMED then t.SG3525Set.RunTimer
              else t.SG3525Curr.RunTimer)
            else 0)) ∧
      (ProcessInput1 pressed u = InputPrinted Text.Input1 pressed u ∧
        (ProcessInput1 pressed u).IsOn = u.IsOn ∧
        (ProcessInput1 pressed u).SG3525Curr.RunTimer = u.SG3525Curr.RunTimer ∧
        { ProcessInput1 pressed u with Log := u.Log } = u) ∧
      (ProcessInput2 pressed v = InputPrinted Text.Input2 pressed v ∧
        (ProcessInput2 pressed v).IsOn = v.IsOn ∧
        (ProcessInput2 pressed v).SG3525Curr.RunTimer = v.SG3525Curr.RunTimer ∧
        { ProcessInput2 pressed v with Log := v.Log } = v) := by
  have e1 := ProcessInput1_eq pressed s
  have e2 := ProcessInput2_eq pressed t
  have g1 := ProcessInput1_eq pressed u
  have g2 := ProcessInput2_eq pressed v
  rw [h1] at e1
  rw [h2] at e2
  rw [u1] at g1
  rw [u2] at g2
  simp only at e1 e2 g1 g2
  have p1 := InputPrinted_fields Text.Input1 pressed s
  have p2 := InputPrinted_fields Text.Input2 pressed t
  have q1 := InputPrinted_fields Text.Input1 pressed u
  have q2 := InputPrinted_fields Text.Input2 pressed v
  have r1 := SG3525Run_fields pressed (InputPrinted Text.Input1 pressed s)
  have r2 := SG3525Run_fields pressed (InputPrinted Text.Input2 pressed t)
  rw [p1.1, p1.2.1] at r1
  rw [p2.1, p2.2.1] at r2
  rw [e1, e2, g1, g2]
  refine ⟨⟨rfl, r1.1, r1.2.2.2⟩, ⟨rfl, r2.1, r2.2.2.2⟩, ⟨rfl, q1.2.2.1, ?_, q1.2.2.2.1⟩,
    ⟨rfl, q2.2.2.1, ?_, q2.2.2.2.1⟩⟩
  · rw [q1.2.1]
  · rw [q2.2.1]

theorem C29_direct_and_unused_witness :
    (ProcessInput1 true sampleDirect1 = SG3525Run true (InputPrinted Text.Input1 true sampleDirect1) ∧
        (ProcessInput1 true sampleDirect1).IsOn = true ∧
        (ProcessInput1 true sampleDirect1).SG3525Curr.RunTimer =
          (if true then
            (if sampleDirect1.SG3525Set.RunMode = SG3525_RUN_MODE.RUN_TIMED then sampleDirect1.SG3525Set.RunTimer
              else sampleDirect1.SG3525Curr.RunTimer)
            else 0)) ∧
      (ProcessInput2 true sampleDirect2 = SG3525Run true (InputPrinted Text.Input2 true sampleDirect2) ∧
        (ProcessInput2 true sampleDirect2).IsOn = true ∧
        (ProcessInput2 true sampleDirect2).SG3525Curr.RunTimer =
          (if true then
            (if sampleDirect2.SG3525Set.RunMode = SG3525_RUN_MODE.RUN_TIMED then sampleDirect2.SG3525Set.RunTimer
              else sampleDirect2.SG3525Curr.RunTimer)
            else 0)) ∧
      (ProcessInput1 true sampleUnused1 = InputPrinted Text.Input1 true sampleUnused1 ∧
        (ProcessInput1 true sampleUnused1).IsOn = sampleUnused1.IsOn ∧
        (ProcessInput1 true sampleUnused1).SG3525Curr.RunTimer = sampleUnused1.SG3525Curr.RunTimer ∧
        { ProcessInput1 true sampleUnused1 with Log := sampleUnused1.Log } = sampleUnused1) ∧
      (ProcessInput2 true sampleUnused2 = InputPrinted Text.Input2 true sampleUnused2 ∧
        (ProcessInput2 true sampleUnused2).IsOn = sampleUnused2.IsOn ∧
        (ProcessInput2 true sampleUnused2).SG3525Curr.RunTimer = sampleUnused2.SG3525Curr.RunTimer ∧
        { ProcessInput2 true sampleUnused2 with Log := sampleUnused2.Log } = sampleUnused2) :=
  C29_direct_and_unused true sampleDirect1
    sampleDirect2 sampleUnused1
    sampleUnused2 rfl rfl rfl rfl

/-! ## Command interpreter : lemmas and claims -/

/-- The `FR` command on an argument that an `int` of the target can hold: the test
against `SG3525_MAX_FREQ` can never fire, so the command rejects below 20000 and stores
the argument otherwise. -/
theorem Cmd_FR_int (K : Consts) (TokenText : String) (Num : Int) (s : State)
    (hesc : K.ESC_CMD ≠ "FR") (hint : INT_MIN ≤ Num ∧ Num ≤ INT_MAX) :
    SG3525Cmd K "FR" TokenText Num s =
      (if Num < SG3525_MIN_FREQ then
        (true, emit (RangeMsg Text.BadFrequency TokenText SG3525_MIN_FREQ SG3525_MAX_FREQ) s)
      else (true, { s with SG3525Set := { s.SG3525Set with Freq := Num.toNat } })) := by
  unfold INT_MIN INT_MAX at hint
  unfold SG3525Cmd
  simp only [String.reduceEq, false_or, if_false, ite_false, if_true, Ne.symm hesc]
  have hmax : ¬ Num > (SG3525_MAX_FREQ : Int) := by
    have : (SG3525_MAX_FREQ : Int) = 35000 := by decide
    omega
  by_cases hlo : Num < (SG3525_MIN_FREQ : Int)
  · rw [if_pos (Or.inl hlo), if_pos hlo]
  · rw [if_neg (by rw [not_or]; exact ⟨hlo, hmax⟩), if_neg hlo]
    have hmin : (SG3525_MIN_FREQ : Int) = 20000 := by decide
    have : toU16 Num = Num.toNat := by
      unfold toU16
      omega
    rw [this]

/-- C25 is what the code announces (`SG3525_MAX_FREQ` is 35000, "Maximum frequency we
allow", and the rejection message reads "must be 20000 to 35000"), and the `int`
that receives `atoi` misses it: on the 16-bit target no `int` exceeds 32767.  For
every value `Num` the variable can hold, the `FR` command rejects below 20000 and
stores `Num` otherwise, so for every `n` in 32768 .. 35000 that is not already the
target, the target after the command is not `n`. -/
theorem C25_FR_upper_bound_unreachable (K : Consts) (TokenText : String) (Num n : Int)
    (s : State) (hesc : K.ESC_CMD ≠ "FR") (hint : INT_MIN ≤ Num ∧ Num ≤ INT_MAX)
    (hn : INT_MAX < n ∧ n ≤ SG3525_MAX_FREQ) (hprior : (s.SG3525Set.Freq : Int) ≠ n) :
    SG3525Cmd K "FR" TokenText Num s =
        (if Num < SG3525_MIN_FREQ then
          (true, emit (RangeMsg Text.BadFrequency TokenText SG3525_MIN_FREQ SG3525_MAX_FREQ) s)
        else (true, { s with SG3525Set := { s.SG3525Set with Freq := Num.toNat } })) ∧
      ((SG3525Cmd K "FR" TokenText Num s).2.SG3525Set.Freq : Int) ≠ n := by
  have e := Cmd_FR_int K TokenText Num s hesc hint
  refine ⟨e, ?_⟩
  rw [e]
  unfold INT_MIN INT_MAX at hint
  unfold INT_MAX at hn
  by_cases hlo : Num < (SG3525_MIN_FREQ : Int)
  · rw [if_pos hlo]
    exact hprior
  · rw [if_neg hlo]
    show ((Num.toNat : Nat) : Int) ≠ n
    omega

theorem C25_FR_upper_bound_unreachable_witness :
    SG3525Cmd sampleConsts "FR" "35000" (-30536) bootState =
        (if (-30536 : Int) < SG3525_MIN_FREQ then
          (true, emit (RangeMsg Text.BadFrequency "35000" SG3525_MIN_FREQ SG3525_MAX_FREQ)
            bootState)
        else (true, { bootState with
          SG3525Set := { bootState.SG3525Set with Freq := (-30536 : Int).toNat } })) ∧
      ((SG3525Cmd sampleConsts "FR" "35000" (-30536) bootState).2.SG3525Set.Freq : Int)
        ≠ 35000 :=
  C25_FR_upper_bound_unreachable sampleConsts "35000" (-30536) 35000 bootState
    (by decide) (by decide) (by decide) (by decide)

theorem busEvents_RangeMsg (what : Text) (t : String) (lo hi : Nat) :
    busEvents (RangeMsg what t lo hi) = [] := rfl

theorem busEvents_WiperMsg (t : String) (hi : Int) : busEvents (WiperMsg t hi) = [] := rfl

theorem busEvents_append (a b : List Event) :
    busEvents (a ++ b) = busEvents a ++ busEvents b := by
  unfold busEvents
  exact List.filter_append a b

/-- A range-checked command on an `int` outside the bounds it tests.  For each of `FR`,
`PO`, `FCW`, `FFW`, `PW` (with the bounds `lo`, `hi` and the message `msg` of its entry
in `RangeChecked`) and every value `Num` of the `int` below `lo` or above `hi`,
`SG3525Cmd` returns true and the state with `msg` appended to the log and nothing else
changed: set-point, current state, output and calibration session are as before and no
potentiometer transfer is made.  The message prints the rejected text and the bounds. -/
theorem Cmd_rejected_int (K : Consts) (s : State) (TokenText Command : String)
    (Num lo hi : Int) (msg : List Event)
    (hesc : K.ESC_CMD ∉ ["FR", "PO", "FCW", "FFW", "PW"])
    (hcmd : (Command, lo, hi, msg) ∈ RangeChecked K TokenText)
    (hout : Num < lo ∨ Num > hi) :
    SG3525Cmd K Command TokenText Num s = (true, emit msg s) ∧
      (SG3525Cmd K Command TokenText Num s).1 = true ∧
      { (SG3525Cmd K Command TokenText Num s).2 with Log := s.Log } = s ∧
      (SG3525Cmd K Command TokenText Num s).2.Log = s.Log ++ msg ∧
      busEvents (SG3525Cmd K Command TokenText Num s).2.Log = busEvents s.Log ∧
      busEvents msg = [] ∧
      Event.PrintString TokenText ∈ msg ∧
      Event.PrintD hi ∈ msg ∧
      (Event.PrintD lo ∈ msg ∨ (lo = 0 ∧ Event.PrintStringP Text.MustBe0To ∈ msg)) := by
  simp only [List.mem_cons, List.mem_singleton, List.not_mem_nil, or_false, not_or] at hesc
  obtain ⟨e1, e2, e3, e4, e5⟩ := hesc
  have key : SG3525Cmd K Command TokenText Num s = (true, emit msg s) ∧ busEvents msg = [] ∧
      Event.PrintString TokenText ∈ msg ∧ Event.PrintD hi ∈ msg ∧
      (Event.PrintD lo ∈ msg ∨ (lo = 0 ∧ Event.PrintStringP Text.MustBe0To ∈ msg)) := by
    simp only [RangeChecked, List.mem_cons, List.mem_singleton, List.not_mem_nil, or_false,
      Prod.mk.injEq] at hcmd
    rcases hcmd with ⟨rfl, rfl, rfl, rfl⟩ | ⟨rfl, rfl, rfl, rfl⟩ | ⟨rfl, rfl, rfl, rfl⟩ |
      ⟨rfl, rfl, rfl, rfl⟩ | ⟨rfl, rfl, rfl, rfl⟩
    · refine ⟨?_, rfl, ?_, ?_, ?_⟩
      · unfold SG3525Cmd
        simp only [String.reduceEq, false_or, if_false, ite_false, if_true, Ne.symm e1]
        rw [if_pos hout]
      · simp [RangeMsg]
      · simp [RangeMsg]
      · left; simp [RangeMsg]
    · refine ⟨?_, rfl, ?_, ?_, ?_⟩
      · unfold SG3525Cmd
        simp only [String.reduceEq, false_or, if_false, ite_false, if_true, Ne.symm e2]
        rw [if_pos hout]
      · simp [RangeMsg]
      · simp [RangeMsg]
      · left; simp [RangeMsg]
    · refine ⟨?_, rfl, ?_, ?_, ?_⟩
      · unfold SG3525Cmd
        simp only [String.reduceEq, false_or, if_false, ite_false, if_true, Ne.symm e3]
        rw [if_pos hout]
      · simp [WiperMsg]
      · simp [WiperMsg]
      · right; simp [WiperMsg]
    · refine ⟨?_, rfl, ?_, ?_, ?_⟩
      · unfold SG3525Cmd
        simp only [String.reduceEq, false_or, if_false, ite_false, if_true, Ne.symm e4]
        rw [if_pos hout]
      · simp [WiperMsg]
      · simp [WiperMsg]
      · right; simp [WiperMsg]
    · refine ⟨?_, rfl, ?_, ?_, ?_⟩
      · unfold SG3525Cmd
        simp only [String.reduceEq, false_or, if_false, ite_false, if_true, Ne.symm e5]
        rw [if_pos hout]
      · simp [WiperMsg]
      · simp [WiperMsg]
      · right; simp [WiperMsg]
  obtain ⟨k1, k2, k3, k4, k5⟩ := key
  rw [k1]
  refine ⟨rfl, rfl, rfl, rfl, ?_, k2, k3, k4, k5⟩
  show busEvents (s.Log ++ msg) = busEvents s.Log
  rw [busEvents_append, k2, List.append_nil]

theorem Cmd_rejected_int_example :
    SG3525Cmd sampleConsts "FR" "19999" 19999 bootState = (true, emit sampleReject bootState) ∧
      (SG3525Cmd sampleConsts "FR" "19999" 19999 bootState).1 = true ∧
      { (SG3525Cmd sampleConsts "FR" "19999" 19999 bootState).2 with Log := bootState.Log } = bootState ∧
      (SG3525Cmd sampleConsts "FR" "19999" 19999 bootState).2.Log = bootState.Log ++ sampleReject ∧
      busEvents (SG3525Cmd sampleConsts "FR" "19999" 19999 bootState).2.Log = busEvents bootState.Log ∧
      busEvents sampleReject = [] ∧
      Event.PrintString "19999" ∈ sampleReject ∧
      Event.PrintD (SG3525_MAX_FREQ : Int) ∈ sampleReject ∧
      (Event.PrintD (SG3525_MIN_FREQ : Int) ∈ sampleReject ∨ ((SG3525_MIN_FREQ : Int) = 0 ∧ Event.PrintStringP Text.MustBe0To ∈ sampleReject)) :=
  Cmd_rejected_int sampleConsts bootState "19999" "FR" 19999
    SG3525_MIN_FREQ SG3525_MAX_FREQ sampleReject (by decide) (by decide) (by decide)

/-- Every value of `toInt16` is an `int` of the target. -/
theorem toInt16_int (n : Int) : INT_MIN ≤ toInt16 n ∧ toInt16 n ≤ INT_MAX := by
  unfold toInt16 INT_MIN INT_MAX
  omega

/-- A number that an `int` of the target can hold is its own `toInt16`. -/
theorem toInt16_of_int (n : Int) (h : INT_MIN ≤ n ∧ n ≤ INT_MAX) : toInt16 n = n := by
  unfold toInt16
  unfold INT_MIN INT_MAX at h
  omega

theorem startsIn_RangeMsg (what : Text) (t : String) (lo hi : Nat) :
    startsIn (RangeMsg what t lo hi) = 1 := by
  simp [startsIn, RangeMsg, List.count_cons]

theorem startsIn_WiperMsg (t : String) (hi : Int) : startsIn (WiperMsg t hi) = 1 := by
  simp [startsIn, WiperMsg, List.count_cons]

theorem startsIn_append (a b : List Event) : startsIn (a ++ b) = startsIn a + startsIn b := by
  unfold startsIn
  exact List.count_append _ a b

/-- A range-checked command on an `int` inside the bounds it tests: the command returns
true, stores the argument in its field and starts no message. -/
theorem Cmd_accepted_int (K : Consts) (s : State) (TokenText Command : String)
    (Num lo hi : Int) (msg : List Event)
    (hesc : K.ESC_CMD ∉ ["FR", "PO", "FCW", "FFW", "PW"])
    (hcmd : (Command, lo, hi, msg) ∈ RangeChecked K TokenText)
    (hint : INT_MIN ≤ Num ∧ Num ≤ INT_MAX)
    (hin : lo ≤ Num ∧ Num ≤ hi) :
    (SG3525Cmd K Command TokenText Num s).1 = true ∧
      ArgumentField Command (SG3525Cmd K Command TokenText Num s).2 = Num.toNat ∧
      startsIn (SG3525Cmd K Command TokenText Num s).2.Log = startsIn s.Log ∧
      startsIn msg = 1 ∧ 0 ≤ lo := by
  simp only [List.mem_cons, List.mem_singleton, List.not_mem_nil, or_false, not_or] at hesc
  obtain ⟨e1, e2, e3, e4, e5⟩ := hesc
  unfold INT_MIN INT_MAX at hint
  simp only [RangeChecked, List.mem_cons, List.mem_singleton, List.not_mem_nil, or_false,
    Prod.mk.injEq] at hcmd
  rcases hcmd with ⟨rfl, rfl, rfl, rfl⟩ | ⟨rfl, rfl, rfl, rfl⟩ | ⟨rfl, rfl, rfl, rfl⟩ |
    ⟨rfl, rfl, rfl, rfl⟩ | ⟨rfl, rfl, rfl, rfl⟩
  · have hu : toU16 Num = Num.toNat := by
      have : (0 : Int) ≤ (SG3525_MIN_FREQ : Int) := Int.ofNat_nonneg _
      unfold toU16
      omega
    have hn : ¬ (Num < (SG3525_MIN_FREQ : Int) ∨ Num > (SG3525_MAX_FREQ : Int)) := by omega
    unfold SG3525Cmd ArgumentField
    simp only [String.reduceEq, false_or, if_false, ite_false, if_true, Ne.symm e1]
    rw [if_neg hn]
    exact ⟨rfl, hu, rfl, startsIn_RangeMsg _ _ _ _, Int.ofNat_nonneg _⟩
  · have hu : toU16 Num = Num.toNat := by
      have : (0 : Int) ≤ (SG3525_MIN_POWER : Int) := Int.ofNat_nonneg _
      unfold toU16
      omega
    have hn : ¬ (Num < (SG3525_MIN_POWER : Int) ∨ Num > (SG3525_MAX_POWER : Int)) := by omega
    unfold SG3525Cmd ArgumentField
    simp only [String.reduceEq, false_or, if_false, ite_false, if_true, Ne.symm e2]
    rw [if_neg hn]
    exact ⟨rfl, hu, rfl, startsIn_RangeMsg _ _ _ _, Int.ofNat_nonneg _⟩
  · have hu : toU16 Num = Num.toNat := by
      unfold toU16
      omega
    have hn : ¬ (Num < 0 ∨ Num > FreqCPot_MAX_WIPER K) := by omega
    unfold SG3525Cmd ArgumentField
    simp only [String.reduceEq, false_or, if_false, ite_false, if_true, Ne.symm e3]
    rw [if_neg hn]
    refine ⟨rfl, hu, ?_, startsIn_WiperMsg _ _, le_refl _⟩
    show startsIn (s.Log ++ MCP4131SetWiper Pot.FreqCPot (toU16 Num)) = startsIn s.Log
    rw [startsIn_append]
    simp [startsIn, MCP4131SetWiper, List.count_cons]
  · have hu : toU16 Num = Num.toNat := by
      unfold toU16
      omega
    have hn : ¬ (Num < 0 ∨ Num > (FreqFPot_MAX_WIPER : Int)) := by omega
    unfold SG3525Cmd ArgumentField
    simp only [String.reduceEq, false_or, if_false, ite_false, if_true, Ne.symm e4]
    rw [if_neg hn]
    refine ⟨rfl, hu, ?_, startsIn_WiperMsg _ _, le_refl _⟩
    show startsIn (s.Log ++ AD8400SetWiper Pot.FreqFPot s.SG3525Curr.FreqCWiper) = startsIn s.Log
    rw [startsIn_append]
    simp [startsIn, AD8400SetWiper, List.count_cons]
  · have hu : toU16 Num = Num.toNat := by
      unfold toU16
      omega
    have hn : ¬ (Num < 0 ∨ Num > PWMPot_MAX_WIPER K) := by omega
    unfold SG3525Cmd ArgumentField
    simp only [String.reduceEq, false_or, if_false, ite_false, if_true, Ne.symm e5]
    rw [if_neg hn]
    refine ⟨rfl, hu, ?_, startsIn_WiperMsg _ _, le_refl _⟩
    show startsIn (s.Log ++ MCP4161SetWiper Pot.PWMPot (toU16 Num)) = startsIn s.Log
    rw [startsIn_append]
    simp [startsIn, MCP4161SetWiper, List.count_cons]

/-- C26 is what the code announces (each of `FR`, `PO`, `FCW`, `FFW`, `PW` tests its
argument against the bounds `lo`, `hi` of its entry in `RangeChecked` and prints them
in the rejection message `msg`), and the `int` that receives `atoi` misses it: the test
is made on the argument reduced to 16 bits.  For every argument `n` outside `lo .. hi`
whose reduction `toInt16 n` is inside, `SG3525Cmd` returns true, stores `toInt16 n`,
a number that is not the argument, in the field of the command, and starts no message;
its result is not the rejection (the state with only `msg` appended to the log). -/
theorem C26_wrapped_argument_accepted (K : Consts) (s : State) (TokenText Command : String)
    (n lo hi : Int) (msg : List Event)
    (hesc : K.ESC_CMD ∉ ["FR", "PO", "FCW", "FFW", "PW"])
    (hcmd : (Command, lo, hi, msg) ∈ RangeChecked K TokenText)
    (hout : n < lo ∨ n > hi)
    (hwrap : lo ≤ toInt16 n ∧ toInt16 n ≤ hi) :
    (SG3525Cmd K Command TokenText (toInt16 n) s).1 = true ∧
      ArgumentField Command (SG3525Cmd K Command TokenText (toInt16 n) s).2
        = (toInt16 n).toNat ∧
      (ArgumentField Command (SG3525Cmd K Command TokenText (toInt16 n) s).2 : Int) ≠ n ∧
      startsIn (SG3525Cmd K Command TokenText (toInt16 n) s).2.Log = startsIn s.Log ∧
      startsIn (emit msg s).Log = startsIn s.Log + 1 ∧
      SG3525Cmd K Command TokenText (toInt16 n) s ≠ (true, emit msg s) := by
  obtain ⟨a1, a2, a3, a4, a5⟩ :=
    Cmd_accepted_int K s TokenText Command (toInt16 n) lo hi msg hesc hcmd (toInt16_int n) hwrap
  have hm : startsIn (emit msg s).Log = startsIn s.Log + 1 := by
    show startsIn (s.Log ++ msg) = startsIn s.Log + 1
    rw [startsIn_append, a4]
  refine ⟨a1, a2, ?_, a3, hm, ?_⟩
  · rw [a2]
    omega
  · intro h
    rw [h] at a3
    rw [hm] at a3
    omega

theorem C26_wrapped_argument_accepted_witness :
    (SG3525Cmd sampleConsts "PO" "66000" (toInt16 66000) bootState).1 = true ∧
      ArgumentField "PO" (SG3525Cmd sampleConsts "PO" "66000" (toInt16 66000) bootState).2
        = (toInt16 66000).toNat ∧
      (ArgumentField "PO" (SG3525Cmd sampleConsts "PO" "66000" (toInt16 66000) bootState).2 : Int)
        ≠ 66000 ∧
      startsIn (SG3525Cmd sampleConsts "PO" "66000" (toInt16 66000) bootState).2.Log
        = startsIn bootState.Log ∧
      startsIn (emit sampleRejectPower bootState).Log = startsIn bootState.Log + 1 ∧
      SG3525Cmd sampleConsts "PO" "66000" (toInt16 66000) bootState
        ≠ (true, emit sampleRejectPower bootState) :=
  C26_wrapped_argument_accepted sampleConsts bootState "66000" "PO" 66000
    SG3525_MIN_POWER SG3525_MAX_POWER sampleRejectPower (by decide) (by decide) (by decide)
    (by decide)

/-- The commands `FR 90000`, `PO 66000` and `FCW 65536` evaluated on the boot state:
each argument is outside the bounds of its command, and the command sets the target
frequency to 24464, the target power to 464 and the coarse wiper to 0. -/
theorem wrapped_arguments_run :
    (toInt16 90000 = 24464 ∧ toInt16 66000 = 464 ∧ toInt16 65536 = 0) ∧
      (SG3525Cmd sampleConsts "FR" "90000" (toInt16 90000) bootState).2.SG3525Set.Freq = 24464 ∧
      (SG3525Cmd sampleConsts "PO" "66000" (toInt16 66000) bootState).2.SG3525Set.Power = 464 ∧
      (SG3525Cmd sampleConsts "FCW" "65536" (toInt16 65536) bootState).2.SG3525Curr.FreqCWiper = 0 ∧
      (SG3525Cmd sampleConsts "FCW" "65536" (toInt16 65536) bootState).2.Log
        = bootState.Log ++ MCP4131SetWiper Pot.FreqCPot 0 := by
  decide

/-- A word that is none of the fifteen tested ones falls through every test. -/
theorem Cmd_other_word (K : Consts) (Command TokenText : String) (Num : Int) (s : State)
    (h : Command ∉ CommandWords K) : SG3525Cmd K Command TokenText Num s = (false, s) := by
  simp only [CommandWords, List.mem_cons, List.mem_singleton, List.not_mem_nil, or_false,
    not_or] at h
  obtain ⟨h1, h2, h3, h4, h5, h6, h7, h8, h9, h10, h11, h12, h13, h14, h15⟩ := h
  unfold SG3525Cmd
  rw [if_neg (by rw [not_or]; exact ⟨h1, h2⟩), if_neg h3, if_neg h4, if_neg h5, if_neg h6,
    if_neg h7, if_neg h8, if_neg h9, if_neg h10, if_neg h11, if_neg h12, if_neg h13,
    if_neg h14, if_neg h15]

/-- Each of the fifteen tested words is answered with true. -/
theorem Cmd_known_word (K : Consts) (Command TokenText : String) (Num : Int) (s : State)
    (h : Command ∈ CommandWords K) : (SG3525Cmd K Command TokenText Num s).1 = true := by
  simp only [CommandWords, List.mem_cons, List.mem_singleton, List.not_mem_nil, or_false] at h
  unfold SG3525Cmd
  by_cases c1 : Command = "OF" ∨ Command = K.ESC_CMD
  · rw [if_pos c1]
  rw [if_neg c1]
  by_cases c3 : Command = "ON"
  · rw [if_pos c3]
  rw [if_neg c3]
  by_cases c4 : Command = "XX"
  · rw [if_pos c4]
  rw [if_neg c4]
  by_cases c5 : Command = "FR"
  · rw [if_pos c5]
    split <;> rfl
  rw [if_neg c5]
  by_cases c6 : Command = "PO"
  · rw [if_pos c6]
    split <;> rfl
  rw [if_neg c6]
  by_cases c7 : Command = "U"
  · rw [if_pos c7]
  rw [if_neg c7]
  by_cases c8 : Command = "D"
  · rw [if_pos c8]
  rw [if_neg c8]
  by_cases c9 : Command = "W"
  · rw [if_pos c9]
  rw [if_neg c9]
  by_cases c10 : Command = "N"
  · rw [if_pos c10]
  rw [if_neg c10]
  by_cases c11 : Command = "+"
  · rw [if_pos c11]
  rw [if_neg c11]
  by_cases c12 : Command = "-"
  · rw [if_pos c12]
  rw [if_neg c12]
  by_cases c13 : Command = "FCW"
  · rw [if_pos c13]
    split <;> rfl
  rw [if_neg c13]
  by_cases c14 : Command = "FFW"
  · rw [if_pos c14]
    split <;> rfl
  rw [if_neg c14]
  by_cases c15 : Command = "PW"
  · rw [if_pos c15]
    split <;> rfl
  rw [if_neg c15]
  rw [not_or] at c1
  obtain ⟨c1, c2⟩ := c1
  exfalso
  rcases h with h | h | h | h | h | h | h | h | h | h | h | h | h | h | h <;> contradiction

/-- C30: the command words.  `SG3525Cmd` returns true exactly for the fifteen words it
tests (`OF`, the escape command, `ON`, `XX`, `FR`, `PO`, `U`, `D`, `W`, `N`, `+`, `-`,
`FCW`, `FFW`, `PW`), and it returns false with the state exactly as it was (log
included, so nothing is sent to any potentiometer) exactly for every other word. -/
theorem C30_command_words (K : Consts) (Command TokenText : String) (Num : Int) (s : State) :
    ((SG3525Cmd K Command TokenText Num s).1 = true ↔ Command ∈ CommandWords K) ∧
      (SG3525Cmd K Command TokenText Num s = (false, s) ↔ Command ∉ CommandWords K) := by
  by_cases hm : Command ∈ CommandWords K
  · have h1 := Cmd_known_word K Command TokenText Num s hm
    refine ⟨⟨fun _ => hm, fun _ => h1⟩, ⟨fun hf => ?_, fun hn => absurd hm hn⟩⟩
    rw [hf] at h1
    exact absurd h1 Bool.false_ne_true
  · have h1 := Cmd_other_word K Command TokenText Num s hm
    refine ⟨⟨fun ht => ?_, fun hin => absurd hin hm⟩, ⟨fun _ => hm, fun _ => h1⟩⟩
    rw [h1] at ht
    exact absurd ht Bool.false_ne_true

theorem C30_command_words_witness :
    ((SG3525Cmd sampleConsts "HELP" "" 0 bootState).1 = true ↔
        "HELP" ∈ CommandWords sampleConsts) ∧
      (SG3525Cmd sampleConsts "HELP" "" 0 bootState = (false, bootState) ↔
        "HELP" ∉ CommandWords sampleConsts) :=
  C30_command_words sampleConsts "HELP" "" 0 bootState

/-! ## Last byte written to a potentiometer : lemmas -/

theorem lastWritten_append (p : Pot) (a b : List Event) :
    lastWritten p (a ++ b) = (b.foldl (scanWrites p) (a.foldl (scanWrites p) (none, none))).2 := by
  unfold lastWritten
  rw [List.foldl_append]

/-- The scan across one transfer of the AD8400 driver. -/
theorem scan_AD8400 (p q : Pot) (W : Nat) (st : Option Nat × Option Nat) :
    ((AD8400SetWiper q W).foldl (scanWrites p) st).2
      = if q = p then some (W % 256) else st.2 := by
  by_cases h : q = p
  · simp [AD8400SetWiper, scanWrites, h]
  · simp [AD8400SetWiper, scanWrites, h]

/-- The scan across one transfer of the MCP4131 driver. -/
theorem scan_MCP4131 (p q : Pot) (W : Nat) (st : Option Nat × Option Nat) :
    ((MCP4131SetWiper q W).foldl (scanWrites p) st).2
      = if q = p then some (W % 256) else st.2 := by
  by_cases h : q = p
  · simp [MCP4131SetWiper, scanWrites, h]
  · simp [MCP4131SetWiper, scanWrites, h]

/-- After a transfer by the AD8400 driver, the last byte written to the potentiometer
addressed is the wiper byte of that transfer, and the last byte written to any other
one is as before. -/
theorem lastWritten_AD8400 (p q : Pot) (W : Nat) (log : List Event) :
    lastWritten p (log ++ AD8400SetWiper q W)
      = if q = p then some (W % 256) else lastWritten p log := by
  rw [lastWritten_append, scan_AD8400]
  rfl

/-- The same for a transfer by the MCP4131 driver. -/
theorem lastWritten_MCP4131 (p q : Pot) (W : Nat) (log : List Event) :
    lastWritten p (log ++ MCP4131SetWiper q W)
      = if q = p then some (W % 256) else lastWritten p log := by
  rw [lastWritten_append, scan_MCP4131]
  rfl

/-- The fine wiper after a tuner call that makes a change lies in the guard band. -/
theorem SG3525AdjustFreq_band (s : State) (h : s.SG3525Curr.Freq ≠ s.SG3525Set.Freq) :
    28 ≤ (SG3525AdjustFreq s).SG3525Curr.FreqFWiper ∧
      (SG3525AdjustFreq s).SG3525Curr.FreqFWiper ≤ 228 := by
  rw [(SG3525AdjustFreq_wipers s).1, if_neg h]
  split
  · omega
  · split <;> omega

/-- A tuner call that makes a change moves the fine wiper. -/
theorem SG3525AdjustFreq_moves (s : State) (h : s.SG3525Curr.Freq ≠ s.SG3525Set.Freq) :
    (SG3525AdjustFreq s).SG3525Curr.FreqFWiper ≠ s.SG3525Curr.FreqFWiper := by
  rw [(SG3525AdjustFreq_wipers s).1, if_neg h, AdjustFreqLaw_fine]
  unfold dec16 inc16
  by_cases h1 : s.SG3525Curr.Freq > s.SG3525Set.Freq
  · rw [if_pos h1]
    split
    · omega
    · split <;> omega
  · have h2 : s.SG3525Curr.Freq < s.SG3525Set.Freq := by omega
    rw [if_neg h1, if_pos h2]
    split
    · omega
    · split <;> omega

/-- The last byte written to each frequency potentiometer by one tuner call. -/
theorem SG3525AdjustFreq_lastWritten (s : State) (h : s.SG3525Curr.Freq ≠ s.SG3525Set.Freq) :
    lastWritten Pot.FreqFPot (SG3525AdjustFreq s).Log
        = some (SG3525AdjustFreq s).SG3525Curr.FreqFWiper ∧
      ((SG3525AdjustFreq s).SG3525Curr.FreqCWiper = s.SG3525Curr.FreqCWiper ∧
          (AdjustFreqLaw s).1.SG3525Curr.FreqFWiper ≥ 28 ∧
          (AdjustFreqLaw s).1.SG3525Curr.FreqFWiper ≤ 228 ∧
          lastWritten Pot.FreqCPot (SG3525AdjustFreq s).Log = lastWritten Pot.FreqCPot s.Log ∨
        lastWritten Pot.FreqCPot (SG3525AdjustFreq s).Log
          = some ((SG3525AdjustFreq s).SG3525Curr.FreqCWiper % 256)) := by
  obtain ⟨hf, hc⟩ := SG3525AdjustFreq_wipers s
  rw [if_neg h] at hf hc
  rw [SG3525AdjustFreq_log, if_neg h]
  by_cases c1 : (AdjustFreqLaw s).1.SG3525Curr.FreqFWiper < 28
  · rw [if_pos c1] at hf hc
    rw [if_pos c1, ← List.append_assoc, ← List.append_assoc, lastWritten_MCP4131,
      lastWritten_MCP4131, if_neg (by decide), if_pos rfl, lastWritten_AD8400, if_pos rfl,
      hf, hc]
    exact ⟨rfl, Or.inr rfl⟩
  · rw [if_neg c1] at hf hc
    by_cases c2 : (AdjustFreqLaw s).1.SG3525Curr.FreqFWiper > 228
    · rw [if_pos c2] at hf hc
      rw [if_neg c1, if_pos c2, ← List.append_assoc, ← List.append_assoc,
        lastWritten_MCP4131, lastWritten_MCP4131, if_neg (by decide), if_pos rfl,
        lastWritten_AD8400, if_pos rfl, hf, hc]
      exact ⟨rfl, Or.inr rfl⟩
    · rw [if_neg c2] at hf hc
      rw [if_neg c1, if_neg c2, List.append_nil, lastWritten_AD8400, lastWritten_AD8400,
        if_pos rfl, if_neg (by decide), hf]
      refine ⟨?_, Or.inl ⟨hc, by omega, by omega, rfl⟩⟩
      congr 1
      exact Nat.mod_eq_of_lt (by omega)

/-- Neither a decrement nor an increment of a `uint16_t` gives back the same value. -/
theorem step16_ne (c : Nat) : dec16 c ≠ c ∧ inc16 c ≠ c := by
  unfold dec16 inc16
  omega

/-- Number of coarse transfers of one tuner call, read off the coarse wiper: one if it
moved, none if it did not. -/
theorem SG3525AdjustFreq_coarse_written (s : State) :
    ((SG3525AdjustFreq s).SG3525Curr.FreqCWiper ≠ s.SG3525Curr.FreqCWiper ∧
        writesTo Pot.FreqCPot (SG3525AdjustFreq s).Log = writesTo Pot.FreqCPot s.Log + 1) ∨
      ((SG3525AdjustFreq s).SG3525Curr.FreqCWiper = s.SG3525Curr.FreqCWiper ∧
        writesTo Pot.FreqCPot (SG3525AdjustFreq s).Log = writesTo Pot.FreqCPot s.Log) := by
  obtain ⟨_, hc⟩ := SG3525AdjustFreq_wipers s
  have hw := SG3525AdjustFreq_writes s
  by_cases h : s.SG3525Curr.Freq = s.SG3525Set.Freq
  · rw [if_pos h] at hc hw
    exact Or.inr ⟨hc, hw⟩
  · rw [if_neg h] at hc hw
    by_cases c1 : (AdjustFreqLaw s).1.SG3525Curr.FreqFWiper < 28
    · rw [if_pos c1] at hc hw
      exact Or.inl ⟨by rw [hc]; exact (step16_ne _).1, hw⟩
    · rw [if_neg c1] at hc hw
      by_cases c2 : (AdjustFreqLaw s).1.SG3525Curr.FreqFWiper > 228
      · rw [if_pos c2] at hc hw
        exact Or.inl ⟨by rw [hc]; exact (step16_ne _).2, hw⟩
      · rw [if_neg c2] at hc hw
        exact Or.inr ⟨hc, hw⟩

/-! ## Writes of the tuner and of the FFW command : claims -/

/-- C31: the `FFW` command with an argument in [0, 255].  It stores the argument in the
mirrored fine wiper, leaves the mirrored coarse wiper as it is, and calls
`FreqFPotSetWiper` with the mirrored coarse wiper: the one transfer it makes to the fine
potentiometer carries the coarse value.  With the coarse wiper in 0 .. 255, the value
last written to the fine potentiometer is the coarse wiper, and it equals the mirrored
fine wiper exactly when the argument equals the coarse wiper. -/
theorem C31_FFW_sends_coarse (K : Consts) (TokenText : String) (Num : Int) (s : State)
    (hesc : K.ESC_CMD ≠ "FFW") (h0 : 0 ≤ Num) (h255 : Num ≤ 255)
    (hc : s.SG3525Curr.FreqCWiper ≤ 255) :
    SG3525Cmd K "FFW" TokenText Num s
        = (true, FreqFPotSetWiper s.SG3525Curr.FreqCWiper
            { s with SG3525Curr := { s.SG3525Curr with FreqFWiper := Num.toNat } }) ∧
      ((SG3525Cmd K "FFW" TokenText Num s).2.SG3525Curr.FreqFWiper : Int) = Num ∧
      (SG3525Cmd K "FFW" TokenText Num s).2.SG3525Curr.FreqCWiper
        = s.SG3525Curr.FreqCWiper ∧
      (SG3525Cmd K "FFW" TokenText Num s).2.Log
        = s.Log ++ [Event.Select Pot.FreqFPot, Event.SPIByte 0,
            Event.SPIByte s.SG3525Curr.FreqCWiper, Event.Deselect Pot.FreqFPot] ∧
      lastWritten Pot.FreqFPot (SG3525Cmd K "FFW" TokenText Num s).2.Log
        = some s.SG3525Curr.FreqCWiper ∧
      (lastWritten Pot.FreqFPot (SG3525Cmd K "FFW" TokenText Num s).2.Log
          = some (SG3525Cmd K "FFW" TokenText Num s).2.SG3525Curr.FreqFWiper ↔
        Num = s.SG3525Curr.FreqCWiper) := by
  have hcmd : SG3525Cmd K "FFW" TokenText Num s
      = (true, FreqFPotSetWiper s.SG3525Curr.FreqCWiper
          { s with SG3525Curr := { s.SG3525Curr with FreqFWiper := Num.toNat } }) := by
    unfold SG3525Cmd
    simp only [String.reduceEq, false_or, if_false, ite_false, if_true, Ne.symm hesc]
    have h255' : (FreqFPot_MAX_WIPER : Int) = 255 := by decide
    rw [if_neg (by rw [not_or, h255']; omega)]
    have : toU16 Num = Num.toNat := by
      unfold toU16
      omega
    rw [this]
  have hmod : s.SG3525Curr.FreqCWiper % 256 = s.SG3525Curr.FreqCWiper :=
    Nat.mod_eq_of_lt (by omega)
  have hlog : (FreqFPotSetWiper s.SG3525Curr.FreqCWiper
      { s with SG3525Curr := { s.SG3525Curr with FreqFWiper := Num.toNat } }).Log
        = s.Log ++ AD8400SetWiper Pot.FreqFPot s.SG3525Curr.FreqCWiper := rfl
  have hlast : lastWritten Pot.FreqFPot (FreqFPotSetWiper s.SG3525Curr.FreqCWiper
      { s with SG3525Curr := { s.SG3525Curr with FreqFWiper := Num.toNat } }).Log
        = some s.SG3525Curr.FreqCWiper := by
    rw [hlog, lastWritten_AD8400, if_pos rfl, hmod]
  rw [hcmd]
  refine ⟨rfl, ?_, rfl, ?_, hlast, ?_⟩
  · show ((Num.toNat : Nat) : Int) = Num
    omega
  · rw [hlog]
    unfold AD8400SetWiper
    rw [hmod]
  · rw [hlast]
    show some s.SG3525Curr.FreqCWiper = some Num.toNat ↔ Num = s.SG3525Curr.FreqCWiper
    rw [Option.some.injEq]
    omega

theorem C31_FFW_sends_coarse_witness :
    SG3525Cmd sampleConsts "FFW" "200" (200 : Int) bootState
        = (true, FreqFPotSetWiper bootState.SG3525Curr.FreqCWiper
            { bootState with SG3525Curr := { bootState.SG3525Curr with FreqFWiper := (200 : Int).toNat } }) ∧
      ((SG3525Cmd sampleConsts "FFW" "200" (200 : Int) bootState).2.SG3525Curr.FreqFWiper : Int) = (200 : Int) ∧
      (SG3525Cmd sampleConsts "FFW" "200" (200 : Int) bootState).2.SG3525Curr.FreqCWiper
        = bootState.SG3525Curr.FreqCWiper ∧
      (SG3525Cmd sampleConsts "FFW" "200" (200 : Int) bootState).2.Log
        = bootState.Log ++ [Event.Select Pot.FreqFPot, Event.SPIByte 0,
            Event.SPIByte bootState.SG3525Curr.FreqCWiper, Event.Deselect Pot.FreqFPot] ∧
      lastWritten Pot.FreqFPot (SG3525Cmd sampleConsts "FFW" "200" (200 : Int) bootState).2.Log
        = some bootState.SG3525Curr.FreqCWiper ∧
      (lastWritten Pot.FreqFPot (SG3525Cmd sampleConsts "FFW" "200" (200 : Int) bootState).2.Log
          = some (SG3525Cmd sampleConsts "FFW" "200" (200 : Int) bootState).2.SG3525Curr.FreqFWiper ↔
        (200 : Int) = bootState.SG3525Curr.FreqCWiper) :=
  C31_FFW_sends_coarse sampleConsts "200" (200 : Int) bootState (by decide) (by decide) (by decide)
    (by decide)

/-- C32 fails as stated: from in-range wipers with the coarse wiper at 0 and the fine
wiper at 28, a measurement above the target makes the tuner carry downwards; the
coarse wiper changes from 0 to 65535, and the last byte written to the coarse
potentiometer is 255, not the mirrored coarse wiper. -/
theorem C32_counterexample :
    wipersInRange sampleConsts sampleRail ∧
      sampleRail.SG3525Curr.FreqCWiper = 0 ∧
      (SG3525AdjustFreq sampleRail).SG3525Curr.FreqCWiper = 65535 ∧
      lastWritten Pot.FreqCPot (SG3525AdjustFreq sampleRail).Log = some 255 ∧
      lastWritten Pot.FreqCPot (SG3525AdjustFreq sampleRail).Log
        ≠ some (SG3525AdjustFreq sampleRail).SG3525Curr.FreqCWiper := by
  decide

/-- C32 (amended): every wiper change made by the tuner is written immediately to its
channel.  If measured = target the call changes nothing and writes nothing; otherwise
the fine wiper changes and the last byte written to the fine potentiometer is the final
mirrored fine wiper.  The coarse potentiometer gets one transfer if the coarse wiper
changed and none if it did not; if it changed, the last byte written to it is the
final mirrored coarse wiper modulo 256, which is the wiper itself unless the carry has
taken it out of 0 .. 255. -/
theorem C32_changes_are_written (s : State) :
    (if s.SG3525Curr.Freq = s.SG3525Set.Freq then SG3525AdjustFreq s = s
      else (SG3525AdjustFreq s).SG3525Curr.FreqFWiper ≠ s.SG3525Curr.FreqFWiper ∧
        lastWritten Pot.FreqFPot (SG3525AdjustFreq s).Log
          = some (SG3525AdjustFreq s).SG3525Curr.FreqFWiper) ∧
      (((SG3525AdjustFreq s).SG3525Curr.FreqCWiper ≠ s.SG3525Curr.FreqCWiper ∧
          writesTo Pot.FreqCPot (SG3525AdjustFreq s).Log
            = writesTo Pot.FreqCPot s.Log + 1) ∨
        ((SG3525AdjustFreq s).SG3525Curr.FreqCWiper = s.SG3525Curr.FreqCWiper ∧
          writesTo Pot.FreqCPot (SG3525AdjustFreq s).Log = writesTo Pot.FreqCPot s.Log)) ∧
      ((SG3525AdjustFreq s).SG3525Curr.FreqCWiper = s.SG3525Curr.FreqCWiper ∨
        lastWritten Pot.FreqCPot (SG3525AdjustFreq s).Log
          = some ((SG3525AdjustFreq s).SG3525Curr.FreqCWiper % 256)) ∧
      ((SG3525AdjustFreq s).SG3525Curr.FreqCWiper = s.SG3525Curr.FreqCWiper ∨
        255 < (SG3525AdjustFreq s).SG3525Curr.FreqCWiper ∨
        lastWritten Pot.FreqCPot (SG3525AdjustFreq s).Log
          = some (SG3525AdjustFreq s).SG3525Curr.FreqCWiper) := by
  have hcw := SG3525AdjustFreq_coarse_written s
  by_cases h : s.SG3525Curr.Freq = s.SG3525Set.Freq
  · have hid : SG3525AdjustFreq s = s := by rw [SG3525AdjustFreq_eq, if_pos h]
    rw [if_pos h]
    refine ⟨hid, hcw, Or.inl ?_, Or.inl ?_⟩ <;> rw [hid]
  · obtain ⟨hf, hcl⟩ := SG3525AdjustFreq_lastWritten s h
    rw [if_neg h]
    have hmod : (SG3525AdjustFreq s).SG3525Curr.FreqCWiper = s.SG3525Curr.FreqCWiper ∨
        lastWritten Pot.FreqCPot (SG3525AdjustFreq s).Log
          = some ((SG3525AdjustFreq s).SG3525Curr.FreqCWiper % 256) := by
      rcases hcl with ⟨e, _⟩ | e
      · exact Or.inl e
      · exact Or.inr e
    refine ⟨⟨SG3525AdjustFreq_moves s h, hf⟩, hcw, hmod, ?_⟩
    rcases hmod with e | e
    · exact Or.inl e
    · by_cases hbig : 255 < (SG3525AdjustFreq s).SG3525Curr.FreqCWiper
      · exact Or.inr (Or.inl hbig)
      · refine Or.inr (Or.inr ?_)
        rw [e, Nat.mod_eq_of_lt (by omega)]

/-- A fine wiper inside the guard band stays inside it over one tuner call, whatever
the measured and target frequencies. -/
theorem SG3525AdjustFreq_band_kept (s : State)
    (h : 28 ≤ s.SG3525Curr.FreqFWiper ∧ s.SG3525Curr.FreqFWiper ≤ 228) :
    28 ≤ (SG3525AdjustFreq s).SG3525Curr.FreqFWiper ∧
      (SG3525AdjustFreq s).SG3525Curr.FreqFWiper ≤ 228 := by
  by_cases hm : s.SG3525Curr.Freq = s.SG3525Set.Freq
  · rw [SG3525AdjustFreq_eq, if_pos hm]
    exact h
  · exact SG3525AdjustFreq_band s hm

/-- The guard band is kept over any sequence of tuner calls. -/
theorem TuneWith_band (mt : List (Nat × Nat)) : ∀ s : State,
    28 ≤ s.SG3525Curr.FreqFWiper ∧ s.SG3525Curr.FreqFWiper ≤ 228 →
    28 ≤ (TuneWith s mt).SG3525Curr.FreqFWiper ∧
      (TuneWith s mt).SG3525Curr.FreqFWiper ≤ 228 := by
  induction mt with
  | nil => intro s h; exact h
  | cons p mt ih =>
    intro s h
    exact ih _ (SG3525AdjustFreq_band_kept (withTarget p.2 (withFreq p.1 s)) h)

/-! ## Guard band of the fine wiper : claims -/

/-- C35: guard-band invariant.  Whatever the mirrored fine wiper before the call, a
`SG3525AdjustFreq` call that makes a change (measured ≠ target) leaves the mirrored
fine wiper in [28, 228]; and from then on it stays in [28, 228] over any sequence of
further tuner calls, the measured and target frequencies being arbitrary at each. -/
theorem C35_guard_band (s : State) (mt : List (Nat × Nat))
    (h : s.SG3525Curr.Freq ≠ s.SG3525Set.Freq) :
    (28 ≤ (SG3525AdjustFreq s).SG3525Curr.FreqFWiper ∧
        (SG3525AdjustFreq s).SG3525Curr.FreqFWiper ≤ 228) ∧
      (28 ≤ (TuneWith (SG3525AdjustFreq s) mt).SG3525Curr.FreqFWiper ∧
        (TuneWith (SG3525AdjustFreq s) mt).SG3525Curr.FreqFWiper ≤ 228) :=
  ⟨SG3525AdjustFreq_band s h, TuneWith_band mt _ (SG3525AdjustFreq_band s h)⟩

theorem C35_guard_band_witness :
    (28 ≤ (SG3525AdjustFreq sampleFineHigh).SG3525Curr.FreqFWiper ∧
        (SG3525AdjustFreq sampleFineHigh).SG3525Curr.FreqFWiper ≤ 228) ∧
      (28 ≤ (TuneWith (SG3525AdjustFreq sampleFineHigh)
          [(28001, 28000), (27000, 28000)]).SG3525Curr.FreqFWiper ∧
        (TuneWith (SG3525AdjustFreq sampleFineHigh)
          [(28001, 28000), (27000, 28000)]).SG3525Curr.FreqFWiper ≤ 228) :=
  C35_guard_band sampleFineHigh [(28001, 28000), (27000, 28000)] (by decide)

/-- C36: wrap at the rails of the fine wiper.  From a mirrored fine wiper of 0 with
measured > target, the decrement wraps to 65535 and byte 255 is sent to the fine
potentiometer; the `< 28` test fails and the `> 228` test fires, so the fine wiper is
reset to 127 and written, and the coarse wiper is incremented by one and written.  From
a mirrored fine wiper of 65535 with measured < target (state `t`), the increment wraps
to 0 and byte 0 is sent; the `< 28` test fires, so the fine wiper is reset to 127 and
the coarse wiper is decremented by one. -/
theorem C36_wrap_at_the_rails (s t : State)
    (hs : s.SG3525Curr.FreqFWiper = 0) (hsm : s.SG3525Curr.Freq > s.SG3525Set.Freq)
    (ht : t.SG3525Curr.FreqFWiper = 65535) (htm : t.SG3525Curr.Freq < t.SG3525Set.Freq) :
    ((AdjustFreqLaw s).1.SG3525Curr.FreqFWiper = 65535 ∧
        (SG3525AdjustFreq s).SG3525Curr.FreqFWiper = 127 ∧
        (SG3525AdjustFreq s).SG3525Curr.FreqCWiper = inc16 s.SG3525Curr.FreqCWiper ∧
        (SG3525AdjustFreq s).Log = s.Log ++
          ([Event.Select Pot.FreqFPot, Event.SPIByte 0, Event.SPIByte 255,
              Event.Deselect Pot.FreqFPot] ++
            ([Event.Select Pot.FreqFPot, Event.SPIByte 0, Event.SPIByte 127,
                Event.Deselect Pot.FreqFPot] ++
              MCP4131SetWiper Pot.FreqCPot (inc16 s.SG3525Curr.FreqCWiper)))) ∧
      ((AdjustFreqLaw t).1.SG3525Curr.FreqFWiper = 0 ∧
        (SG3525AdjustFreq t).SG3525Curr.FreqFWiper = 127 ∧
        (SG3525AdjustFreq t).SG3525Curr.FreqCWiper = dec16 t.SG3525Curr.FreqCWiper ∧
        (SG3525AdjustFreq t).Log = t.Log ++
          ([Event.Select Pot.FreqFPot, Event.SPIByte 0, Event.SPIByte 0,
              Event.Deselect Pot.FreqFPot] ++
            ([Event.Select Pot.FreqFPot, Event.SPIByte 0, Event.SPIByte 127,
                Event.Deselect Pot.FreqFPot] ++
              MCP4131SetWiper Pot.FreqCPot (dec16 t.SG3525Curr.FreqCWiper)))) := by
  have ls : (AdjustFreqLaw s).1.SG3525Curr.FreqFWiper = 65535 := by
    rw [AdjustFreqLaw_fine, if_pos hsm, hs]
    rfl
  have lt : (AdjustFreqLaw t).1.SG3525Curr.FreqFWiper = 0 := by
    rw [AdjustFreqLaw_fine, if_neg (by omega), if_pos htm, ht]
    rfl
  obtain ⟨sf, sc⟩ := SG3525AdjustFreq_wipers s
  obtain ⟨tf, tc⟩ := SG3525AdjustFreq_wipers t
  have slog := SG3525AdjustFreq_log s
  have tlog := SG3525AdjustFreq_log t
  have hsne : ¬ s.SG3525Curr.Freq = s.SG3525Set.Freq := by omega
  have htne : ¬ t.SG3525Curr.Freq = t.SG3525Set.Freq := by omega
  rw [if_neg hsne, ls, if_neg (by omega), if_pos (by omega)] at sf sc slog
  rw [if_neg htne, lt, if_pos (by omega)] at tf tc tlog
  exact ⟨⟨ls, sf, sc, slog⟩, ⟨lt, tf, tc, tlog⟩⟩

theorem C36_wrap_at_the_rails_witness :
    ((AdjustFreqLaw sampleFineLow).1.SG3525Curr.FreqFWiper = 65535 ∧
        (SG3525AdjustFreq sampleFineLow).SG3525Curr.FreqFWiper = 127 ∧
        (SG3525AdjustFreq sampleFineLow).SG3525Curr.FreqCWiper = inc16 sampleFineLow.SG3525Curr.FreqCWiper ∧
        (SG3525AdjustFreq sampleFineLow).Log = sampleFineLow.Log ++
          ([Event.Select Pot.FreqFPot, Event.SPIByte 0, Event.SPIByte 255,
              Event.Deselect Pot.FreqFPot] ++
            ([Event.Select Pot.FreqFPot, Event.SPIByte 0, Event.SPIByte 127,
                Event.Deselect Pot.FreqFPot] ++
              MCP4131SetWiper Pot.FreqCPot (inc16 sampleFineLow.SG3525Curr.FreqCWiper)))) ∧
      ((AdjustFreqLaw sampleFineHigh).1.SG3525Curr.FreqFWiper = 0 ∧
        (SG3525AdjustFreq sampleFineHigh).SG3525Curr.FreqFWiper = 127 ∧
        (SG3525AdjustFreq sampleFineHigh).SG3525Curr.FreqCWiper = dec16 sampleFineHigh.SG3525Curr.FreqCWiper ∧
        (SG3525AdjustFreq sampleFineHigh).Log = sampleFineHigh.Log ++
          ([Event.Select Pot.FreqFPot, Event.SPIByte 0, Event.SPIByte 0,
              Event.Deselect Pot.FreqFPot] ++
            ([Event.Select Pot.FreqFPot, Event.SPIByte 0, Event.SPIByte 127,
                Event.Deselect Pot.FreqFPot] ++
              MCP4131SetWiper Pot.FreqCPot (dec16 sampleFineHigh.SG3525Curr.FreqCWiper)))) :=
  C36_wrap_at_the_rails sampleFineLow sampleFineHigh rfl (by decide) rfl (by decide)

/-! ## Print flags of the inputs : claims -/

theorem messagesIn_Run (which : Text) (b : Bool) (u : State) :
    messagesIn which (SG3525Run b u).Log = messagesIn which u.Log := by
  rw [(SG3525Run_fields b u).2.2.1]
  simp [messagesIn, List.count_append, List.count_cons]

theorem messagesIn_InputPrinted (b : Bool) (s : State) :
    messagesIn Text.Input1 (InputPrinted Text.Input1 b s).Log
        = messagesIn Text.Input1 s.Log + (if s.SG3525Set.Input1.Print then 1 else 0) ∧
      messagesIn Text.Input2 (InputPrinted Text.Input2 b s).Log
        = messagesIn Text.Input2 s.Log + (if s.SG3525Set.Input1.Print then 1 else 0) := by
  rw [(InputPrinted_fields Text.Input1 b s).2.2.2.2.1,
    (InputPrinted_fields Text.Input2 b s).2.2.2.2.1]
  by_cases h : s.SG3525Set.Input1.Print = true
  · cases b <;> simp [h, messagesIn, InputMsg, List.count_append, List.count_cons]
  · simp [h, messagesIn]

/-- Messages of `ProcessInput1`: one message naming input 1 if `Input1.Print` is set,
none otherwise. -/
theorem ProcessInput1_messages (b : Bool) (s : State) :
    messagesIn Text.Input1 (ProcessInput1 b s).Log
      = messagesIn Text.Input1 s.Log + (if s.SG3525Set.Input1.Print then 1 else 0) := by
  have hp := (messagesIn_InputPrinted b s).1
  rw [ProcessInput1_eq]
  cases s.SG3525Set.Input1.Action
  · exact hp
  · show messagesIn Text.Input1 (SG3525Run b _).Log = _
    rw [messagesIn_Run]
    exact hp
  · show messagesIn Text.Input1 (if b = true then SG3525Run _ _ else _).Log = _
    split
    · rw [messagesIn_Run]
      exact hp
    · exact hp
  · show messagesIn Text.Input1 (if b = true then SG3525Run _ _ else _).Log = _
    split
    · rw [messagesIn_Run]
      exact hp
    · exact hp

/-- Messages of `ProcessInput2`: one message naming input 2 if `Input1.Print` is set,
none otherwise. -/
theorem ProcessInput2_messages (b : Bool) (s : State) :
    messagesIn Text.Input2 (ProcessInput2 b s).Log
      = messagesIn Text.Input2 s.Log + (if s.SG3525Set.Input1.Print then 1 else 0) := by
  have hp := (messagesIn_InputPrinted b s).2
  rw [ProcessInput2_eq]
  cases s.SG3525Set.Input2.Action
  · exact hp
  · show messagesIn Text.Input2 (SG3525Run b _).Log = _
    rw [messagesIn_Run]
    exact hp
  · show messagesIn Text.Input2 (if b = true then SG3525Run _ _ else _).Log = _
    split
    · rw [messagesIn_Run]
      exact hp
    · exact hp
  · show messagesIn Text.Input2 (if b = true then SG3525Run _ _ else _).Log = _
    split
    · rw [messagesIn_Run]
      exact hp
    · exact hp

/-- C33 is what the data model provides for (each `INPUT` has its own `Print` field,
and `ProcessInput1` tests `Input1.Print`), and `ProcessInput2` misses it: line 367
tests `SG3525Set.Input1.Print`.  For every state, `ProcessInput2` prints its message
exactly when the print flag of input 1 is set, whatever the flag of input 2.  With the
flag of input 2 set and that of input 1 clear it prints nothing; with the flag of
input 2 clear and that of input 1 set it prints. -/
theorem C33_Input2_prints_on_Input1_flag (pressed : Bool) (s : State) :
    messagesIn Text.Input1 (ProcessInput1 pressed s).Log
        = messagesIn Text.Input1 s.Log + (if s.SG3525Set.Input1.Print then 1 else 0) ∧
      messagesIn Text.Input2 (ProcessInput2 pressed s).Log
        = messagesIn Text.Input2 s.Log + (if s.SG3525Set.Input1.Print then 1 else 0) ∧
      ((withPrint false true bootState).SG3525Set.Input2.Print = true ∧
        (ProcessInput2 true (withPrint false true bootState)).Log = []) ∧
      ((withPrint true false bootState).SG3525Set.Input2.Print = false ∧
        (ProcessInput2 true (withPrint true false bootState)).Log
          = [Event.StartMsg, Event.PrintStringP Text.Input2, Event.PrintStringP Text.ON]) :=
  ⟨ProcessInput1_messages pressed s, ProcessInput2_messages pressed s,
    by decide, by decide⟩

/-! ## Telescoping of the frequency window : lemmas and claims -/

theorem readingAt_cons (prev c : Nat) (cs : List Nat) (j : Nat) :
    readingAt prev (c :: cs) (j + 1) = readingAt (c % 65536) cs j := by
  unfold readingAt
  cases j with
  | zero => simp
  | succ k => simp

theorem readingAt_lt (cs : List Nat) (j : Nat) : readingAt 0 cs j < 65536 := by
  unfold readingAt
  split <;> omega

theorem readingAt_edges (cs : List Nat) (j : Nat) :
    readingAt 0 cs j = edgesAt cs j % 65536 := by
  unfold readingAt edgesAt
  split <;> rfl

/-- The deltas from tick `k` on add up, modulo 2^16, to the difference between the
last reading and the reading at tick `k`. -/
theorem deltas_telescope : ∀ (cs : List Nat) (prev k : Nat), k ≤ cs.length → prev < 65536 →
    (((deltas prev cs).drop k).sum + readingAt prev cs k) % 65536
      = readingAt prev cs cs.length
  | [], prev, k, hk, hp => by
    have : k = 0 := by simpa using hk
    subst this
    simp only [deltas, List.drop_nil, List.sum_nil, List.length_nil, readingAt, if_true]
    omega
  | c :: cs, prev, 0, _, hp => by
    have ih := deltas_telescope cs (c % 65536) 0 (Nat.zero_le _) (Nat.mod_lt _ (by decide))
    rw [List.length_cons, readingAt_cons, ← ih]
    simp only [deltas, List.drop_zero, List.sum_cons, readingAt, if_true]
    omega
  | c :: cs, prev, k + 1, hk, hp => by
    have ih := deltas_telescope cs (c % 65536) k (by simpa using hk)
      (Nat.mod_lt _ (by decide))
    rw [List.length_cons, readingAt_cons, readingAt_cons, ← ih]
    simp only [deltas, List.drop_succ_cons]

/-- After a run from `FreqInit`, `GetFreq` returns the 16-bit sum of the last
`min N capacity` deltas. -/
theorem FreqRun_GetFreq (cap : Nat) (cs : List Nat) (fuel : Nat)
    (h0 : 0 < cap) (h255 : cap ≤ 255) (hf : cap < fuel) :
    ∃ t, FreqRun cap cs = some t ∧
      GetFreq fuel t = some ((lastN (min cs.length cap) (deltas 0 cs)).sum % 65536) := by
  obtain ⟨t, ht, hlen, _, hsum⟩ := FreqRun_spec cap cs h0
  refine ⟨t, ht, ?_⟩
  have := GetFreqLoop_eq t.Counts (by omega) fuel 0 0 (Nat.zero_le _) (by omega) (by decide)
  simpa [GetFreq, hsum] using this

/-- C34: telescoping of the frequency window.  For every capacity from 1 to 255, after
`N` `FreqUpdate` calls from `FreqInit` with the 16-bit readings `c_1 .. c_N` (and
`c_0 = 0`), `GetFreq` returns `(c_N - c_max(0, N - capacity)) mod 2^16`.  When the
readings are the low 16 bits of the running edge count, this is the number of edges
counted in the window modulo 2^16, and it is that number itself exactly when the
number is below 65536. -/
theorem C34_window_telescopes (cap : Nat) (cs : List Nat) (fuel : Nat)
    (h0 : 0 < cap) (h255 : cap ≤ 255) (hf : cap < fuel)
    (hmono : edgesAt cs (cs.length - cap) ≤ edgesAt cs cs.length) :
    ∃ t, FreqRun cap cs = some t ∧
      GetFreq fuel t
        = some ((readingAt 0 cs cs.length + 65536 - readingAt 0 cs (cs.length - cap))
            % 65536) ∧
      GetFreq fuel t
        = some ((edgesAt cs cs.length - edgesAt cs (cs.length - cap)) % 65536) ∧
      (GetFreq fuel t = some (edgesAt cs cs.length - edgesAt cs (cs.length - cap)) ↔
        edgesAt cs cs.length - edgesAt cs (cs.length - cap) < 65536) := by
  obtain ⟨t, ht, hget⟩ := FreqRun_GetFreq cap cs fuel h0 h255 hf
  have htel := deltas_telescope cs 0 (cs.length - cap) (Nat.sub_le _ _) (by decide)
  have hk := readingAt_lt cs (cs.length - cap)
  have hn := readingAt_lt cs cs.length
  have hwin : lastN (min cs.length cap) (deltas 0 cs)
      = (deltas 0 cs).drop (cs.length - cap) := by
    unfold lastN
    rw [length_deltas]
    congr 1
    omega
  have e1 : (lastN (min cs.length cap) (deltas 0 cs)).sum % 65536
      = (readingAt 0 cs cs.length + 65536 - readingAt 0 cs (cs.length - cap)) % 65536 := by
    rw [hwin]
    omega
  have e2 : (readingAt 0 cs cs.length + 65536 - readingAt 0 cs (cs.length - cap)) % 65536
      = (edgesAt cs cs.length - edgesAt cs (cs.length - cap)) % 65536 := by
    rw [readingAt_edges, readingAt_edges]
    omega
  refine ⟨t, ht, ?_, ?_, ?_⟩
  · rw [hget, e1]
  · rw [hget, e1, e2]
  · rw [hget, e1, e2, Option.some.injEq]
    constructor
    · intro h
      omega
    · intro h
      exact Nat.mod_eq_of_lt h

theorem C34_window_telescopes_witness :
    ∃ t, FreqRun 3 [30000, 60000, 90000, 120000] = some t ∧
      GetFreq 4 t
        = some ((readingAt 0 [30000, 60000, 90000, 120000] 4 + 65536
            - readingAt 0 [30000, 60000, 90000, 120000] (4 - 3)) % 65536) ∧
      GetFreq 4 t
        = some ((edgesAt [30000, 60000, 90000, 120000] 4
            - edgesAt [30000, 60000, 90000, 120000] (4 - 3)) % 65536) ∧
      (GetFreq 4 t = some (edgesAt [30000, 60000, 90000, 120000] 4
            - edgesAt [30000, 60000, 90000, 120000] (4 - 3)) ↔
        edgesAt [30000, 60000, 90000, 120000] 4
          - edgesAt [30000, 60000, 90000, 120000] (4 - 3) < 65536) :=
  C34_window_telescopes 3 [30000, 60000, 90000, 120000] 4 (by decide) (by decide)
    (by decide) (by decide)

/-! ## Calibration : target frequency and coarse wiper : lemmas and claims -/

/-- The `LOWER_FREQ` case, with or without `END_CAL`, leaves the target frequency. -/
theorem CalLowerFreq_target (s : State) :
    (CalLowerFreq s).SG3525Set.Freq = s.SG3525Set.Freq := by
  rw [CalLowerFreq_eq]
  split
  · rfl
  · rw [CalEndCal_eq]

/-- The target frequency after one calibrator call: 28000 if the call was made in
`WAIT_START` with the output on, and as before in every other case. -/
theorem SG3525Cal_target (s : State) :
    (SG3525Cal s).SG3525Set.Freq
      = if s.IsOn = true ∧ s.CalStep = SG3525_CAL_STEP.WAIT_START then CAL_FREQ
        else s.SG3525Set.Freq := by
  by_cases hon : s.IsOn = true
  · cases hstep : s.CalStep
    · rw [if_pos ⟨hon, rfl⟩]
      unfold SG3525Cal
      simp only [hon, hstep, Bool.not_true, Bool.false_eq_true, if_false]
      rw [(SG3525AdjustFreq_frame _).1]
    · rw [if_neg (by simp), SG3525Cal_Wait28k s hon hstep]
      split
      · rw [CalUpperFreq_eq]
      · rw [(SG3525AdjustFreq_frame s).1]
    · rw [if_neg (by simp)]
      unfold SG3525Cal
      simp only [hon, hstep, Bool.not_true, Bool.false_eq_true, if_false]
      rw [CalUpperFreq_eq]
    · rw [if_neg (by simp)]
      unfold SG3525Cal
      simp only [hon, hstep, Bool.not_true, Bool.false_eq_true, if_false]
      exact CalLowerFreq_target s
    · rw [if_neg (by simp)]
      unfold SG3525Cal
      simp only [hon, hstep, Bool.not_true, Bool.false_eq_true, if_false]
      rw [CalEndCal_eq]
  · rw [if_neg (fun h => hon h.1)]
    have hoff : s.IsOn = false := by simpa using hon
    unfold SG3525Cal
    simp only [hoff, Bool.not_false, if_true]

/-- A target of 28000 survives every calibrator call. -/
theorem SG3525Cal_target_kept (s : State) (h : s.SG3525Set.Freq = CAL_FREQ) :
    (SG3525Cal s).SG3525Set.Freq = CAL_FREQ := by
  rw [SG3525Cal_target]
  split
  · rfl
  · exact h

/-- A target of 28000 survives any sequence of calibrator calls, whatever is measured
and however the output is switched in between. -/
theorem CalRunSwitched_target (steps : List (Nat × Option Bool)) : ∀ s : State,
    s.SG3525Set.Freq = CAL_FREQ → (CalRunSwitched s steps).SG3525Set.Freq = CAL_FREQ := by
  induction steps with
  | nil => intro s h; exact h
  | cons p steps ih =>
    intro s h
    refine ih _ (SG3525Cal_target_kept _ ?_)
    cases p.2 <;> exact h

/-- C38: calibration overwrites the user's set-point.  The calibrator call that leaves
`WAIT_START` (output on) sets the target frequency to 28000, whatever it was; every
other calibrator call leaves the target as it is.  So after that call the target is
28000 and stays 28000 over any sequence of further calibrator calls, whatever is
measured and however the output is switched between the calls: through `END_CAL`,
through an abort by a disabled output, and through a restart.  No calibrator call puts
the previous target back. -/
theorem C38_target_overwritten (s : State) (steps : List (Nat × Option Bool))
    (hon : s.IsOn = true) (hstart : s.CalStep = SG3525_CAL_STEP.WAIT_START) :
    CAL_FREQ = 28000 ∧
      ((SG3525Cal s).SG3525Set.Freq = 28000 ∧
        (SG3525Cal s).CalStep = SG3525_CAL_STEP.WAIT_28K) ∧
      (CalRunSwitched (SG3525Cal s) steps).SG3525Set.Freq = 28000 ∧
      (SG3525Cal (CalRunSwitched (SG3525Cal s) steps)).SG3525Set.Freq = 28000 := by
  have h1 : (SG3525Cal s).SG3525Set.Freq = CAL_FREQ := by
    rw [SG3525Cal_target, if_pos ⟨hon, hstart⟩]
  have h2 : (SG3525Cal s).CalStep = SG3525_CAL_STEP.WAIT_28K := by
    unfold SG3525Cal
    simp only [hon, hstart, Bool.not_true, Bool.false_eq_true, if_false]
  have h3 := CalRunSwitched_target steps (SG3525Cal s) h1
  exact ⟨rfl, ⟨h1, h2⟩, h3, SG3525Cal_target_kept _ h3⟩

theorem C38_target_overwritten_witness :
    CAL_FREQ = 28000 ∧
      ((SG3525Cal sampleUserTarget).SG3525Set.Freq = 28000 ∧
        (SG3525Cal sampleUserTarget).CalStep = SG3525_CAL_STEP.WAIT_28K) ∧
      (CalRunSwitched (SG3525Cal sampleUserTarget)
        [(27000, none), (28000, none), (28000, some false), (28000, some true)]).SG3525Set.Freq
          = 28000 ∧
      (SG3525Cal (CalRunSwitched (SG3525Cal sampleUserTarget)
        [(27000, none), (28000, none), (28000, some false),
          (28000, some true)])).SG3525Set.Freq = 28000 :=
  C38_target_overwritten sampleUserTarget
    [(27000, none), (28000, none), (28000, some false), (28000, some true)] rfl rfl

/-- The coarse wiper after a calibrator call that executes the `UPPER_FREQ` or the
`LOWER_FREQ` case: one `uint16_t` decrement. -/
theorem SG3525Cal_coarse (s : State) (hon : s.IsOn = true)
    (hstep : s.CalStep = SG3525_CAL_STEP.UPPER_FREQ ∨ s.CalStep = SG3525_CAL_STEP.LOWER_FREQ ∨
      (s.CalStep = SG3525_CAL_STEP.WAIT_28K ∧
        27990 ≤ s.SG3525Curr.Freq ∧ s.SG3525Curr.Freq ≤ 28010)) :
    (SG3525Cal s).SG3525Curr.FreqCWiper = dec16 s.SG3525Curr.FreqCWiper := by
  rcases hstep with h | h | ⟨h, hband⟩
  · unfold SG3525Cal
    simp only [hon, h, Bool.not_true, Bool.false_eq_true, if_false]
    rw [CalUpperFreq_eq]
  · unfold SG3525Cal
    simp only [hon, h, Bool.not_true, Bool.false_eq_true, if_false]
    exact (CalLowerFreq_fields s).2.2.1
  · rw [SG3525Cal_Wait28k s hon h, if_pos hband, CalUpperFreq_eq]

/-- Repeated `uint16_t` decrements. -/
theorem iterate_dec16 (n c : Nat) (hc : c < 65536) (hn : n ≤ 65536) :
    dec16^[n] c = (c + 65536 - n) % 65536 := by
  induction n with
  | zero => simp; omega
  | succ n ih =>
    rw [Function.iterate_succ_apply', ih (by omega)]
    unfold dec16
    omega

/-- The coarse wiper over the calibrator calls of the alternation, the one that runs
`END_CAL` included: one decrement per call. -/
theorem alternation_coarse (ms : List Nat) : ∀ s : State, s.IsOn = true →
    (s.CalStep = SG3525_CAL_STEP.LOWER_FREQ ∨ s.CalStep = SG3525_CAL_STEP.UPPER_FREQ) →
    ms.length ≤ callsToEndCal s → s.CalCount < 256 →
    (CalRun s ms).SG3525Curr.FreqCWiper = dec16^[ms.length] s.SG3525Curr.FreqCWiper := by
  induction ms with
  | nil => intro s _ _ _ _; rfl
  | cons m ms ih =>
    intro s hon hstep hlen hc
    have hco : (SG3525Cal (withFreq m s)).SG3525Curr.FreqCWiper
        = dec16 s.SG3525Curr.FreqCWiper :=
      SG3525Cal_coarse (withFreq m s) hon (by
        rcases hstep with h | h
        · exact Or.inr (Or.inl h)
        · exact Or.inl h)
    rw [CalRun_cons, List.length_cons, Function.iterate_succ_apply]
    cases ms with
    | nil => exact hco
    | cons m2 ms2 =>
      simp only [List.length_cons] at hlen
      obtain ⟨a1, a2, a3, a4, _⟩ := alternation_step s m hon hstep (by omega) hc
      rw [ih (SG3525Cal (withFreq m s)) a1 a2 (by simp only [List.length_cons]; omega) a4, hco]

/-- C37: net displacement of the coarse wiper by a calibration.  Seen from the state
`w` in which the session waits in `WAIT_28K` with the output on, with the measurement
inside [27990, 28010] at the next call and arbitrary at every later one: each of the
22 calls from that one on decrements the coarse wiper once and writes it (after
`i + 1 ≤ 21` calls the output is still on and the wiper is `initial - (i + 1)` modulo
2^16); the 22nd call runs `END_CAL` (output off, `WAIT_START`, const-frequency) and
leaves the wiper at `initial - 22` modulo 2^16, which is not the initial value; and a
calibrator call made after that leaves the wiper where it is. -/
theorem C37_net_coarse_displacement (w : State) (mk last after : Nat) (alt : List Nat)
    (i : Nat) (hon : w.IsOn = true) (hstep : w.CalStep = SG3525_CAL_STEP.WAIT_28K)
    (hlo : 27990 ≤ mk) (hhi : mk ≤ 28010) (halt : alt.length = 20) (hi : i ≤ 20)
    (hc : w.SG3525Curr.FreqCWiper < 65536) :
    ((CalRun w (mk :: alt.take i)).IsOn = true ∧
        (CalRun w (mk :: alt.take i)).SG3525Curr.FreqCWiper
          = (w.SG3525Curr.FreqCWiper + 65536 - (i + 1)) % 65536 ∧
        writesTo Pot.FreqCPot (CalRun w (mk :: alt.take i)).Log
          = writesTo Pot.FreqCPot w.Log + (i + 1)) ∧
      ((CalRun w (mk :: alt ++ [last])).IsOn = false ∧
        (CalRun w (mk :: alt ++ [last])).CalStep = SG3525_CAL_STEP.WAIT_START ∧
        (CalRun w (mk :: alt ++ [last])).SG3525Set.PwrMode = SG3525_PWR_MODE.PWR_CONST_FREQ ∧
        (CalRun w (mk :: alt ++ [last])).SG3525Curr.FreqCWiper
          = (w.SG3525Curr.FreqCWiper + 65536 - 22) % 65536 ∧
        writesTo Pot.FreqCPot (CalRun w (mk :: alt ++ [last])).Log
          = writesTo Pot.FreqCPot w.Log + 22) ∧
      (CalRun w (mk :: alt ++ [last])).SG3525Curr.FreqCWiper ≠ w.SG3525Curr.FreqCWiper ∧
      (SG3525Cal (withFreq after (CalRun w (mk :: alt ++ [last])))).SG3525Curr.FreqCWiper
        = (CalRun w (mk :: alt ++ [last])).SG3525Curr.FreqCWiper := by
  obtain ⟨⟨r1, _, _, _, r5, _, _⟩, ⟨f1, f2, f3, _, _, f6, _, _⟩⟩ :=
    settled_run w mk last alt i hon hstep hlo hhi halt hi
  obtain ⟨s1, s2, s3, _⟩ := settle_step w mk hon hstep hlo hhi
  have hco : (SG3525Cal (withFreq mk w)).SG3525Curr.FreqCWiper
      = dec16 w.SG3525Curr.FreqCWiper :=
    SG3525Cal_coarse (withFreq mk w) hon (Or.inr (Or.inr ⟨hstep, hlo, hhi⟩))
  have hcalls : callsToEndCal (SG3525Cal (withFreq mk w)) = 21 := by
    unfold callsToEndCal
    rw [if_pos s2, s3]
  have hrun : ∀ ms : List Nat, ms.length ≤ 21 →
      (CalRun w (mk :: ms)).SG3525Curr.FreqCWiper
        = (w.SG3525Curr.FreqCWiper + 65536 - (ms.length + 1)) % 65536 := by
    intro ms hms
    rw [CalRun_cons, alternation_coarse ms _ s1 (Or.inl s2) (by rw [hcalls]; exact hms)
      (by rw [s3]; decide), hco, ← Function.iterate_succ_apply,
      iterate_dec16 _ _ hc (by omega)]
  have hleni : (alt.take i).length = i := by rw [List.length_take]; omega
  have hi' := hrun (alt.take i) (by omega)
  rw [hleni] at hi'
  have hall := hrun (alt ++ [last]) (by simp; omega)
  have hlen : (alt ++ [last]).length + 1 = 22 := by simp; omega
  rw [hlen] at hall
  have hcons : mk :: alt ++ [last] = mk :: (alt ++ [last]) := rfl
  rw [hcons] at f1 f2 f3 f6 ⊢
  refine ⟨⟨r1, hi', r5⟩, ⟨f1, f2, f3, hall, f6⟩, ?_, ?_⟩
  · rw [hall]
    omega
  · have hoff : (withFreq after (CalRun w (mk :: (alt ++ [last])))).IsOn = false := f1
    unfold SG3525Cal
    simp only [hoff, Bool.not_false, if_true]
    rfl

theorem C37_net_coarse_displacement_witness :
    ((CalRun sampleWait (28010 :: (List.replicate 20 28000).take 3)).IsOn = true ∧
        (CalRun sampleWait (28010 :: (List.replicate 20 28000).take 3)).SG3525Curr.FreqCWiper
          = (sampleWait.SG3525Curr.FreqCWiper + 65536 - (3 + 1)) % 65536 ∧
        writesTo Pot.FreqCPot (CalRun sampleWait (28010 :: (List.replicate 20 28000).take 3)).Log
          = writesTo Pot.FreqCPot sampleWait.Log + (3 + 1)) ∧
      ((CalRun sampleWait (28010 :: (List.replicate 20 28000) ++ [27000])).IsOn = false ∧
        (CalRun sampleWait (28010 :: (List.replicate 20 28000) ++ [27000])).CalStep = SG3525_CAL_STEP.WAIT_START ∧
        (CalRun sampleWait (28010 :: (List.replicate 20 28000) ++ [27000])).SG3525Set.PwrMode = SG3525_PWR_MODE.PWR_CONST_FREQ ∧
        (CalRun sampleWait (28010 :: (List.replicate 20 28000) ++ [27000])).SG3525Curr.FreqCWiper
          = (sampleWait.SG3525Curr.FreqCWiper + 65536 - 22) % 65536 ∧
        writesTo Pot.FreqCPot (CalRun sampleWait (28010 :: (List.replicate 20 28000) ++ [27000])).Log
          = writesTo Pot.FreqCPot sampleWait.Log + 22) ∧
      (CalRun sampleWait (28010 :: (List.replicate 20 28000) ++ [27000])).SG3525Curr.FreqCWiper ≠ sampleWait.SG3525Curr.FreqCWiper ∧
      (SG3525Cal (withFreq 26000 (CalRun sampleWait (28010 :: (List.replicate 20 28000) ++ [27000])))).SG3525Curr.FreqCWiper
        = (CalRun sampleWait (28010 :: (List.replicate 20 28000) ++ [27000])).SG3525Curr.FreqCWiper :=
  C37_net_coarse_displacement sampleWait 28010 27000 26000 (List.replicate 20 28000) 3
    rfl rfl (by decide) (by decide) (by decide) (by decide) (by decide)

/-! ## Run timer with a duration of zero : lemmas and claims -/

/-- The run-timer step on an enabled output in Timed mode with the countdown at 0: the
pre-decrement wraps to 65535, which is not 0, so the output stays on. -/
theorem UpdateRunTimer_zero (s : State) (hon : s.IsOn = true)
    (ht : s.SG3525Set.RunMode = SG3525_RUN_MODE.RUN_TIMED)
    (h0 : s.SG3525Curr.RunTimer = 0) :
    (UpdateRunTimer s).IsOn = true ∧ (UpdateRunTimer s).SG3525Curr.RunTimer = 65535 := by
  unfold UpdateRunTimer
  rw [if_pos ⟨hon, ht⟩]
  have hd : dec16 s.SG3525Curr.RunTimer = 65535 := by rw [h0]; rfl
  simp only [hd]
  rw [if_neg (by decide)]
  exact ⟨hon, rfl⟩

/-- Quiet ticks in const-frequency mode from an enabled output in Timed mode with the
countdown at `n`: on with countdown `n - j` after `j < n` ticks, off with countdown 0
after the `n`-th and after any further ones. -/
theorem countdown_run (u : State) (n j : Nat) (pre post : List Tick) (t : Tick)
    (hmode : u.SG3525Set.PwrMode = SG3525_PWR_MODE.PWR_CONST_FREQ)
    (ht : u.SG3525Set.RunMode = SG3525_RUN_MODE.RUN_TIMED)
    (hon : u.IsOn = true) (hn : u.SG3525Curr.RunTimer = n) (h1 : 1 ≤ n) (h16 : n < 65536)
    (hpre : pre.length = n - 1)
    (hq : ∀ x ∈ pre ++ t :: post, x.Input1 = none ∧ x.Input2 = none)
    (hj : j ≤ n - 1) :
    ((UpdateRun u (pre.take j)).IsOn = true ∧
        (UpdateRun u (pre.take j)).SG3525Curr.RunTimer = n - j) ∧
      ((UpdateRun u (pre ++ [t])).IsOn = false ∧
        (UpdateRun u (pre ++ [t])).SG3525Curr.RunTimer = 0) ∧
      ((UpdateRun u (pre ++ t :: post)).IsOn = false ∧
        (UpdateRun u (pre ++ t :: post)).SG3525Curr.RunTimer = 0) := by
  have qpre : ∀ x ∈ pre, x.Input1 = none ∧ x.Input2 = none :=
    fun x hx => hq x (List.mem_append_left _ hx)
  have qt : t.Input1 = none ∧ t.Input2 = none :=
    hq t (List.mem_append_right _ (List.mem_cons_self _ _))
  have qpost : ∀ x ∈ post, x.Input1 = none ∧ x.Input2 = none :=
    fun x hx => hq x (List.mem_append_right _ (List.mem_cons_of_mem _ hx))
  have hlenj : (pre.take j).length = j := by rw [List.length_take]; omega
  obtain ⟨a1, a2, _⟩ := UpdateRun_counting (pre.take j) u
    (fun x hx => qpre x (List.mem_of_mem_take hx)) hmode ht hon (by rw [hn, hlenj]; omega)
    (by rw [hn]; exact h16)
  obtain ⟨b1, b2, b3⟩ := UpdateRun_counting pre u qpre hmode ht hon (by rw [hn, hpre]; omega)
    (by rw [hn]; exact h16)
  have hmode' : (UpdateRun u pre).SG3525Set.PwrMode = SG3525_PWR_MODE.PWR_CONST_FREQ := by
    rw [b3]; exact hmode
  have hrt1 : (UpdateRun u pre).SG3525Curr.RunTimer = 1 := by
    rw [b2, hn, hpre]; omega
  obtain ⟨u1, u2, u3⟩ := SG3525Update_quiet t (UpdateRun u pre) hmode' qt.1 qt.2
  obtain ⟨r1, r2⟩ := UpdateRunTimer_timed (UpdateRun u pre) b1 (by rw [b3]; exact ht)
    (by omega) (by omega)
  rw [if_pos hrt1] at r1
  rw [hrt1] at r2
  have hnth : UpdateRun u (pre ++ [t]) = SG3525Update t (UpdateRun u pre) := by
    rw [UpdateRun_append]; rfl
  have c1 : (UpdateRun u (pre ++ [t])).IsOn = false := by rw [hnth, u1, r1]
  have c2 : (UpdateRun u (pre ++ [t])).SG3525Curr.RunTimer = 0 := by rw [hnth, u2, r2]
  have hall : pre ++ t :: post = (pre ++ [t]) ++ post := by simp
  obtain ⟨d1, d2⟩ := UpdateRun_off post (UpdateRun u (pre ++ [t])) qpost
    (by rw [hnth, u3]; exact hmode') c1
  refine ⟨⟨a1, by rw [a2, hn, hlenj]⟩, ⟨c1, c2⟩, ?_, ?_⟩
  · rw [hall, UpdateRun_append]; exact d1
  · rw [hall, UpdateRun_append, d2]; exact c2

/-- Any number of copies of the sample tick are quiet ticks. -/
theorem sampleTicks_quiet (pre post : Nat) :
    ∀ x ∈ List.replicate pre sampleTick ++ sampleTick :: List.replicate post sampleTick,
      x.Input1 = none ∧ x.Input2 = none := by
  intro x hx
  have hx' : x = sampleTick := by
    simp only [List.mem_append, List.mem_cons, List.mem_replicate] at hx
    rcases hx with ⟨_, h⟩ | h | ⟨_, h⟩ <;> exact h
  rw [hx']
  exact ⟨rfl, rfl⟩

/-- C39: a run-timer duration of zero does not mean immediate shutoff.  After
`SG3525Run(true)` in Timed mode with a configured duration of 0 (power mode
const-frequency, no input events) the output is on with the countdown at 0.  The first
`SG3525Update` pre-decrements the 16-bit countdown from 0 to 65535 and leaves the
output on; the output is still on after each of the first 65535 calls (countdown
`65535 - j` after `1 + j` calls); the 65536th call disables it and leaves the countdown
at 0, and it stays disabled over any further calls. -/
theorem C39_zero_run_timer (s : State) (t0 t : Tick) (pre post : List Tick) (j : Nat)
    (hmode : s.SG3525Set.PwrMode = SG3525_PWR_MODE.PWR_CONST_FREQ)
    (ht : s.SG3525Set.RunMode = SG3525_RUN_MODE.RUN_TIMED)
    (hn : s.SG3525Set.RunTimer = 0)
    (h0 : t0.Input1 = none ∧ t0.Input2 = none)
    (hpre : pre.length = 65534)
    (hq : ∀ x ∈ pre ++ t :: post, x.Input1 = none ∧ x.Input2 = none)
    (hj : j ≤ 65534) :
    ((SG3525Run true s).IsOn = true ∧ (SG3525Run true s).SG3525Curr.RunTimer = 0) ∧
      ((SG3525Update t0 (SG3525Run true s)).IsOn = true ∧
        (SG3525Update t0 (SG3525Run true s)).SG3525Curr.RunTimer = 65535) ∧
      ((UpdateRun (SG3525Run true s) (t0 :: pre.take j)).IsOn = true ∧
        (UpdateRun (SG3525Run true s) (t0 :: pre.take j)).SG3525Curr.RunTimer = 65535 - j) ∧
      ((t0 :: (pre ++ [t])).length = 65536 ∧
        (UpdateRun (SG3525Run true s) (t0 :: (pre ++ [t]))).IsOn = false ∧
        (UpdateRun (SG3525Run true s) (t0 :: (pre ++ [t]))).SG3525Curr.RunTimer = 0) ∧
      ((UpdateRun (SG3525Run true s) (t0 :: (pre ++ t :: post))).IsOn = false ∧
        (UpdateRun (SG3525Run true s) (t0 :: (pre ++ t :: post))).SG3525Curr.RunTimer = 0) := by
  have s0on : (SG3525Run true s).IsOn = true := by simp [SG3525Run, ht, emit]
  have s0set : (SG3525Run true s).SG3525Set = s.SG3525Set := by simp [SG3525Run, ht, emit]
  have s0rt : (SG3525Run true s).SG3525Curr.RunTimer = 0 := by simp [SG3525Run, ht, emit, hn]
  obtain ⟨u1, u2, u3⟩ := SG3525Update_quiet t0 (SG3525Run true s)
    (by rw [s0set]; exact hmode) h0.1 h0.2
  obtain ⟨z1, z2⟩ := UpdateRunTimer_zero (SG3525Run true s) s0on (by rw [s0set]; exact ht) s0rt
  rw [z1] at u1
  rw [z2] at u2
  obtain ⟨c1, c2, c3⟩ := countdown_run (SG3525Update t0 (SG3525Run true s)) 65535 j pre post t
    (by rw [u3, s0set]; exact hmode) (by rw [u3, s0set]; exact ht) u1 u2 (by decide)
    (by decide) hpre hq hj
  simp only [UpdateRun_cons]
  refine ⟨⟨s0on, s0rt⟩, ⟨u1, u2⟩, c1, ⟨?_, c2⟩, c3⟩
  simp only [List.length_cons, List.length_append, List.length_nil, hpre]

theorem C39_zero_run_timer_witness :
    ((SG3525Run true sampleTimedZero).IsOn = true ∧
        (SG3525Run true sampleTimedZero).SG3525Curr.RunTimer = 0) ∧
      ((SG3525Update sampleTick (SG3525Run true sampleTimedZero)).IsOn = true ∧
        (SG3525Update sampleTick (SG3525Run true sampleTimedZero)).SG3525Curr.RunTimer
          = 65535) ∧
      ((UpdateRun (SG3525Run true sampleTimedZero)
          (sampleTick :: (List.replicate 65534 sampleTick).take 3)).IsOn = true ∧
        (UpdateRun (SG3525Run true sampleTimedZero)
          (sampleTick :: (List.replicate 65534 sampleTick).take 3)).SG3525Curr.RunTimer
            = 65535 - 3) ∧
      ((sampleTick :: (List.replicate 65534 sampleTick ++ [sampleTick])).length = 65536 ∧
        (UpdateRun (SG3525Run true sampleTimedZero)
          (sampleTick :: (List.replicate 65534 sampleTick ++ [sampleTick]))).IsOn = false ∧
        (UpdateRun (SG3525Run true sampleTimedZero)
          (sampleTick :: (List.replicate 65534 sampleTick ++ [sampleTick]))).SG3525Curr.RunTimer
            = 0) ∧
      ((UpdateRun (SG3525Run true sampleTimedZero)
          (sampleTick :: (List.replicate 65534 sampleTick
            ++ sampleTick :: List.replicate 2 sampleTick))).IsOn = false ∧
        (UpdateRun (SG3525Run true sampleTimedZero)
          (sampleTick :: (List.replicate 65534 sampleTick
            ++ sampleTick :: List.replicate 2 sampleTick))).SG3525Curr.RunTimer = 0) :=
  C39_zero_run_timer sampleTimedZero sampleTick sampleTick (List.replicate 65534 sampleTick)
    (List.replicate 2 sampleTick) 3 rfl rfl rfl ⟨rfl, rfl⟩ (List.length_replicate _ _)
    (sampleTicks_quiet 65534 2) (by decide)

/-! ## Wiper-side round trip : lemmas and claims -/

/-- C40: the wiper-side round trip is exact.  With the conversions as instantiated for
the fine potentiometer (256 steps, 1000 ohms), `R2W(W2R(w)) = w` for every wiper value
`w` in [0, 255], the resistance `W2R(w)` being in [0, 1000]; and both conversions are
monotonically non-decreasing: `R2W` on the resistances in [0, 1000] and `W2R` on the
wiper values in [0, 255]. -/
theorem C40_wiper_round_trip (w v R Q : Nat) (hwv : w ≤ v) (hv : v ≤ FreqFPot_MAX_WIPER)
    (hRQ : R ≤ Q) (hQ : Q ≤ FreqFPot_MAXR) :
    (FreqFPotR2W (FreqFPotW2R w) = w ∧ FreqFPotW2R w ≤ FreqFPot_MAXR) ∧
      FreqFPotR2W R ≤ FreqFPotR2W Q ∧
      FreqFPotW2R w ≤ FreqFPotW2R v := by
  have hv' : v ≤ 255 := hv
  have hQ' : Q ≤ 1000 := hQ
  have hmax : FreqFPot_MAXR = 1000 := rfl
  refine ⟨⟨FreqFPot_wiper_round_trip w (by omega), ?_⟩, ?_, ?_⟩
  · rw [FreqFPotW2R_eq w (by omega), hmax]
    omega
  · rw [(FreqFPotR2W_eq R (by omega)).1, (FreqFPotR2W_eq Q hQ').1]
    omega
  · rw [FreqFPotW2R_eq w (by omega), FreqFPotW2R_eq v (by omega)]
    omega

theorem C40_wiper_round_trip_witness :
    (FreqFPotR2W (FreqFPotW2R 16) = 16 ∧ FreqFPotW2R 16 ≤ FreqFPot_MAXR) ∧
      FreqFPotR2W 2 ≤ FreqFPotR2W 3 ∧
      FreqFPotW2R 16 ≤ FreqFPotW2R 255 :=
  C40_wiper_round_trip 16 255 2 3 (by decide) (by decide) (by decide) (by decide)

end PowerSupply
